import Mathlib

/-!
# EdTech: tenant access control, shallow embedding

The school-management application keeps its data in a relational store that is
reached through Prisma.  The store is embedded as a record of row lists, each
Prisma query as a pure function on that record, each Express middleware as a
function from a request to either the forwarded request or a response, and each
controller as a function from the request context and the store to a response
and the store after the call.
-/

namespace EdTech

/-! ## Data model (the Prisma models behind the controllers) -/

/-- Row of the User model. Ids and times (milliseconds since the epoch) are JavaScript numbers, kept as integers. -/
structure User where
  id : Int
  idNumber : String
  password : String
  firstName : String
  lastName : String
  email : Option String
  phone : Option String
  role : String
  school : Option String
  isActive : Bool
  isTemporaryPassword : Bool
  dateOfBirth : Option Int
  avatar : Option String
  createdAt : Int
  passwordChangedAt : Option Int := none
  deriving DecidableEq, Repr

/-- Row of the Admin model (profile of a User). -/
structure Admin where
  id : Int
  userId : Int
  roleLevel : String
  deriving DecidableEq, Repr

/-- Row of the Teacher model (profile of a User). -/
structure Teacher where
  id : Int
  userId : Int
  subject : String
  deriving DecidableEq, Repr

/-- Row of the Student model (profile of a User). -/
structure Student where
  id : Int
  userId : Int
  grade : String
  sectionName : String
  tuitionStatus : String
  canChangePassword : Bool
  tempPasswordExpiry : Option Int
  deriving DecidableEq, Repr

/-- Row of the Class model. -/
structure Class where
  id : Int
  name : String
  grade : String
  sectionName : String
  teacherId : Int
  deriving DecidableEq, Repr

/-- Row of the Enrollment model, unique per (classId, studentId). -/
structure Enrollment where
  classId : Int
  studentId : Int
  deriving DecidableEq, Repr

/-- Row of the Assignment model. -/
structure Assignment where
  id : Int
  title : String
  description : Option String
  dueDate : Int
  classId : Int
  teacherId : Int
  createdAt : Int
  deriving DecidableEq, Repr

/-- Row of the Submission model, unique per (assignmentId, studentId). The grade is a
JavaScript number, kept as a rational. -/
structure Submission where
  id : Int
  assignmentId : Int
  studentId : Int
  grade : Option Rat
  feedback : Option String
  fileUrl : Option String := none
  content : Option String := none
  submissionType : Option String := none
  submittedAt : Int := 0
  textTitle : Option String := none
  wordCount : Option Int := none
  status : Option String := none
  drawingData : Option String := none
  deriving DecidableEq, Repr

/-- Row of the Material model. -/
structure Material where
  id : Int
  title : String
  classId : Option Int
  teacherId : Int
  isPublic : Bool
  createdAt : Int
  deriving DecidableEq, Repr

/-- Row of the TuitionPayment model. -/
structure TuitionPayment where
  id : Int
  receiptNumber : String
  amount : Rat
  status : String
  verifiedBy : Int
  verifiedAt : Int
  studentId : Int
  semester : String
  createdAt : Int
  paymentDate : Option Int := none
  deriving DecidableEq, Repr

/-- A scalar JavaScript value, as found in the JSON of exam questions and answers. -/
inductive JsVal where
  | undefined
  | null
  | bool (b : Bool)
  | num (n : Rat)
  | str (s : String)
  deriving DecidableEq, Repr

/-- One element of the JSON array stored in Exam.questions. A key that is absent from
the object is none (for correctAnswer: JsVal.undefined). -/
structure Question where
  question : Option String := none
  type : Option String := none
  correctAnswer : JsVal := .undefined
  marks : Option Rat := none
  points : Option Rat := none
  deriving DecidableEq, Repr

/-- Row of the Exam model. The date is in milliseconds, the duration in minutes; the
questions column holds JSON and may be null. -/
structure Exam where
  id : Int
  title : String
  classId : Int
  teacherId : Int
  date : Int := 0
  duration : Int := 0
  isActive : Bool := true
  createdAt : Int := 0
  description : Option String := none
  questions : Option (List Question) := none
  maxAttempts : Int := 1
  showResults : Bool := false
  totalMarks : Option Rat := none
  deriving DecidableEq, Repr

/-- Row of the ExamAttempt model. -/
structure ExamAttempt where
  id : Int
  examId : Int
  studentId : Int
  status : String
  score : Option Rat := none
  startedAt : Int := 0
  answers : Option (List JsVal) := none
  submittedAt : Option Int := none
  timeSpent : Int := 0
  teacherFeedback : Option String := none
  gradedAt : Option Int := none
  gradedBy : Option Int := none
  deriving DecidableEq, Repr

/-- Row of the Notification model. -/
structure Notification where
  id : Int
  userId : Int
  title : String
  message : String
  read : Bool
  readAt : Option Int := none
  expiresAt : Option Int := none
  createdAt : Int := 0
  icon : Option String := none
  deriving DecidableEq, Repr

/-- The relational store: one list of rows per model. -/
structure DB where
  users : List User := []
  admins : List Admin := []
  teachers : List Teacher := []
  students : List Student := []
  classes : List Class := []
  enrollments : List Enrollment := []
  assignments : List Assignment := []
  submissions : List Submission := []
  materials : List Material := []
  tuitionPayments : List TuitionPayment := []
  exams : List Exam := []
  examAttempts : List ExamAttempt := []
  notifications : List Notification := []
  deriving DecidableEq, Repr

/-! ## Request context -/

/-- The three fields that setSchoolContext writes on the request:
req.isSuperAdmin, req.userSchool and req.canSeeAllSchoolUsers. -/
structure Ctx where
  isSuperAdmin : Bool
  userSchool : Option String
  canSeeAllSchoolUsers : Bool
  deriving DecidableEq, Repr

/-- The object that login stores in req.session.user. -/
structure SessionUser where
  id : Int
  role : String
  school : Option String
  studentId : Option Int := none
  teacherId : Option Int := none
  adminId : Option Int := none
  idNumber : Option String := none
  firstName : Option String := none
  lastName : Option String := none
  avatar : Option String := none
  deriving DecidableEq, Repr

/-- The value of req.user: first the session object (no profiles attached), later the
row fetched by a middleware together with the profiles it includes. -/
structure ReqUser where
  id : Int
  role : String
  school : Option String
  admin : Option Admin := none
  teacher : Option Teacher := none
  student : Option Student := none
  deriving DecidableEq, Repr

/-- The part of an Express request the middlewares read and write. The context is
absent until setSchoolContext assigns it. -/
structure Req where
  session : Option SessionUser
  user : Option ReqUser := none
  ctx : Option Ctx := none
  deriving DecidableEq, Repr

/-- What a middleware does with a request: call next() with the (possibly modified)
request, answer with a status and a text, or redirect. -/
inductive MwResult where
  | next (req : Req)
  | send (status : Nat) (body : String)
  | redirect (url : String)
  deriving DecidableEq, Repr

/-- What a controller answers: a rendered page or JSON body carrying a payload, an
error answer with its status code and message, or a redirect. -/
inductive Response (α : Type) where
  | ok (payload : α)
  | error (status : Nat) (message : String)
  | redirect (url : String)
  deriving DecidableEq, Repr

/-! ## JavaScript and Prisma helpers -/

/-- JavaScript truthiness of a nullable string: null and the empty string are falsy. -/
def truthy : Option String → Bool
  | none => false
  | some s => s != ""

/-- JavaScript truthiness of an optional number id: undefined and 0 are falsy. -/
def truthyId : Option Int → Bool
  | none => false
  | some n => n != 0

/-- Query prisma.user.findUnique({ where: { id } }). -/
def findUserById (db : DB) (id : Int) : Option User :=
  db.users.find? (fun u => u.id == id)

/-- Query prisma.teacher.findUnique({ where: { id } }). -/
def findTeacherById (db : DB) (id : Int) : Option Teacher :=
  db.teachers.find? (fun t => t.id == id)

/-- Query prisma.student.findUnique({ where: { id } }). -/
def findStudentById (db : DB) (id : Int) : Option Student :=
  db.students.find? (fun s => s.id == id)

/-- Query prisma.class.findUnique({ where: { id } }). -/
def findClassById (db : DB) (id : Int) : Option Class :=
  db.classes.find? (fun c => c.id == id)

/-- Query prisma.enrollment.findUnique({ where: { classId_studentId } }). -/
def findEnrollment (db : DB) (classId studentId : Int) : Option Enrollment :=
  db.enrollments.find? (fun e => e.classId == classId && e.studentId == studentId)

/-- The relation user.admin (Admin.userId is unique). -/
def adminOf (db : DB) (u : User) : Option Admin :=
  db.admins.find? (fun a => a.userId == u.id)

/-- The relation user.teacher (Teacher.userId is unique). -/
def teacherOf (db : DB) (u : User) : Option Teacher :=
  db.teachers.find? (fun t => t.userId == u.id)

/-- The relation user.student (Student.userId is unique). -/
def studentOf (db : DB) (u : User) : Option Student :=
  db.students.find? (fun s => s.userId == u.id)

/-- A Prisma where clause that is either empty (no condition, written {}) or asks for
one school: none is {} and some s is the school condition with value s. -/
abbrev SchoolWhere := Option String

/-- Filter { school: s } on a user row. -/
def userMatches (w : SchoolWhere) (u : User) : Bool :=
  match w with
  | none => true
  | some s => u.school == some s

/-- Filter { user: { school: s } } on a teacher row. -/
def teacherMatches (db : DB) (w : SchoolWhere) (t : Teacher) : Bool :=
  match w with
  | none => true
  | some s =>
    match findUserById db t.userId with
    | some u => u.school == some s
    | none => false

/-- Filter { user: { school: s } } on a student row. -/
def studentMatches (db : DB) (w : SchoolWhere) (st : Student) : Bool :=
  match w with
  | none => true
  | some s =>
    match findUserById db st.userId with
    | some u => u.school == some s
    | none => false

/-- Filter { teacher: { user: { school: s } } } on a class row. -/
def classMatches (db : DB) (w : SchoolWhere) (c : Class) : Bool :=
  match w with
  | none => true
  | some s =>
    match findTeacherById db c.teacherId with
    | some t => teacherMatches db (some s) t
    | none => false

/-- Filter { teacher: { user: { school: s } } } on an assignment row. -/
def assignmentMatches (db : DB) (w : SchoolWhere) (a : Assignment) : Bool :=
  match w with
  | none => true
  | some s =>
    match findTeacherById db a.teacherId with
    | some t => teacherMatches db (some s) t
    | none => false

/-- Clause orderBy: { createdAt: 'desc' } on users. -/
def usersNewestFirst (us : List User) : List User :=
  us.insertionSort (fun a b => b.createdAt ≤ a.createdAt)

/-! ## adminController.dashboard -/

/-- The school-scoped part of the data rendered by the admin dashboard (the
notification panel, which is selected by userId only, is not part of it). -/
structure DashboardView where
  totalStudents : Nat
  totalTeachers : Nat
  totalClasses : Nat
  totalAssignments : Nat
  recentActivities : List User
  userSchool : Option String
  isSuperAdmin : Bool
  deriving DecidableEq, Repr

/-- The where clause shared by the five dashboard queries: it stays {} unless
`userSchool && !isSuperAdmin` holds. -/
def dashboardWhere (ctx : Ctx) : SchoolWhere :=
  if truthy ctx.userSchool && !ctx.isSuperAdmin then ctx.userSchool else none

/-- Handler adminController.dashboard. -/
def dashboard (ctx : Ctx) (db : DB) : DashboardView :=
  let w := dashboardWhere ctx
  { totalStudents := (db.students.filter (studentMatches db w)).length
    totalTeachers := (db.teachers.filter (teacherMatches db w)).length
    totalClasses := (db.classes.filter (classMatches db w)).length
    totalAssignments := (db.assignments.filter (assignmentMatches db w)).length
    recentActivities := (usersNewestFirst (db.users.filter (userMatches w))).take 10
    userSchool := ctx.userSchool
    isSuperAdmin := ctx.isSuperAdmin }

/-! ## adminController.manageClasses -/

/-- The data rendered by the class-management page. -/
structure ManageClassesView where
  classes : List Class
  teachers : List Teacher
  userSchool : Option String
  isSuperAdmin : Bool
  deriving DecidableEq, Repr

/-- Handler adminController.manageClasses: classWhere and teacherWhere stay {} unless
`userSchool && !isSuperAdmin` holds. -/
def manageClasses (ctx : Ctx) (db : DB) : ManageClassesView :=
  let w : SchoolWhere :=
    if truthy ctx.userSchool && !ctx.isSuperAdmin then ctx.userSchool else none
  { classes := db.classes.filter (classMatches db w)
    teachers := db.teachers.filter (teacherMatches db w)
    userSchool := ctx.userSchool
    isSuperAdmin := ctx.isSuperAdmin }

/-! ## adminController.manageUsers -/

/-- Clause orderBy: { createdAt: 'desc' } on tuition payments. -/
def paymentsNewestFirst (ps : List TuitionPayment) : List TuitionPayment :=
  ps.insertionSort (fun a b => b.createdAt ≤ a.createdAt)

/-- The relation student.tuitionPayments. -/
def paymentsOf (db : DB) (st : Student) : List TuitionPayment :=
  db.tuitionPayments.filter (fun p => p.studentId == st.id)

/-- One element of the manageUsers result: the user row with the included student
profile (and its latest tuition payment), teacher profile and admin profile. -/
structure ManagedUser where
  user : User
  student : Option Student
  tuitionPayments : List TuitionPayment
  teacher : Option Teacher
  admin : Option Admin
  deriving DecidableEq, Repr

/-- The include clause of the manageUsers query. -/
def managedUserOf (db : DB) (u : User) : ManagedUser :=
  { user := u
    student := studentOf db u
    tuitionPayments :=
      match studentOf db u with
      | some st => (paymentsNewestFirst (paymentsOf db st)).take 1
      | none => []
    teacher := teacherOf db u
    admin := adminOf db u }

/-- The where clause built by manageUsers: {} for a superadmin, the caller's school
when it is truthy, and the sentinel school 'NON_EXISTENT_SCHOOL' otherwise. -/
def manageUsersWhere (ctx : Ctx) : SchoolWhere :=
  if ctx.isSuperAdmin then none
  else if truthy ctx.userSchool then ctx.userSchool
  else some "NON_EXISTENT_SCHOOL"

/-- Tuition counter of manageUsers: users that are students with a profile in the given
tuition status. -/
def countTuition (us : List ManagedUser) (status : String) : Nat :=
  (us.filter (fun m =>
    m.user.role == "student" &&
      (match m.student with
       | some st => st.tuitionStatus == status
       | none => false))).length

/-- Counter expiredStudents of manageUsers: partial students whose expiry is set and
earlier than now. -/
def countExpired (us : List ManagedUser) (now : Int) : Nat :=
  (us.filter (fun m =>
    match m.student with
    | some st =>
      if m.user.role == "student" && st.tuitionStatus == "partial" then
        (match st.tempPasswordExpiry with
         | some e => decide (e < now)
         | none => false)
      else false
    | none => false)).length

/-- The data rendered by the user-management page. -/
structure ManageUsersView where
  users : List ManagedUser
  paidStudents : Nat
  partialStudents : Nat
  unpaidStudents : Nat
  expiredStudents : Nat
  userSchool : Option String
  isSuperAdmin : Bool
  canSeeAllSchoolUsers : Bool
  deriving DecidableEq, Repr

/-- Handler adminController.manageUsers. -/
def manageUsers (now : Int) (ctx : Ctx) (db : DB) : ManageUsersView :=
  let users :=
    (usersNewestFirst (db.users.filter (userMatches (manageUsersWhere ctx)))).map
      (managedUserOf db)
  { users := users
    paidStudents := countTuition users "paid"
    partialStudents := countTuition users "partial"
    unpaidStudents := countTuition users "unpaid"
    expiredStudents := countExpired users now
    userSchool := ctx.userSchool
    isSuperAdmin := ctx.isSuperAdmin
    canSeeAllSchoolUsers := ctx.canSeeAllSchoolUsers }

/-! ## adminController.manageTuition -/

/-- One element of the manageTuition result: the student with the included user, the
five latest tuition payments and the enrollments with their classes. -/
structure TuitionRow where
  student : Student
  user : Option User
  tuitionPayments : List TuitionPayment
  enrollments : List (Enrollment × Option Class)
  deriving DecidableEq, Repr

/-- The include clause of the manageTuition query. -/
def tuitionRowOf (db : DB) (st : Student) : TuitionRow :=
  { student := st
    user := findUserById db st.userId
    tuitionPayments := (paymentsNewestFirst (paymentsOf db st)).take 5
    enrollments :=
      (db.enrollments.filter (fun e => e.studentId == st.id)).map
        (fun e => (e, findClassById db e.classId)) }

/-- The sort key of orderBy: { user: { firstName: 'asc' } }, as the list of characters
of the first name, compared lexicographically. -/
def TuitionRow.firstName (r : TuitionRow) : List Char :=
  match r.user with
  | some u => u.firstName.toList
  | none => []

/-- Handler adminController.manageTuition: prisma.student.findMany without a where
clause. The request context is not read. -/
def manageTuition (_ctx : Ctx) (db : DB) : List TuitionRow :=
  (db.students.map (tuitionRowOf db)).insertionSort
    (fun a b => a.firstName ≤ b.firstName)

/-! ## adminController: operations on one user or one class, addressed by id

The route parameter is given as the value of parseInt on it: none stands for NaN. -/

/-- The current time as the handlers read it: new Date() and its getFullYear(), and the
time zone of the server as far as Date.setDate needs it: offsetShift d is the UTC offset
of the zone now minus its UTC offset at the same wall-clock time d days later, in
milliseconds (0 in a zone whose offset does not change, one hour across a daylight
saving change). -/
structure Clock where
  now : Int
  year : Nat
  offsetShift : Int → Int := fun _ => 0

/-- The largest time value of a Date, in milliseconds; beyond it a Date is Invalid Date. -/
def maxTime : Int := 8640000000000000

/-- Function calculatePasswordExpiry(days): new Date() moved by setDate(getDate() +
days), that is by `days` calendar days of local time. None stands for Invalid Date, the
result when the time leaves the range of Date. -/
def calculatePasswordExpiry (clock : Clock) (days : Int) : Option Int :=
  let time := clock.now + days * 86400000 + clock.offsetShift days
  if -maxTime ≤ time ∧ time ≤ maxTime then some time else none

/-- The value `tuitionStatus === 'partial' ? calculatePasswordExpiry(days) : null` as
Prisma takes it for the column tempPasswordExpiry: a time or null, and none when it is
an Invalid Date, which Prisma refuses by throwing. -/
def partialExpiry (clock : Clock) (tuitionStatus : Option String) (days : Int) :
    Option (Option Int) :=
  if tuitionStatus == some "partial" then (calculatePasswordExpiry clock days).map some
  else some none

/-- A user row with the included student, teacher and admin profiles. -/
structure UserWithProfiles where
  user : User
  student : Option Student
  teacher : Option Teacher
  admin : Option Admin
  deriving DecidableEq, Repr

/-- Query prisma.user.findUnique with include: { student, teacher, admin }. -/
def findUserWithProfiles (db : DB) (id : Int) : Option UserWithProfiles :=
  match findUserById db id with
  | some u => some { user := u, student := studentOf db u, teacher := teacherOf db u,
                     admin := adminOf db u }
  | none => none

/-- Prisma update of the user row with the given id. -/
def updateUserRow (db : DB) (id : Int) (f : User → User) : DB :=
  { db with users := db.users.map (fun u => if u.id == id then f u else u) }

/-- Handler adminController.toggleUserStatus. The request context is not read. -/
def toggleUserStatus (_ctx : Ctx) (db : DB) (userId : Option Int) : Response Bool × DB :=
  match userId with
  | none => (.error 400 "Invalid user ID", db)
  | some id =>
    match findUserById db id with
    | none => (.error 404 "User not found", db)
    | some user =>
      (.ok (!user.isActive), updateUserRow db id (fun u => { u with isActive := !user.isActive }))

/-- Handler adminController.getUser; the payload keeps the date of birth as stored (the
handler formats it as a YYYY-MM-DD text). The request context is not read. -/
def getUser (_ctx : Ctx) (db : DB) (userId : Option Int) : Response UserWithProfiles :=
  match userId with
  | none => .error 400 "Invalid user ID"
  | some id =>
    match findUserWithProfiles db id with
    | none => .error 404 "User not found"
    | some user => .ok user

/-- The fields updateUser reads from the request body; none is an absent (undefined)
field, which Prisma leaves untouched in an update. The date of birth is given parsed. -/
structure UpdateUserBody where
  firstName : Option String := none
  lastName : Option String := none
  email : Option String := none
  phone : Option String := none
  grade : Option String := none
  sectionName : Option String := none
  subject : Option String := none
  roleLevel : Option String := none
  dateOfBirth : Option Int := none
  tuitionStatus : Option String := none
  receiptNumber : Option String := none
  school : Option String := none
  deriving DecidableEq, Repr

/-- The id an autoincrement column gives to the next tuition payment. -/
def nextPaymentId (db : DB) : Int :=
  (db.tuitionPayments.map (fun p => p.id)).foldl max 0 + 1

/-- The student branch of updateUser: tuition fields, the payment record and the
temporary-password flag. None when the expiry is an Invalid Date, so that the student
update throws before this branch has written anything. -/
def updateUserStudent (clock : Clock) (sessionUserId : Int) (db : DB) (userId : Int)
    (st : Student) (body : UpdateUserBody) : Option DB :=
  (partialExpiry clock body.tuitionStatus 30).map fun tempPasswordExpiry =>
  let paid := body.tuitionStatus == some "paid"
  let db1 : DB :=
    { db with students := db.students.map (fun s =>
        if s.id == st.id then
          { s with
            grade := body.grade.getD s.grade
            sectionName := body.sectionName.getD s.sectionName
            tuitionStatus := if truthy body.tuitionStatus then body.tuitionStatus.getD "unpaid"
                             else "unpaid"
            canChangePassword := paid
            tempPasswordExpiry := tempPasswordExpiry }
        else s) }
  let db2 : DB :=
    match body.receiptNumber with
    | some receipt =>
      if truthy (some receipt) && paid then
        if db1.tuitionPayments.any (fun p => p.receiptNumber == receipt) then db1
        else
          { db1 with tuitionPayments := db1.tuitionPayments ++
              [{ id := nextPaymentId db1, receiptNumber := receipt, amount := 0,
                 status := "verified", verifiedBy := sessionUserId, verifiedAt := clock.now,
                 studentId := st.id, semester := toString clock.year ++ "-1",
                 createdAt := clock.now }] }
      else db1
    | none => db1
  if paid then updateUserRow db2 userId (fun u => { u with isTemporaryPassword := false })
  else db2

/-- Handler adminController.updateUser; `file` is the path of the uploaded avatar, if
any. The role-specific update runs for the first of `role === 'student' && user.student`,
`role === 'teacher' && user.teacher`, `role === 'admin' && user.admin` that holds. The
request context is not read. -/
def updateUser (clock : Clock) (sessionUserId : Int) (_ctx : Ctx) (db : DB)
    (userId : Option Int) (body : UpdateUserBody) (file : Option String) :
    Response String × DB :=
  match userId with
  | none => (.error 400 "Invalid user ID", db)
  | some id =>
    match findUserWithProfiles db id with
    | none => (.error 404 "User not found", db)
    | some user =>
      let db1 := updateUserRow db id (fun u =>
        { u with
          firstName := body.firstName.getD u.firstName
          lastName := body.lastName.getD u.lastName
          email := if body.email.isSome then body.email else u.email
          phone := if body.phone.isSome then body.phone else u.phone
          dateOfBirth := body.dateOfBirth
          avatar := if file.isSome then file else user.user.avatar
          school := if body.school.isSome then body.school else u.school })
      let db2 : Option DB :=
        match (if user.user.role == "student" then user.student else none) with
        | some st => updateUserStudent clock sessionUserId db1 id st body
        | none =>
          match (if user.user.role == "teacher" then user.teacher else none) with
          | some t =>
            some { db1 with teachers := db1.teachers.map (fun r =>
                if r.id == t.id then { r with subject := body.subject.getD r.subject } else r) }
          | none =>
            match (if user.user.role == "admin" then user.admin else none) with
            | some a =>
              some { db1 with admins := db1.admins.map (fun r =>
                  if r.id == a.id then { r with roleLevel := body.roleLevel.getD r.roleLevel }
                  else r) }
            | none => some db1
      match db2 with
      | some written => (.ok "User updated successfully", written)
      | none => (.error 500 "Server error occurred while updating user", db1)

/-- A numeric field of a request body: absent or empty (falsy), a text that parseInt
maps to NaN, or a text that parseInt maps to a number. -/
inductive IntField where
  | missing
  | notANumber
  | value (n : Int)
  deriving DecidableEq, Repr

/-- The fields updateClass reads from the request body. -/
structure UpdateClassBody where
  name : Option String
  grade : Option String
  sectionName : Option String
  teacherId : IntField
  deriving DecidableEq, Repr

/-- Handler adminController.updateClass. A class id or teacher id that is NaN, and a
teacher id that names no teacher (foreign key), make Prisma throw, which the handler
answers with 500. The request context is not read. -/
def updateClass (_ctx : Ctx) (db : DB) (classId : Option Int) (body : UpdateClassBody) :
    Response String × DB :=
  if !(truthy body.name && truthy body.grade && truthy body.sectionName &&
        body.teacherId != .missing) then
    (.error 400 "All fields are required", db)
  else
    match classId with
    | none => (.error 500 "Server error", db)
    | some id =>
      match findClassById db id with
      | none => (.error 404 "Class not found", db)
      | some _ =>
        match body.teacherId with
        | .value teacherId =>
          (match findTeacherById db teacherId with
           | none => (.error 500 "Server error", db)
           | some _ =>
             (.ok "Class updated successfully",
              { db with classes := db.classes.map (fun c =>
                  if c.id == id then
                    { c with name := body.name.getD c.name, grade := body.grade.getD c.grade,
                             sectionName := body.sectionName.getD c.sectionName,
                             teacherId := teacherId }
                  else c) }))
        | _ => (.error 500 "Server error", db)

/-- Whether a row of another table refers to the class. -/
def classReferenced (db : DB) (id : Int) : Bool :=
  db.enrollments.any (fun e => e.classId == id) ||
  db.assignments.any (fun a => a.classId == id) ||
  db.materials.any (fun m => m.classId == some id)

/-- Handler adminController.deleteClass. The Prisma schema is not part of the sources,
so the referential action of the relations to Class is a parameter: with `cascade` the
referring rows are deleted with the class, without it a referred class cannot be deleted
and the handler answers 500. The request context is not read. -/
def deleteClass (cascade : Bool) (_ctx : Ctx) (db : DB) (classId : Option Int) :
    Response String × DB :=
  match classId with
  | none => (.error 500 "Server error", db)
  | some id =>
    match findClassById db id with
    | none => (.error 404 "Class not found", db)
    | some _ =>
      if classReferenced db id && !cascade then (.error 500 "Server error", db)
      else
        (.ok "Class deleted successfully",
         { db with
           classes := db.classes.filter (fun c => c.id != id)
           enrollments := db.enrollments.filter (fun e => e.classId != id)
           assignments := db.assignments.filter (fun a => a.classId != id)
           materials := db.materials.filter (fun m => m.classId != some id) })

/-! ## teacherController.gradeAssignment -/

/-- Handler teacherController.gradeAssignment. The function parseFloat is a parameter;
the submission id is given as the value of parseInt (none for NaN, which makes Prisma
throw); an id that names no submission makes the update fail with P2025, answered with
404. Neither the teacher id of the session nor the request context is read. -/
def gradeAssignment (parseFloat : String → Rat) (_ctx : Ctx) (db : DB)
    (submissionId : Option Int) (grade : Option String) (feedback : Option String) :
    Response Unit × DB :=
  match grade with
  | none => (.error 400 "Bad Request", db)
  | some g =>
    if !truthy (some g) then (.error 400 "Bad Request", db)
    else
      match submissionId with
      | none => (.error 500 "Server Error", db)
      | some id =>
        if db.submissions.any (fun s => s.id == id) then
          (.redirect "/teacher/grading",
           { db with submissions := db.submissions.map (fun s =>
               if s.id == id then
                 { s with grade := some (parseFloat g),
                          feedback := if feedback.isSome then feedback else s.feedback }
               else s) })
        else (.error 404 "Submission Not Found", db)

/-! ## middleware/auth.js

The store lookups of the embedding are total, so the catch branches of the middlewares
(taken when Prisma throws) have no counterpart here. -/

/-- The session object seen as req.user: no profile is attached to it. -/
def SessionUser.toReqUser (s : SessionUser) : ReqUser :=
  { id := s.id, role := s.role, school := s.school }

/-- Middleware isAuthenticated. -/
def isAuthenticated (req : Req) : MwResult :=
  match req.session with
  | some s => .next { req with user := some s.toReqUser }
  | none => .redirect "/auth/login"

/-- Middleware isStudent. -/
def isStudent (req : Req) : MwResult :=
  match req.user with
  | some u =>
    if u.role == "student" then .next req
    else .send 403 "Access denied. Student role required."
  | none => .send 403 "Access denied. Student role required."

/-- Middleware isTeacher. -/
def isTeacher (req : Req) : MwResult :=
  match req.user with
  | some u =>
    if u.role == "teacher" then .next req
    else .send 403 "Access denied. Teacher role required."
  | none => .send 403 "Access denied. Teacher role required."

/-- The list allowedRoles of isAdmin. -/
def allowedRoles : List String :=
  ["admin", "administrator", "headteacher", "teacher", "principal", "superadmin"]

/-- Middleware isAdmin: the role must be one of allowedRoles and the user row must
exist; req.user becomes the row with its admin and teacher profiles. -/
def isAdmin (db : DB) (req : Req) : MwResult :=
  match req.user with
  | none => .send 403 "Access denied. Please log in."
  | some u =>
    if !allowedRoles.contains u.role then .send 403 "Access denied. Admin role required."
    else
      match findUserById db u.id with
      | none => .send 403 "User not found."
      | some row =>
        .next { req with user := some { id := row.id, role := row.role, school := row.school,
                                        admin := adminOf db row, teacher := teacherOf db row } }

/-- The access-level decision of setSchoolContext on the freshly fetched user. -/
def schoolContextOf (u : ReqUser) : Ctx :=
  match (if u.role == "admin" then u.admin else none) with
  | some admin =>
    if admin.roleLevel == "superadmin" then
      { isSuperAdmin := true, userSchool := none, canSeeAllSchoolUsers := true }
    else
      { isSuperAdmin := false, userSchool := u.school, canSeeAllSchoolUsers := true }
  | none =>
    if u.role == "teacher" then
      { isSuperAdmin := false, userSchool := u.school, canSeeAllSchoolUsers := false }
    else if u.role == "student" then
      { isSuperAdmin := false, userSchool := u.school, canSeeAllSchoolUsers := false }
    else
      { isSuperAdmin := false
        userSchool := if truthy u.school then u.school else none
        canSeeAllSchoolUsers := false }

/-- Query prisma.user.findUnique with include: { admin, teacher, student }, as the value
assigned to req.user. -/
def freshUser (db : DB) (id : Int) : Option ReqUser :=
  match findUserById db id with
  | some row =>
    some { id := row.id, role := row.role, school := row.school, admin := adminOf db row,
           teacher := teacherOf db row, student := studentOf db row }
  | none => none

/-- Middleware setSchoolContext. -/
def setSchoolContext (db : DB) (req : Req) : MwResult :=
  match req.user with
  | none => .next req
  | some u =>
    match freshUser db u.id with
    | none =>
      .next { req with ctx := some { isSuperAdmin := false, userSchool := none,
                                     canSeeAllSchoolUsers := false } }
    | some fresh => .next { req with user := some fresh, ctx := some (schoolContextOf fresh) }

/-- Middleware restrictToSchool: it logs the context and calls next(). -/
def restrictToSchool (req : Req) : MwResult := .next req

/-- Middleware ensureStudentData of routes/student.js. -/
def ensureStudentData (req : Req) : MwResult :=
  match req.session with
  | some s =>
    if s.role == "student" && !truthyId s.studentId then .redirect "/auth/login"
    else .next req
  | none => .next req

/-! ## studentController.viewMaterials -/

/-- Clause orderBy: { createdAt: 'desc' } on materials. -/
def materialsNewestFirst (ms : List Material) : List Material :=
  ms.insertionSort (fun a b => b.createdAt ≤ a.createdAt)

/-- The data rendered by the materials page of a class. -/
structure MaterialsView where
  materials : List Material
  classData : Class
  teacherUser : User
  deriving DecidableEq, Repr

/-- Handler studentController.viewMaterials; the class id is given as the value of
parseInt (none for NaN, which makes Prisma throw). A class without its teacher or a
teacher without its user makes the school check throw; both are answered with 500. -/
def viewMaterials (session : SessionUser) (ctx : Ctx) (db : DB) (classId : Option Int) :
    Response MaterialsView :=
  match session.studentId with
  | none => .error 401 "Unauthorized"
  | some studentId =>
    if studentId == 0 then .error 401 "Unauthorized"
    else
      match classId with
      | none => .error 500 "Failed to load materials. Please try again."
      | some cid =>
        match findEnrollment db cid studentId with
        | none => .error 403 "You are not enrolled in this class"
        | some _ =>
          match findClassById db cid with
          | none => .error 404 "Class Not Found"
          | some classDetails =>
            match findTeacherById db classDetails.teacherId with
            | none => .error 500 "Failed to load materials. Please try again."
            | some teacher =>
              match findUserById db teacher.userId with
              | none => .error 500 "Failed to load materials. Please try again."
              | some teacherUser =>
                if !ctx.isSuperAdmin && teacherUser.school != ctx.userSchool then
                  .error 403 "This class teacher does not belong to your school"
                else
                  .ok { materials := materialsNewestFirst (db.materials.filter (fun m =>
                          m.classId == some cid && (m.isPublic || m.classId == some cid)))
                        classData := classDetails
                        teacherUser := teacherUser }

/-! ## studentController.submitAssignmentFile -/

/-- Query prisma.assignment.findUnique({ where: { id } }). -/
def findAssignmentById (db : DB) (id : Int) : Option Assignment :=
  db.assignments.find? (fun a => a.id == id)

/-- Query prisma.submission.findFirst({ where: { assignmentId, studentId } }). A student
id that is undefined drops its condition from the where clause. -/
def findFirstSubmission (db : DB) (assignmentId : Int) (studentId : Option Int) :
    Option Submission :=
  db.submissions.find? (fun s =>
    s.assignmentId == assignmentId &&
      (match studentId with
       | some sid => s.studentId == sid
       | none => true))

/-- The id an autoincrement column gives to the next submission. -/
def nextSubmissionId (db : DB) : Int :=
  (db.submissions.map (fun s => s.id)).foldl max 0 + 1

/-- The user of the teacher of the class of an assignment, as loaded by the include
clause class.teacher.user; none when one of the three rows is missing. -/
def assignmentTeacherUser (db : DB) (assignment : Assignment) : Option User :=
  (findClassById db assignment.classId).bind
    (fun c => (findTeacherById db c.teacherId).bind (fun t => findUserById db t.userId))

/-- The school check of the submission handlers,
!isSuperAdmin && assignment.class.teacher.user.school !== userSchool: some true when
access is granted, some false on a mismatch, none when the property chain throws. A
superadmin is granted access without the chain being read. -/
def schoolAccess (ctx : Ctx) (db : DB) (assignment : Assignment) : Option Bool :=
  if ctx.isSuperAdmin then some true
  else (assignmentTeacherUser db assignment).map (fun u => u.school == ctx.userSchool)

/-- Handler studentController.submitAssignmentFile (POST /student/assignments/:id/submit);
`file` is the path of the uploaded file and the assignment id is given as the value of
parseInt (none for NaN, which makes Prisma throw). For a non-superadmin an assignment
without its class, teacher or teacher's user makes the school check throw, a submission
cannot be created
without a student id or for a student that is not stored (foreign key); these cases are
answered with 500. Enrollments are not read. -/
def submitAssignmentFile (now : Int) (session : SessionUser) (ctx : Ctx) (db : DB)
    (assignmentId : Option Int) (file : Option String) : Response String × DB :=
  match file with
  | none => (.error 400 "Please select a file to upload", db)
  | some path =>
    match assignmentId with
    | none => (.error 500 "Failed to submit assignment", db)
    | some aid =>
      match findAssignmentById db aid with
      | none => (.error 403 "Access denied", db)
      | some assignment =>
        match schoolAccess ctx db assignment with
        | none => (.error 500 "Failed to submit assignment", db)
        | some false => (.error 403 "Access denied: School mismatch", db)
        | some true =>
          if now > assignment.dueDate then
            (.error 400 "This assignment is past its due date", db)
          else
            match findFirstSubmission db aid session.studentId with
            | some existing =>
              (.ok "Assignment submitted successfully!",
               { db with submissions := db.submissions.map (fun s =>
                   if s.id == existing.id then
                     { s with fileUrl := some path, submittedAt := now, grade := none,
                              feedback := none }
                   else s) })
            | none =>
              match session.studentId with
              | none => (.error 500 "Failed to submit assignment", db)
              | some studentId =>
                match findStudentById db studentId with
                | none => (.error 500 "Failed to submit assignment", db)
                | some _ =>
                  (.ok "Assignment submitted successfully!",
                   { db with submissions := db.submissions ++
                       [{ id := nextSubmissionId db, assignmentId := aid,
                          studentId := studentId, grade := none, feedback := none,
                          fileUrl := some path, submittedAt := now }] })

/-! ## teacherController: exam attempts shown to the teacher -/

/-- Condition { teacherId } of a where clause: a teacher id that is undefined drops the
condition. -/
def teacherIdMatches (teacherId : Option Int) (e : Exam) : Bool :=
  match teacherId with
  | some t => e.teacherId == t
  | none => true

/-- An exam attempt with the included student and the student's user. -/
structure AttemptView where
  attempt : ExamAttempt
  student : Option Student
  user : Option User
  deriving DecidableEq, Repr

/-- The include clause student: { include: { user: true } } of an attempt. -/
def attemptViewOf (db : DB) (a : ExamAttempt) : AttemptView :=
  { attempt := a
    student := findStudentById db a.studentId
    user := (findStudentById db a.studentId).bind (fun st => findUserById db st.userId) }

/-- One element of the viewExamsForGrading result: the exam with its class and its
submitted attempts. -/
structure ExamForGrading where
  exam : Exam
  classData : Option Class
  attempts : List AttemptView
  deriving DecidableEq, Repr

/-- Handler teacherController.viewExamsForGrading: the exams of the session's teacher
that have a submitted attempt, each with its submitted attempts. The request context is
only passed on to the template. -/
def viewExamsForGrading (session : SessionUser) (_ctx : Ctx) (db : DB) : List ExamForGrading :=
  (db.exams.filter (fun e =>
      teacherIdMatches session.teacherId e &&
        db.examAttempts.any (fun a => a.examId == e.id && a.status == "submitted"))).map
    (fun e =>
      { exam := e
        classData := findClassById db e.classId
        attempts := (db.examAttempts.filter (fun a =>
          a.examId == e.id && a.status == "submitted")).map (attemptViewOf db) })

/-- The data rendered by the exam-results page: the exam, the students enrolled in its
class and all its attempts. -/
structure ExamResultsView where
  exam : Exam
  enrolled : List (Enrollment × Option Student × Option User)
  attempts : List AttemptView
  deriving DecidableEq, Repr

/-- Handler teacherController.getExamResults; the exam id is given as the value of
parseInt (none for NaN, which makes Prisma throw). The request context is only passed
on to the template. -/
def getExamResults (session : SessionUser) (_ctx : Ctx) (db : DB) (examId : Option Int) :
    Response ExamResultsView :=
  match examId with
  | none => .error 500 "Server Error"
  | some id =>
    match db.exams.find? (fun e => e.id == id && teacherIdMatches session.teacherId e) with
    | none => .error 404 "Exam Not Found"
    | some exam =>
      .ok { exam := exam
            enrolled := (db.enrollments.filter (fun en => en.classId == exam.classId)).map
              (fun en => (en, findStudentById db en.studentId,
                (findStudentById db en.studentId).bind (fun st => findUserById db st.userId)))
            attempts := (db.examAttempts.filter (fun a => a.examId == exam.id)).map
              (attemptViewOf db) }

/-! ## The mark-all-read endpoints -/

/-- Route POST /api/notifications/mark-all-read of routes/notifications.js, behind
isAuthenticated: the unread notifications of the session's user are marked read. -/
def markAllReadApi (now : Int) (req : Req) (db : DB) : Response String × DB :=
  match req.session with
  | none => (.redirect "/auth/login", db)
  | some s =>
    (.ok "All notifications marked as read",
     { db with notifications := db.notifications.map (fun n =>
         if n.userId == s.id && !n.read then { n with read := true, readAt := some now }
         else n) })

/-- Handler of the route POST /admin/notifications/mark-all-read of routes/admin.js: the
where clause of its updateMany is { read: false } only. -/
def markAllReadAdminHandler (db : DB) : Response String × DB :=
  (.ok "All notifications marked as read",
   { db with notifications := db.notifications.map (fun n =>
       if !n.read then { n with read := true } else n) })

/-- Route POST /admin/notifications/mark-all-read behind the middlewares of the admin
router: isAuthenticated, isAdmin, setSchoolContext and restrictToSchool. -/
def markAllReadAdmin (req : Req) (db : DB) : Response String × DB :=
  match isAuthenticated req with
  | .next r1 =>
    (match isAdmin db r1 with
     | .next r2 =>
       (match setSchoolContext db r2 with
        | .next r3 =>
          (match restrictToSchool r3 with
           | .next _ => markAllReadAdminHandler db
           | .send status body => (.error status body, db)
           | .redirect url => (.redirect url, db))
        | .send status body => (.error status body, db)
        | .redirect url => (.redirect url, db))
     | .send status body => (.error status body, db)
     | .redirect url => (.redirect url, db))
  | .send status body => (.error status body, db)
  | .redirect url => (.redirect url, db)

/-! ## adminController: tuition and temporary passwords -/

/-- Query prisma.student.findUnique({ where: { userId } }). -/
def findStudentByUserId (db : DB) (userId : Int) : Option Student :=
  db.students.find? (fun s => s.userId == userId)

/-- Prisma update of the student row with the given id. -/
def updateStudentRow (db : DB) (id : Int) (f : Student → Student) : DB :=
  { db with students := db.students.map (fun s => if s.id == id then f s else s) }

/-- Query prisma.tuitionPayment.findUnique({ where: { receiptNumber } }). -/
def findPaymentByReceipt (db : DB) (receipt : String) : Option TuitionPayment :=
  db.tuitionPayments.find? (fun p => p.receiptNumber == receipt)

/-- The step `if (receiptNumber && tuitionStatus === 'paid')` of updateStudentTuition:
a verified payment of amount 0 is recorded for the student unless the receipt number is
already in use. -/
def recordReceipt (clock : Clock) (sessionUserId : Int) (db : DB) (studentId : Int)
    (receiptNumber : Option String) (paid : Bool) : DB :=
  match receiptNumber with
  | some receipt =>
    if truthy (some receipt) && paid then
      match findPaymentByReceipt db receipt with
      | some _ => db
      | none =>
        { db with tuitionPayments := db.tuitionPayments ++
            [{ id := nextPaymentId db, receiptNumber := receipt, amount := 0,
               status := "verified", verifiedBy := sessionUserId,
               verifiedAt := clock.now, studentId := studentId,
               semester := toString clock.year ++ "-1", createdAt := clock.now }] }
    else db
  | none => db

/-- The fields updateStudentTuition reads from the request body; accessDays is given as
the value of parseInt on it (none for NaN or an absent field). -/
structure UpdateTuitionBody where
  tuitionStatus : Option String := none
  accessDays : Option Int := none
  receiptNumber : Option String := none
  deriving DecidableEq, Repr

/-- The expression `parseInt(accessDays) || 30`: NaN and 0 are falsy. -/
def accessDaysOrDefault (accessDays : Option Int) : Int :=
  match accessDays with
  | some n => if n == 0 then 30 else n
  | none => 30

/-- Handler adminController.updateStudentTuition; the route parameter is the id of the
student's user, given as the value of parseInt (none for NaN, which makes Prisma throw).
A tuitionStatus that is absent from the body leaves the column untouched. An expiry that
is an Invalid Date makes the student update throw before anything is written. When the
final user update finds no row, Prisma throws after the earlier writes and the answer
is 500. -/
def updateStudentTuition (clock : Clock) (sessionUserId : Int) (db : DB) (userId : Option Int)
    (body : UpdateTuitionBody) : Response String × DB :=
  match userId with
  | none => (.error 500 "Server error", db)
  | some uid =>
    match findStudentByUserId db uid with
    | none => (.error 404 "Student not found", db)
    | some student =>
      let paid := body.tuitionStatus == some "paid"
      match partialExpiry clock body.tuitionStatus (accessDaysOrDefault body.accessDays) with
      | none => (.error 500 "Server error", db)
      | some tempPasswordExpiry =>
        let db1 := updateStudentRow db student.id (fun s =>
          { s with
            tuitionStatus := body.tuitionStatus.getD s.tuitionStatus
            canChangePassword := paid
            tempPasswordExpiry := tempPasswordExpiry })
        let db2 := recordReceipt clock sessionUserId db1 student.id body.receiptNumber paid
        if paid then
          match findUserById db2 uid with
          | none => (.error 500 "Server error", db2)
          | some _ =>
            (.ok "Tuition status updated successfully",
             updateUserRow db2 uid (fun u => { u with isTemporaryPassword := false }))
        else (.ok "Tuition status updated successfully", db2)

/-- A date field of a request body: absent or empty (falsy), a text for which new Date
gives Invalid Date, or a text for which new Date gives a time. -/
inductive DateField where
  | missing
  | invalid
  | value (time : Int)
  deriving DecidableEq, Repr

/-- The fields recordPayment reads from the request body; the amount is given as the
value of parseFloat on it (none for NaN or an absent field). -/
structure RecordPaymentBody where
  studentId : IntField := .missing
  receiptNumber : Option String := none
  amount : Option Rat := none
  semester : Option String := none
  paymentDate : DateField := .missing
  deriving DecidableEq, Repr

/-- The payment row recordPayment creates when the payment date is not an Invalid Date:
the date of the body, or now when the body has none. -/
def newPayment (clock : Clock) (adminId : Int) (db : DB) (body : RecordPaymentBody)
    (receipt : String) (sid : Int) : TuitionPayment :=
  { id := nextPaymentId db, receiptNumber := receipt
    amount := match body.amount with
      | some a => a
      | none => 0
    status := "verified", verifiedBy := adminId, verifiedAt := clock.now
    studentId := sid
    semester := if truthy body.semester then body.semester.getD ""
                else toString clock.year ++ "-1"
    createdAt := clock.now
    paymentDate := some (match body.paymentDate with
      | .value time => time
      | _ => clock.now) }

/-- The writes of recordPayment for a validated request: the payment row, the student
row set to paid, and the temporary-password flag of the student's user cleared. A
student whose user row is missing makes the last step throw after the earlier writes. -/
def recordPaymentWrites (clock : Clock) (adminId : Int) (db : DB) (body : RecordPaymentBody)
    (receipt : String) (student : Student) : Response TuitionPayment × DB :=
  let payment := newPayment clock adminId db body receipt student.id
  let db1 : DB := { db with tuitionPayments := db.tuitionPayments ++ [payment] }
  let db2 := updateStudentRow db1 student.id (fun s =>
    { s with tuitionStatus := "paid", canChangePassword := true, tempPasswordExpiry := none })
  match findUserById db2 student.userId with
  | none => (.error 500 "Failed to record payment", db2)
  | some user =>
    if user.isTemporaryPassword then
      (.ok payment,
       updateUserRow db2 student.userId (fun u => { u with isTemporaryPassword := false }))
    else (.ok payment, db2)

/-- Handler adminController.recordPayment. The payment row refers to its student
(relation student.tuitionPayments), so creating it for a student id that is NaN or names
no student makes Prisma throw, and so does a payment date that is an Invalid Date; both
are answered with 500 before anything is written. -/
def recordPayment (clock : Clock) (adminId : Int) (db : DB) (body : RecordPaymentBody) :
    Response TuitionPayment × DB :=
  if body.studentId == .missing || !truthy body.receiptNumber then
    (.error 400 "Student ID and receipt number are required", db)
  else
    let receipt := body.receiptNumber.getD ""
    match findPaymentByReceipt db receipt with
    | some _ => (.error 400 "Receipt number already exists", db)
    | none =>
      if body.paymentDate == .invalid then (.error 500 "Failed to record payment", db)
      else
        match body.studentId with
        | .value sid =>
          (match findStudentById db sid with
           | none => (.error 500 "Failed to record payment", db)
           | some student => recordPaymentWrites clock adminId db body receipt student)
        | _ => (.error 500 "Failed to record payment", db)

/-- Handler adminController.resetStudentPassword; the student id is given as the value
of parseInt (none for NaN, which makes Prisma throw). The functions
generateTemporaryPassword (its random result is `newPassword`) and hashPassword are
parameters. The answer carries the new password, the temporary flag and the expiry. An
expiry that is an Invalid Date makes the student update throw. -/
def resetStudentPassword (clock : Clock) (hashPassword : String → String) (newPassword : String)
    (db : DB) (studentId : Option Int) (passwordType : Option String) :
    Response (String × Bool × Option Int) × DB :=
  match studentId with
  | none => (.error 500 "Failed to reset password", db)
  | some sid =>
    match findStudentById db sid with
    | none => (.error 404 "Student not found", db)
    | some student =>
      if passwordType == some "temporary" then
        match calculatePasswordExpiry clock 30 with
        | none => (.error 500 "Failed to reset password", db)
        | some expiry =>
          let db1 := updateStudentRow db sid (fun s =>
            { s with canChangePassword := false, tempPasswordExpiry := some expiry })
          match findUserById db1 student.userId with
          | none => (.error 500 "Failed to reset password", db1)
          | some _ =>
            (.ok (newPassword, true, some expiry),
             updateUserRow db1 student.userId (fun u =>
               { u with password := hashPassword newPassword, isTemporaryPassword := true,
                        passwordChangedAt := none }))
      else if student.tuitionStatus != "paid" then
        (.error 400 "Cannot set permanent password for unpaid students", db)
      else
        match findUserById db student.userId with
        | none => (.error 500 "Failed to reset password", db)
        | some _ =>
          (.ok (newPassword, false, none),
           updateUserRow db student.userId (fun u =>
             { u with password := hashPassword newPassword, isTemporaryPassword := false,
                      passwordChangedAt := some clock.now }))

/-- The students returned by adminController.checkPasswordExpiry, each with the included
user: where { tempPasswordExpiry: { lt: now }, tuitionStatus: { not: 'paid' } }. A null
expiry matches no comparison. -/
def checkPasswordExpiry (now : Int) (db : DB) : List (Student × Option User) :=
  (db.students.filter (fun s =>
    (match s.tempPasswordExpiry with
     | some e => decide (e < now)
     | none => false) && s.tuitionStatus != "paid")).map
    (fun s => (s, findUserById db s.userId))

/-! ## adminController.createUser -/

/-- The fields createUser reads from the request body; none is an absent field. The
date of birth is given parsed. -/
structure CreateUserBody where
  idNumber : Option String := none
  firstName : Option String := none
  lastName : Option String := none
  email : Option String := none
  phone : Option String := none
  role : Option String := none
  grade : Option String := none
  sectionName : Option String := none
  subject : Option String := none
  roleLevel : Option String := none
  dateOfBirth : Option Int := none
  tuitionStatus : Option String := none
  receiptNumber : Option String := none
  school : Option String := none
  deriving DecidableEq, Repr

/-- The characters String.prototype.trim removes: the white space of ECMAScript (tab,
vertical tab, form feed, space, no-break space, the byte order mark and the space
separators of Unicode) and its line terminators (line feed, carriage return, line and
paragraph separator). -/
def isJsWhitespace (c : Char) : Bool :=
  let n := c.toNat
  n == 0x0009 || n == 0x000A || n == 0x000B || n == 0x000C || n == 0x000D || n == 0x0020 ||
    n == 0x00A0 || n == 0x1680 || (0x2000 ≤ n && n ≤ 0x200A) || n == 0x2028 || n == 0x2029 ||
    n == 0x202F || n == 0x205F || n == 0x3000 || n == 0xFEFF

/-- Method String.prototype.trim: the text without its leading and trailing white
space and line terminators. -/
def trim (s : String) : String :=
  String.mk ((((s.toList.dropWhile isJsWhitespace).reverse).dropWhile
    isJsWhitespace).reverse)

/-- The value of `s ? s.trim() : null` for an optional text. -/
def trimOrNull (s : Option String) : Option String :=
  if truthy s then s.map trim else none

/-- The id an autoincrement column gives to the next user. -/
def nextUserId (db : DB) : Int :=
  (db.users.map (fun u => u.id)).foldl max 0 + 1

/-- The id an autoincrement column gives to the next student. -/
def nextStudentId (db : DB) : Int :=
  (db.students.map (fun s => s.id)).foldl max 0 + 1

/-- The id an autoincrement column gives to the next teacher. -/
def nextTeacherId (db : DB) : Int :=
  (db.teachers.map (fun t => t.id)).foldl max 0 + 1

/-- The id an autoincrement column gives to the next admin. -/
def nextAdminId (db : DB) : Int :=
  (db.admins.map (fun a => a.id)).foldl max 0 + 1

/-- The school createUser assigns: the request's school (or null) under a superadmin,
the caller's school otherwise. -/
def assignedSchool (ctx : Ctx) (body : CreateUserBody) : Option String :=
  if ctx.isSuperAdmin then (if truthy body.school then body.school else none)
  else ctx.userSchool

/-- The student branch of createUser, run after the user row `user` has been created:
the student profile and, for a paid student with a receipt number, the tuition payment,
whose studentId is written as `user.id`. The payment row refers to its student (relation
student.tuitionPayments) and its receipt number is unique, so a studentId that names no
student and a receipt number in use make Prisma throw; the catch block then redirects
with the user and student rows already written. An expiry that is an Invalid Date makes
the student create throw, with the user row already written. -/
def createUserStudent (clock : Clock) (sessionUserId : Int) (db : DB) (user : User)
    (body : CreateUserBody) : Response Unit × DB :=
  if !truthy body.grade || !truthy body.sectionName then
    (.redirect "/admin/users?error=Grade and section are required for students",
     { db with users := db.users.filter (fun u => u.id != user.id) })
  else
    match partialExpiry clock body.tuitionStatus 30 with
    | none => (.redirect "/admin/users?error=Server error occurred while creating user", db)
    | some tempPasswordExpiry =>
    let db1 : DB :=
      { db with students := db.students ++
          [{ id := nextStudentId db, userId := user.id
             grade := trim (body.grade.getD "")
             sectionName := trim (body.sectionName.getD "")
             tuitionStatus := if truthy body.tuitionStatus then body.tuitionStatus.getD "unpaid"
                              else "unpaid"
             canChangePassword := body.tuitionStatus == some "paid"
             tempPasswordExpiry := tempPasswordExpiry }] }
    if truthy body.receiptNumber && body.tuitionStatus == some "paid" then
      let receipt := trim (body.receiptNumber.getD "")
      if (findPaymentByReceipt db1 receipt).isSome then
        (.redirect "/admin/users?error=User with this ID number already exists", db1)
      else if (findStudentById db1 user.id).isNone then
        (.redirect "/admin/users?error=Server error occurred while creating user", db1)
      else
        (.redirect "/admin/users?success=User created successfully. Temporary password: 12345",
         { db1 with tuitionPayments := db1.tuitionPayments ++
             [{ id := nextPaymentId db1, receiptNumber := receipt, amount := 0,
                status := "verified", verifiedBy := sessionUserId, verifiedAt := clock.now,
                studentId := user.id, semester := toString clock.year ++ "-1",
                createdAt := clock.now }] })
    else
      (.redirect "/admin/users?success=User created successfully. Temporary password: 12345",
       db1)

/-- Handler adminController.createUser; `file` is the path of the uploaded avatar, if
any, and hashPassword is a parameter. Every answer is a redirect to the user page. -/
def createUser (clock : Clock) (hashPassword : String → String) (sessionUserId : Int)
    (ctx : Ctx) (db : DB) (body : CreateUserBody) (file : Option String) : Response Unit × DB :=
  if !truthy body.idNumber || !truthy body.firstName || !truthy body.lastName ||
      !truthy body.role then
    (.redirect "/admin/users?error=All required fields must be filled", db)
  else
    let idNumber := trim (body.idNumber.getD "")
    let role := body.role.getD ""
    if db.users.any (fun u => u.idNumber == idNumber) then
      (.redirect "/admin/users?error=ID Number already exists", db)
    else
      let user : User :=
        { id := nextUserId db
          idNumber := idNumber
          password := hashPassword "12345"
          firstName := trim (body.firstName.getD "")
          lastName := trim (body.lastName.getD "")
          email := trimOrNull body.email
          phone := trimOrNull body.phone
          role := role
          dateOfBirth := body.dateOfBirth
          avatar := file
          isTemporaryPassword := true
          school := assignedSchool ctx body
          isActive := true
          createdAt := clock.now }
      let db1 : DB := { db with users := db.users ++ [user] }
      if role == "student" then createUserStudent clock sessionUserId db1 user body
      else if role == "teacher" then
        if !truthy body.subject then
          (.redirect "/admin/users?error=Subject is required for teachers",
           { db1 with users := db1.users.filter (fun u => u.id != user.id) })
        else
          (.redirect "/admin/users?success=User created successfully. Temporary password: 12345",
           { db1 with teachers := db1.teachers ++
               [{ id := nextTeacherId db1, userId := user.id,
                  subject := trim (body.subject.getD "") }] })
      else if role == "admin" then
        (.redirect "/admin/users?success=User created successfully. Temporary password: 12345",
         { db1 with admins := db1.admins ++
             [{ id := nextAdminId db1, userId := user.id,
                roleLevel := if truthy body.roleLevel then body.roleLevel.getD "administrator"
                             else "administrator" }] })
      else
        (.redirect "/admin/users?success=User created successfully. Temporary password: 12345",
         db1)

/-! ## studentController: the other submission handlers -/

/-- Handler studentController.submitEnhancedAssignment (POST
/student/assignments/:id/submit-enhanced) with the body fields content and type. The
assignment id is the value of parseInt; the cases that throw are those of
submitAssignmentFile. -/
def submitEnhancedAssignment (now : Int) (session : SessionUser) (ctx : Ctx) (db : DB)
    (assignmentId : Option Int) (content type : Option String) : Response String × DB :=
  match (if truthy content then content else none) with
  | none => (.error 400 "Submission content is required", db)
  | some text =>
    match assignmentId with
    | none => (.error 500 "Failed to submit assignment", db)
    | some aid =>
      match findAssignmentById db aid with
      | none => (.error 403 "Access denied", db)
      | some assignment =>
        match schoolAccess ctx db assignment with
        | none => (.error 500 "Failed to submit assignment", db)
        | some false => (.error 403 "Access denied: School mismatch", db)
        | some true =>
          if now > assignment.dueDate then
            (.error 400 "This assignment is past its due date", db)
          else
            let submissionType := if truthy type then type else some "text"
            match findFirstSubmission db aid session.studentId with
            | some existing =>
              (.ok "Assignment submitted successfully!",
               { db with submissions := db.submissions.map (fun s =>
                   if s.id == existing.id then
                     { s with content := some text, submittedAt := now,
                              submissionType := submissionType, grade := none,
                              feedback := none }
                   else s) })
            | none =>
              match session.studentId with
              | none => (.error 500 "Failed to submit assignment", db)
              | some studentId =>
                match findStudentById db studentId with
                | none => (.error 500 "Failed to submit assignment", db)
                | some _ =>
                  (.ok "Assignment submitted successfully!",
                   { db with submissions := db.submissions ++
                       [{ id := nextSubmissionId db, assignmentId := aid,
                          studentId := studentId, grade := none, feedback := none,
                          content := some text, submittedAt := now,
                          submissionType := submissionType }] })

/-- Call prisma.submission.upsert({ where: { assignmentId_studentId }, update, create })
for an assignment that is stored: the row of the pair is rewritten by update, or the
row built by create is added under the next id. None when Prisma throws: the student id
is undefined, or no row exists and the student is not stored (foreign key). -/
def upsertSubmission (db : DB) (assignmentId : Int) (studentId : Option Int)
    (update : Submission → Submission) (create : Int → Int → Submission) : Option DB :=
  match studentId with
  | none => none
  | some sid =>
    if db.submissions.any (fun s => s.assignmentId == assignmentId && s.studentId == sid) then
      some { db with submissions := db.submissions.map (fun s =>
        if s.assignmentId == assignmentId && s.studentId == sid then update s else s) }
    else
      match findStudentById db sid with
      | none => none
      | some _ => some { db with submissions := db.submissions ++ [create (nextSubmissionId db) sid] }

/-- Handler studentController.submitAssignment (registered for POST
/student/assignments/:assignmentId/submit, after submitAssignmentFile on the same
path). For a non-superadmin the include clause of the assignment query names a relation
filter where Prisma expects select or include; includeAccepted says whether Prisma
accepts that clause instead of throwing. Neither update nor create names grade or
feedback. -/
def submitAssignment (includeAccepted : Bool) (now : Int) (session : SessionUser) (ctx : Ctx)
    (db : DB) (assignmentId : Option Int) (file : Option String) : Response Unit × DB :=
  match file with
  | none => (.error 400 "Please select a file to upload.", db)
  | some path =>
    match assignmentId with
    | none => (.error 500 "Failed to submit assignment. Please try again.", db)
    | some aid =>
      if !ctx.isSuperAdmin && !includeAccepted then
        (.error 500 "Failed to submit assignment. Please try again.", db)
      else
        match findAssignmentById db aid with
        | none => (.error 404 "Assignment Not Found", db)
        | some assignment =>
          if now > assignment.dueDate then
            (.error 400 "This assignment is past the due date and cannot be submitted.", db)
          else
            match upsertSubmission db aid session.studentId
                    (fun s => { s with fileUrl := some path, submittedAt := now })
                    (fun id sid => { id := id, assignmentId := aid, studentId := sid,
                                     grade := none, feedback := none, fileUrl := some path,
                                     submittedAt := now }) with
            | none => (.error 500 "Failed to submit assignment. Please try again.", db)
            | some db1 =>
              match findClassById db assignment.classId with
              | none => (.error 500 "Failed to submit assignment. Please try again.", db1)
              | some c =>
                (.redirect ("/student/class/" ++ toString c.id ++
                   "/assignments?success=Assignment submitted successfully"), db1)

/-- Handler studentController.submitTextAssignment (POST
/student/assignments/:assignmentId/submit-text) with the body fields title and content;
countWords is the word count that the handler takes with two regular expressions.
Neither update nor create names grade or feedback. The payload is the message and the
redirect address. -/
def submitTextAssignment (countWords : String → Int) (now : Int) (session : SessionUser)
    (ctx : Ctx) (db : DB) (assignmentId : Option Int) (title content : Option String) :
    Response (String × String) × DB :=
  match (if truthy title then title else none), (if truthy content then content else none) with
  | some heading, some text =>
    match assignmentId with
    | none => (.error 500 "Failed to submit assignment", db)
    | some aid =>
      match findAssignmentById db aid with
      | none => (.error 404 "Assignment not found", db)
      | some assignment =>
        match schoolAccess ctx db assignment with
        | none => (.error 500 "Failed to submit assignment", db)
        | some false => (.error 403 "Access denied: School mismatch", db)
        | some true =>
          if now > assignment.dueDate then
            (.error 400 "Assignment is past due date", db)
          else
            match upsertSubmission db aid session.studentId
                    (fun s => { s with submittedAt := now, submissionType := some "text",
                                       content := some text, textTitle := some heading,
                                       wordCount := some (countWords text),
                                       status := some "submitted" })
                    (fun id sid => { id := id, assignmentId := aid, studentId := sid,
                                     grade := none, feedback := none, submittedAt := now,
                                     submissionType := some "text", content := some text,
                                     textTitle := some heading,
                                     wordCount := some (countWords text),
                                     status := some "submitted" }) with
            | none => (.error 500 "Failed to submit assignment", db)
            | some db1 =>
              match findClassById db assignment.classId with
              | none => (.error 500 "Failed to submit assignment", db1)
              | some c =>
                (.ok ("Assignment submitted successfully",
                      "/student/class/" ++ toString c.id ++ "/assignments"), db1)
  | _, _ => (.error 400 "Title and content are required", db)

/-- Handler studentController.submitDrawingAssignment (POST
/student/assignments/:assignmentId/submit-drawing) with the body fields title and
imageData. Neither update nor create names grade or feedback. -/
def submitDrawingAssignment (now : Int) (session : SessionUser) (ctx : Ctx) (db : DB)
    (assignmentId : Option Int) (title imageData : Option String) :
    Response (String × String) × DB :=
  match (if truthy title then title else none),
        (if truthy imageData then imageData else none) with
  | some heading, some image =>
    match assignmentId with
    | none => (.error 500 "Failed to submit drawing", db)
    | some aid =>
      match findAssignmentById db aid with
      | none => (.error 404 "Assignment not found", db)
      | some assignment =>
        match schoolAccess ctx db assignment with
        | none => (.error 500 "Failed to submit drawing", db)
        | some false => (.error 403 "Access denied: School mismatch", db)
        | some true =>
          if now > assignment.dueDate then
            (.error 400 "Assignment is past due date", db)
          else
            match upsertSubmission db aid session.studentId
                    (fun s => { s with submittedAt := now, submissionType := some "drawing",
                                       drawingData := some image, textTitle := some heading,
                                       status := some "submitted" })
                    (fun id sid => { id := id, assignmentId := aid, studentId := sid,
                                     grade := none, feedback := none, submittedAt := now,
                                     submissionType := some "drawing",
                                     drawingData := some image, textTitle := some heading,
                                     status := some "submitted" }) with
            | none => (.error 500 "Failed to submit drawing", db)
            | some db1 =>
              match findClassById db assignment.classId with
              | none => (.error 500 "Failed to submit drawing", db1)
              | some c =>
                (.ok ("Drawing assignment submitted successfully",
                      "/student/class/" ++ toString c.id ++ "/assignments"), db1)
  | _, _ => (.error 400 "Title and drawing data are required", db)

/-- Whether an answer is an error answer (a status code with a message). -/
def Response.isError {α : Type} : Response α → Bool
  | .error _ _ => true
  | _ => false

/-! ## studentController.takeExam -/

/-- Query prisma.exam.findUnique({ where: { id } }). -/
def findExamById (db : DB) (id : Int) : Option Exam :=
  db.exams.find? (fun e => e.id == id)

/-- Whether an attempt belongs to the pair (exam, student). -/
def isAttemptOf (examId studentId : Int) (a : ExamAttempt) : Bool :=
  a.examId == examId && a.studentId == studentId

/-- Query prisma.examAttempt.findFirst({ where: { examId, studentId } }). -/
def findFirstAttempt (db : DB) (examId studentId : Int) : Option ExamAttempt :=
  db.examAttempts.find? (isAttemptOf examId studentId)

/-- The attempts stored for the pair (exam, student). -/
def attemptsOf (db : DB) (examId studentId : Int) : List ExamAttempt :=
  db.examAttempts.filter (isAttemptOf examId studentId)

/-- The id an autoincrement column gives to the next exam attempt. -/
def nextAttemptId (db : DB) : Int :=
  (db.examAttempts.map (fun a => a.id)).foldl max 0 + 1

/-- What takeExam hands to the view student/take-exam. -/
structure TakeExamView where
  exam : Exam
  attempt : ExamAttempt
  questions : List Question
  deriving DecidableEq, Repr

/-- Handler studentController.takeExam (GET /student/exams/:examId/take); the exam id is
the value of parseInt (none for NaN, which makes Prisma throw), and a session without a
student id makes the enrollment query throw. The end of the window is the exam date
plus the duration in minutes, in milliseconds. The new attempt refers to the student of
the enrollment row that was just found. -/
def takeExam (now : Int) (session : SessionUser) (_ctx : Ctx) (db : DB) (examId : Option Int) :
    Response TakeExamView × DB :=
  match examId with
  | none => (.error 500 "Server Error", db)
  | some eid =>
    match findExamById db eid with
    | none => (.error 404 "Exam Not Found", db)
    | some exam =>
      match session.studentId with
      | none => (.error 500 "Server Error", db)
      | some studentId =>
        match findEnrollment db exam.classId studentId with
        | none => (.error 403 "Access Denied", db)
        | some _ =>
          if now < exam.date then
            (.error 400 "This exam has not started yet.", db)
          else if now > exam.date + exam.duration * 60000 then
            (.error 400 "This exam has already ended.", db)
          else
            match findFirstAttempt db eid studentId with
            | some existing =>
              if existing.status == "submitted" then
                (.redirect ("/student/exams/" ++ toString existing.id ++ "/results"), db)
              else
                (.ok { exam := exam, attempt := existing,
                       questions := exam.questions.getD [] }, db)
            | none =>
              let attempt : ExamAttempt :=
                { id := nextAttemptId db, examId := eid, studentId := studentId,
                  status := "in_progress", startedAt := now }
              (.ok { exam := exam, attempt := attempt, questions := exam.questions.getD [] },
               { db with examAttempts := db.examAttempts ++ [attempt] })

/-! ## studentController.submitExam -/

/-- The weight `question.marks || 1` that submitExam gives to a question: the marks
when they are a number other than 0, else 1. -/
def marksOrOne (q : Question) : Rat :=
  match q.marks with
  | some m => if m = 0 then 1 else m
  | none => 1

/-- Whether the doubles of JavaScript add the weights of these questions without
rounding: every marks value is a whole number of at most 2 ^ 31 in absolute value and
there are at most 2 ^ 20 questions, so that every sum of weights and half weights is a
multiple of one half below 2 ^ 52. -/
def marksExact (questions : List Question) : Bool :=
  decide (questions.length ≤ 1048576) &&
    questions.all (fun q =>
      match q.marks with
      | some m => m.den == 1 && decide (m.num.natAbs ≤ 2147483648)
      | none => true)

/-- One round of the forEach loop of submitExam on the question at the given index:
the score after the round, or none when studentAnswer.trim() throws because the answer
to a short-answer question is not a string. The numbers of the code are doubles; the
sums and halves taken here as rationals are the numbers the code computes as long as
the weights are whole numbers within the bounds of marksExact. -/
def scoreQuestion (answers : List JsVal) (score : Rat) (index : Nat) (question : Question) :
    Option Rat :=
  let studentAnswer := answers.getD index .undefined
  if studentAnswer != .undefined && studentAnswer != .null then
    if question.type == some "multiple_choice" || question.type == some "true_false" then
      if studentAnswer == question.correctAnswer then some (score + marksOrOne question)
      else some score
    else if question.type == some "short_answer" then
      match studentAnswer with
      | .str s =>
        if (trim s).length > 0 then some (score + marksOrOne question * (1 / 2))
        else some score
      | _ => none
    else some score
  else some score

/-- The forEach loop of submitExam from the given index on. -/
def scoreFrom (answers : List JsVal) : Nat → List Question → Rat → Option Rat
  | _, [], score => some score
  | index, question :: rest, score =>
    match scoreQuestion answers score index question with
    | none => none
    | some next => scoreFrom answers (index + 1) rest next

/-- The score that submitExam computes from the questions of the exam and the answers
of the request body (none: the body has no answers); none when the loop throws. -/
def scoreExam (questions : List Question) (answers : Option (List JsVal)) : Option Rat :=
  match answers with
  | none => some 0
  | some given => if questions.length > 0 then scoreFrom given 0 questions 0 else some 0

/-- The condition `teacher: { user: { school: userSchool } }` that submitExam adds to
the where clause of its exam query unless the context is a superadmin. -/
def examInSchool (ctx : Ctx) (db : DB) (e : Exam) : Bool :=
  ctx.isSuperAdmin ||
    (match (findTeacherById db e.teacherId).bind (fun t => findUserById db t.userId) with
     | some u => u.school == ctx.userSchool
     | none => false)

/-- Query prisma.examAttempt.findFirst({ where: { examId, studentId, status:
'in_progress' } }); a student id that is undefined drops its condition. -/
def findAttemptInProgress (db : DB) (examId : Int) (studentId : Option Int) :
    Option ExamAttempt :=
  db.examAttempts.find? (fun a =>
    a.examId == examId &&
      (match studentId with
       | some sid => a.studentId == sid
       | none => true) &&
      a.status == "in_progress")

/-- The JSON body that submitExam answers with. -/
structure SubmitExamAnswer where
  score : Rat
  totalQuestions : Nat
  attemptId : Int
  deriving DecidableEq, Repr

/-- Handler studentController.submitExam (POST /student/api/exams/:examId/submit) with
the body fields answers (none when absent) and timeSpent (the value of parseInt, none
for NaN). The exam id is the value of parseInt; NaN makes Prisma throw. -/
def submitExam (now : Int) (session : SessionUser) (ctx : Ctx) (db : DB) (examId : Option Int)
    (answers : Option (List JsVal)) (timeSpent : Option Int) :
    Response SubmitExamAnswer × DB :=
  match examId with
  | none => (.error 500 "Failed to submit exam", db)
  | some eid =>
    match (findExamById db eid).filter (examInSchool ctx db) with
    | none => (.error 404 "Exam not found", db)
    | some exam =>
      match findAttemptInProgress db eid session.studentId with
      | none => (.error 404 "Attempt not found", db)
      | some attempt =>
        let questions := exam.questions.getD []
        match scoreExam questions answers with
        | none => (.error 500 "Failed to submit exam", db)
        | some score =>
          (.ok { score := score, totalQuestions := questions.length, attemptId := attempt.id },
           { db with examAttempts := db.examAttempts.map (fun a =>
               if a.id == attempt.id then
                 { a with answers := (match answers with
                                      | some given => some given
                                      | none => a.answers),
                          score := some score, submittedAt := some now,
                          status := "submitted", timeSpent := timeSpent.getD 0 }
               else a) })

/-- The score of one question in the words of the specification: the full marks of a
multiple_choice or true_false question whose answer equals correctAnswer, half the
marks of a short_answer question with any non-empty answer, and 0 otherwise. -/
def specQuestionScore (q : Question) (answer : JsVal) : Rat :=
  if (q.type == some "multiple_choice" || q.type == some "true_false") &&
      answer == q.correctAnswer then q.marks.getD 0
  else if q.type == some "short_answer" &&
      answer != .undefined && answer != .null && answer != .str "" then q.marks.getD 0 / 2
  else 0

/-- The score of a submission in the words of the specification: the sum of
specQuestionScore over the questions. -/
def specScore (questions : List Question) (answers : List JsVal) : Rat :=
  (questions.enum.map (fun p => specQuestionScore p.2 (answers.getD p.1 .undefined))).sum

/-- The score of one question as the code gives it: nothing for a missing answer; the
weight marksOrOne for a multiple_choice or true_false question whose answer is strictly
equal to correctAnswer; half that weight for a short_answer question whose answer is a
text that is not empty after trimming; 0 otherwise. -/
def trimmedQuestionScore (q : Question) (answer : JsVal) : Rat :=
  if answer == .undefined || answer == .null then 0
  else if q.type == some "multiple_choice" || q.type == some "true_false" then
    if answer == q.correctAnswer then marksOrOne q else 0
  else if q.type == some "short_answer" then
    match answer with
    | .str s => if (trim s).length > 0 then marksOrOne q / 2 else 0
    | _ => 0
  else 0

/-- Whether the answer given to every short_answer question is a text or is missing. -/
def shortAnswersAreText (index : Nat) (questions : List Question) (answers : List JsVal) :
    Bool :=
  (questions.enumFrom index).all (fun p =>
    p.2.type != some "short_answer" ||
      (match answers.getD p.1 .undefined with
       | .str _ => true
       | .undefined => true
       | .null => true
       | _ => false))

/-! ## teacherController: grading and publishing exam attempts -/

/-- The id an autoincrement column gives to the next notification. -/
def nextNotificationId (db : DB) : Int :=
  (db.notifications.map (fun n => n.id)).foldl max 0 + 1

/-- Helper createNotification of teacherController.js: one unread notification that
expires after seven days. An error of the create call (the user is not stored) is
caught and logged, and nothing is written. -/
def createNotification (now : Int) (db : DB) (userId : Int) (title message icon : String) : DB :=
  match findUserById db userId with
  | none => db
  | some _ =>
    { db with notifications := db.notifications ++
        [{ id := nextNotificationId db, userId := userId, title := title, message := message,
           read := false, expiresAt := some (now + 7 * 24 * 60 * 60 * 1000), createdAt := now,
           icon := some icon }] }

/-- Query prisma.examAttempt.findUnique({ where: { id } }). -/
def findAttemptById (db : DB) (id : Int) : Option ExamAttempt :=
  db.examAttempts.find? (fun a => a.id == id)

/-- The id of attempt.student.user, none when the student or the user is missing. -/
def attemptUserId (db : DB) (a : ExamAttempt) : Option Int :=
  ((findStudentById db a.studentId).bind (fun st => findUserById db st.userId)).map
    (fun u => u.id)

/-- Handler teacherController.submitGrading (POST
/teacher/api/exams/attempts/:attemptId/grade) with the body fields feedback and
totalScore; totalScore is the number that parseFloat reads from the body. The attempt
id is the value of parseInt (none for NaN, which makes Prisma throw). The status of the
attempt is not read. An attempt without its exam, student or student's user makes a
property access throw. The payload is the attempt id. -/
def submitGrading (now : Int) (session : SessionUser) (db : DB) (attemptId : Option Int)
    (feedback : Option String) (totalScore : Rat) : Response Int × DB :=
  match attemptId with
  | none => (.error 500 "Failed to submit grading", db)
  | some id =>
    match findAttemptById db id with
    | none => (.error 403 "Access denied", db)
    | some attempt =>
      match findExamById db attempt.examId with
      | none => (.error 500 "Failed to submit grading", db)
      | some exam =>
        if some exam.teacherId != session.teacherId then (.error 403 "Access denied", db)
        else
          let db1 : DB :=
            { db with examAttempts := db.examAttempts.map (fun a =>
                if a.id == id then
                  { a with score := some totalScore,
                           teacherFeedback := (match feedback with
                                               | some text => some text
                                               | none => a.teacherFeedback),
                           status := "graded", gradedAt := some now,
                           gradedBy := session.teacherId }
                else a) }
          match attemptUserId db attempt with
          | none => (.error 500 "Failed to submit grading", db1)
          | some userId =>
            (.ok id,
             createNotification now db1 userId "Exam Graded"
               ("Your exam \"" ++ exam.title ++
                 "\" has been graded. Results will be available once published.")
               "fa-check-circle")

/-- The loop of publishResults that notifies the student of every attempt: the store
after the loop, and false when a property access threw on the way. -/
def notifyPublished (now : Int) (examTitle : String) : DB → List ExamAttempt → Bool × DB
  | db, [] => (true, db)
  | db, attempt :: rest =>
    match attemptUserId db attempt with
    | none => (false, db)
    | some userId =>
      notifyPublished now examTitle
        (createNotification now db userId "Exam Results Published"
          ("Your results for \"" ++ examTitle ++
            "\" have been published. Check your exam results!")
          "fa-chart-bar")
        rest

/-- Handler teacherController.publishResults (POST
/teacher/api/exams/:examId/publish-results): every attempt of the exam in state graded
moves to published. The payload is the number of students notified. -/
def publishResults (now : Int) (session : SessionUser) (db : DB) (examId : Option Int) :
    Response Nat × DB :=
  match examId with
  | none => (.error 500 "Failed to publish results", db)
  | some eid =>
    match findExamById db eid with
    | none => (.error 403 "Access denied", db)
    | some exam =>
      if some exam.teacherId != session.teacherId then (.error 403 "Access denied", db)
      else
        let gradedAttempts :=
          db.examAttempts.filter (fun a => a.examId == eid && a.status == "graded")
        let db1 : DB :=
          { db with examAttempts := db.examAttempts.map (fun a =>
              if a.examId == eid && a.status == "graded" then { a with status := "published" }
              else a) }
        match notifyPublished now exam.title db1 gradedAttempts with
        | (false, db2) => (.error 500 "Failed to publish results", db2)
        | (true, db2) => (.ok gradedAttempts.length, db2)

/-! ## studentController.viewExamResults -/

/-- The payload of an answer, none for an error answer or a redirect. -/
def Response.payload {α : Type} : Response α → Option α
  | .ok p => some p
  | _ => none

/-- What viewExamResults hands to the view student/exam-results. The percentage is the
number before toFixed(1); it is none when the division by a total of 0 leaves the
finite numbers. -/
structure StudentResultsView where
  attempt : ExamAttempt
  exam : Exam
  totalMarks : Rat
  percentage : Option Rat
  deriving DecidableEq, Repr

/-- The total that viewExamResults shows: the stored totalMarks when it is a number
other than 0, else the sum of `question.marks || 1` over the questions, else 100. -/
def resultsTotalMarks (exam : Exam) : Rat :=
  let recomputed : Rat :=
    match exam.questions with
    | some questions => questions.foldl (fun total question => total + marksOrOne question) 0
    | none => 100
  match exam.totalMarks with
  | some total => if total != 0 then total else recomputed
  | none => recomputed

/-- Handler studentController.viewExamResults (GET /student/exams/:attemptId/results);
the attempt id is the value of parseInt (none for NaN, which makes Prisma throw). The
status of the attempt is not read. -/
def viewExamResults (session : SessionUser) (_ctx : Ctx) (db : DB) (attemptId : Option Int) :
    Response StudentResultsView :=
  match attemptId with
  | none => .error 500 "Server Error"
  | some id =>
    match findAttemptById db id with
    | none => .error 403 "Access Denied"
    | some attempt =>
      if some attempt.studentId != session.studentId then .error 403 "Access Denied"
      else
        match findExamById db attempt.examId with
        | none => .error 500 "Server Error"
        | some exam =>
          let totalMarks := resultsTotalMarks exam
          let percentage : Option Rat :=
            match attempt.score with
            | some score =>
              if score = 0 then some 0
              else if totalMarks = 0 then none
              else some (score / totalMarks * 100)
            | none => some 0
          .ok { attempt := attempt, exam := exam, totalMarks := totalMarks,
                percentage := percentage }

/-! ## teacherController: createAssignment and updateAssignment -/

/-- Body of the assignment forms. The due date is missing, not a date (new Date gives
Invalid Date, which Prisma rejects) or a time; the class id is missing, not a number
(parseInt gives NaN) or a number. -/
structure AssignmentBody where
  title : Option String := none
  description : Option String := none
  dueDate : IntField := .missing
  classId : IntField := .missing
  deriving DecidableEq, Repr

/-- The id an autoincrement column gives to the next assignment. -/
def nextAssignmentId (db : DB) : Int :=
  (db.assignments.map (fun a => a.id)).foldl max 0 + 1

/-- Handler teacherController.createAssignment (POST /teacher/assignments/create). The
row is written with the teacher id of the session and the class id of the body; the
class is not read. Prisma throws when the teacher id is undefined, the date or the class
id is not a value, or the class or the teacher is not stored (foreign keys). -/
def createAssignment (now : Int) (session : SessionUser) (db : DB) (body : AssignmentBody) :
    Response Unit × DB :=
  if !truthy body.title || body.dueDate == .missing || body.classId == .missing then
    (.error 400 "Bad Request", db)
  else
    match body.title, body.dueDate, body.classId, session.teacherId with
    | some title, .value dueDate, .value classId, some teacherId =>
      if (findClassById db classId).isNone || (findTeacherById db teacherId).isNone then
        (.error 500 "Server Error", db)
      else
        (.redirect "/teacher/assignments",
         { db with assignments := db.assignments ++
             [{ id := nextAssignmentId db, title := title, description := body.description,
                dueDate := dueDate, classId := classId, teacherId := teacherId,
                createdAt := now }] })
    | _, _, _, _ => (.error 500 "Server Error", db)

/-- Query prisma.class.findFirst({ where: { id, teacherId } }). -/
def findClassOfTeacher (db : DB) (classId teacherId : Int) : Option Class :=
  db.classes.find? (fun c => c.id == classId && c.teacherId == teacherId)

/-- Handler teacherController.updateAssignment (PUT /teacher/assignments/update/:id); the
assignment id is the value of parseInt (none for NaN, which makes Prisma throw). The
payload is the updated row. -/
def updateAssignment (session : SessionUser) (db : DB) (assignmentId : Option Int)
    (body : AssignmentBody) : Response Assignment × DB :=
  match (if truthy body.title then body.title.map trim else none) with
  | none => (.error 400 "Assignment title is required", db)
  | some title =>
    if title == "" then (.error 400 "Assignment title is required", db)
    else if body.dueDate == .missing then (.error 400 "Due date is required", db)
    else if body.classId == .missing then (.error 400 "Class selection is required", db)
    else
      match assignmentId with
      | none => (.error 500 "Failed to update assignment", db)
      | some id =>
        match findAssignmentById db id with
        | none => (.error 404 "Assignment not found", db)
        | some existing =>
          if some existing.teacherId != session.teacherId then
            (.error 403 "Access denied: You can only edit your own assignments", db)
          else
            match body.classId, body.dueDate with
            | .value classId, .value dueDate =>
              match findClassOfTeacher db classId existing.teacherId with
              | none => (.error 400 "Invalid class selection", db)
              | some _ =>
                let updated : Assignment :=
                  { existing with title := title, description := trimOrNull body.description,
                                  dueDate := dueDate, classId := classId }
                (.ok updated,
                 { db with assignments := db.assignments.map (fun a =>
                     if a.id == id then
                       { a with title := title, description := trimOrNull body.description,
                                dueDate := dueDate, classId := classId }
                     else a) })
            | .value classId, _ =>
              match findClassOfTeacher db classId existing.teacherId with
              | none => (.error 400 "Invalid class selection", db)
              | some _ => (.error 500 "Failed to update assignment", db)
            | _, _ => (.error 500 "Failed to update assignment", db)

/-! ## authController.login and utils/passwordUtils.comparePassword -/

/-- Function comparePassword of utils/passwordUtils.js; bcryptCompare stands for
bcrypt.compare (an exception there is caught and gives false). The password is the body
field, none when absent. Both texts are trimmed before they are compared. -/
def comparePassword (bcryptCompare : String → String → Bool) (password : Option String)
    (hashedPassword : String) : Bool :=
  match password with
  | none => false
  | some pw =>
    if pw == "" || hashedPassword == "" then false
    else
      let cleanPassword := trim pw
      let cleanHash := trim hashedPassword
      if cleanPassword == "" || cleanHash == "" then false
      else bcryptCompare cleanPassword cleanHash

/-- Query prisma.user.findUnique({ where: { idNumber } }). -/
def findUserByIdNumber (db : DB) (idNumber : String) : Option User :=
  db.users.find? (fun u => u.idNumber == idNumber)

/-- What login answers: the login page with an error text, or a redirect. -/
inductive LoginAnswer where
  | loginPage (error : String)
  | redirect (url : String)
  deriving DecidableEq, Repr

/-- The object that login assigns to req.session.user for a user row: the seven copied
fields and the id of the profile that goes with the role, if that profile is stored. -/
def sessionUserOf (db : DB) (user : User) : SessionUser :=
  { id := user.id, role := user.role, school := user.school,
    studentId := if user.role == "student" then (studentOf db user).map (fun s => s.id)
                 else none
    teacherId := if user.role == "teacher" then (teacherOf db user).map (fun t => t.id)
                 else none
    adminId := if user.role == "admin" then (adminOf db user).map (fun a => a.id) else none
    idNumber := some user.idNumber, firstName := some user.firstName,
    lastName := some user.lastName, avatar := user.avatar }

/-- Handler authController.login (POST /auth/login) with the body fields idNumber and
password (none when absent). The second component is the object the call assigns to
req.session.user, none when the call leaves the session alone. A body without idNumber
makes idNumber.trim() throw. -/
def login (bcryptCompare : String → String → Bool) (db : DB) (idNumber password : Option String) :
    LoginAnswer × Option SessionUser :=
  match idNumber with
  | none => (.loginPage "An error occurred during login. Please try again.", none)
  | some idn =>
    match findUserByIdNumber db (trim idn) with
    | none => (.loginPage "Invalid ID number or password", none)
    | some user =>
      if !user.isActive then
        (.loginPage "Account is deactivated. Please contact administrator.", none)
      else if !comparePassword bcryptCompare password user.password then
        (.loginPage "Invalid ID number or password", none)
      else
        (.redirect (if user.role == "student" then "/student/dashboard"
                    else if user.role == "teacher" then "/teacher/dashboard"
                    else if user.role == "admin" then "/admin/dashboard"
                    else "/"),
         some (sessionUserOf db user))

/-! ## teacherController.createExam -/

/-- The questions field of the exam form: absent, a text that JSON.parse rejects, a
JSON value that is not an array, or an array of question objects. -/
inductive QuestionsField where
  | missing
  | unparsable
  | notArray
  | parsed (questions : List Question)
  deriving DecidableEq, Repr

/-- A non-empty number field of a form, as createExam reads the duration: the text
with the value of isNaN on it (numeric is false when isNaN is true) and the value of
parseInt on it (none for NaN). The two can differ: the text 60abc is not numeric and
parses to 60, a blank text is numeric and parses to NaN. -/
structure NumberText where
  text : String
  numeric : Bool
  parsed : Option Int
  deriving DecidableEq, Repr

/-- The fields createExam reads from the request body, as form fields (any non-empty
text is truthy). The duration is none when absent or empty; the other numbers are given
as the value of parseInt, the date as the time of new Date; showResults is the value of
the comparison with true. -/
structure ExamBody where
  title : Option String := none
  description : Option String := none
  duration : Option NumberText := none
  date : IntField := .missing
  classId : IntField := .missing
  questions : QuestionsField := .missing
  maxAttempts : IntField := .missing
  showResults : Bool := false
  totalMarks : IntField := .missing
  deriving DecidableEq, Repr

/-- The message createExam leaves in the session before it redirects to /teacher/exams. -/
inductive Flash where
  | success (message : String)
  | error (message : String)
  deriving DecidableEq, Repr

/-- Truthiness of a number field of a question: present and not 0. -/
def truthyNum : Option Rat → Bool
  | some n => n != 0
  | none => false

/-- The check createExam makes on each question: text, type and correct answer are
present. -/
def questionComplete (q : Question) : Bool :=
  truthy q.question && truthy q.type && q.correctAnswer != .undefined

/-- The points createExam writes into a question: 1 when it has neither points nor
marks, its marks when it has marks and no points, else its own points. -/
def withPoints (q : Question) : Question :=
  if !truthyNum q.points && !truthyNum q.marks then { q with points := some 1 }
  else if truthyNum q.marks && !truthyNum q.points then { q with points := q.marks }
  else q

/-- The weight `q.points || q.marks || 1` that createExam gives to a question. -/
def pointsOrMarksOrOne (q : Question) : Rat :=
  if truthyNum q.points then q.points.getD 1
  else if truthyNum q.marks then q.marks.getD 1
  else 1

/-- The total calculatedTotalMarks of createExam. -/
def calculatedTotalMarks (questions : List Question) : Rat :=
  questions.foldl (fun total q => total + pointsOrMarksOrOne q) 0

/-- The id an autoincrement column gives to the next exam. -/
def nextExamId (db : DB) : Int :=
  (db.exams.map (fun e => e.id)).foldl max 0 + 1

/-- The loop of createExam that notifies the students enrolled in the class; it stops
at the first enrollment whose student or user is missing (the error is caught). -/
def notifyEnrolled (now : Int) (message : String) : DB → List Enrollment → DB
  | db, [] => db
  | db, enrollment :: rest =>
    match (findStudentById db enrollment.studentId).bind
            (fun st => findUserById db st.userId) with
    | none => db
    | some u =>
      notifyEnrolled now message
        (createNotification now db u.id "New Exam Scheduled" message "fa-clock") rest

/-- Handler teacherController.createExam (POST /teacher/exams/create). Every answer is a
redirect to /teacher/exams; the first component is the message left in the session.
The text of the notification depends on the locale and is built by formatNotice from
the title, the date and the text of the duration. Prisma throws when the teacher id is
undefined, a number or the date is not a value, or the class or the teacher is not
stored. -/
def createExam (formatNotice : String → Int → String → String) (now : Int)
    (session : SessionUser) (db : DB) (body : Option ExamBody) : Flash × DB :=
  match body with
  | none =>
    (.error ("Form data was not received. Please check if the form is configured " ++
       "correctly."), db)
  | some b =>
    match (if truthy b.title then b.title else none) with
    | none => (.error "Exam title is required.", db)
    | some title =>
      if trim title == "" then (.error "Exam title is required.", db)
      else
        match b.duration with
        | none => (.error "Valid duration is required.", db)
        | some duration =>
          if !duration.numeric then (.error "Valid duration is required.", db)
          else if b.date == .missing then (.error "Exam date and time is required.", db)
          else if b.classId == .missing then (.error "Please select a class.", db)
          else
            match b.questions with
            | .missing =>
              (.error "Questions are required. Please add at least one question.", db)
            | .unparsable => (.error "Invalid questions format. Must be valid JSON.", db)
            | .notArray => (.error "Questions must be a non-empty array.", db)
            | .parsed questions =>
              if questions.isEmpty then (.error "Questions must be a non-empty array.", db)
              else
                match questions.findIdx? (fun q => !questionComplete q) with
                | some i =>
                  (.error ("Question " ++ toString (i + 1) ++
                     " is missing required fields (question text, type, or correct answer)."),
                   db)
                | none =>
                  let parsedQuestions := questions.map withPoints
                  match duration.parsed, b.date, b.classId, session.teacherId,
                        b.totalMarks with
                  | _, _, _, _, .notANumber =>
                    (.error "Failed to create exam. Please try again.", db)
                  | some minutes, .value date, .value classId, some teacherId, total =>
                    if b.maxAttempts == .notANumber then
                      (.error "Failed to create exam. Please try again.", db)
                    else if (findClassById db classId).isNone then
                      (.error "Invalid class ID. Please select a valid class.", db)
                    else if (findTeacherById db teacherId).isNone then
                      (.error "Invalid class ID. Please select a valid class.", db)
                    else
                      let exam : Exam :=
                        { id := nextExamId db, title := trim title,
                          description := trimOrNull b.description, duration := minutes,
                          date := date, classId := classId, teacherId := teacherId,
                          questions := some parsedQuestions,
                          maxAttempts := (match b.maxAttempts with
                                          | .value n => n
                                          | _ => 1),
                          showResults := b.showResults,
                          totalMarks := (match total with
                                         | .value n => some (n : Rat)
                                         | _ => some (calculatedTotalMarks parsedQuestions)),
                          isActive := true, createdAt := now }
                      let db1 : DB := { db with exams := db.exams ++ [exam] }
                      (.success "Exam created successfully!",
                       notifyEnrolled now (formatNotice title date duration.text) db1
                         (db1.enrollments.filter (fun e => e.classId == classId)))
                  | _, _, _, _, _ => (.error "Failed to create exam. Please try again.", db)

/-! ## Sample store: two schools -/

/-- A user row with the given id, role and school. -/
def mkUser (id : Int) (role : String) (school : Option String) (createdAt : Int) : User :=
  { id := id, idNumber := "U" ++ toString id, password := "hash", firstName := "F",
    lastName := "L", email := none, phone := none, role := role, school := school,
    isActive := true, isTemporaryPassword := false, dateOfBirth := none, avatar := none,
    createdAt := createdAt }

/-- A store with two schools. Greenwood: a principal (user 1) and a student (user 4,
student 2). Riverview: a teacher (user 2, teacher 1) with the classes 1 and 2, a student
(user 3, student 1) with a recorded tuition payment, one assignment with one submission
and one material in class 1. Student 2 of Greenwood is enrolled in class 1 of Riverview.
User 5 is a principal without a school, user 6 a superadmin whose row carries a school. -/
def sampleDB : DB :=
  { users := [mkUser 1 "admin" (some "Greenwood") 10, mkUser 2 "teacher" (some "Riverview") 20,
              mkUser 3 "student" (some "Riverview") 30, mkUser 4 "student" (some "Greenwood") 40,
              mkUser 5 "admin" none 50, mkUser 6 "admin" (some "Greenwood") 60]
    admins := [⟨1, 1, "principal"⟩, ⟨2, 5, "principal"⟩, ⟨3, 6, "superadmin"⟩]
    teachers := [⟨1, 2, "Math"⟩]
    students := [⟨1, 3, "10", "A", "paid", true, none⟩, ⟨2, 4, "10", "A", "unpaid", false, none⟩]
    classes := [⟨1, "Algebra", "10", "A", 1⟩, ⟨2, "Geometry", "10", "B", 1⟩]
    enrollments := [⟨1, 1⟩, ⟨1, 2⟩]
    assignments := [⟨1, "Homework", none, 1000, 1, 1, 60⟩]
    submissions := [{ id := 1, assignmentId := 1, studentId := 1, grade := none,
                      feedback := none }]
    materials := [⟨1, "Notes", some 1, 1, true, 70⟩]
    tuitionPayments := [{ id := 1, receiptNumber := "REC100", amount := 0, status := "verified",
                          verifiedBy := 1, verifiedAt := 35, studentId := 1,
                          semester := "2025-1", createdAt := 35 }] }

/-- The context of a non-superadmin whose school is null. -/
def noSchoolCtx : Ctx := { isSuperAdmin := false, userSchool := none, canSeeAllSchoolUsers := true }

/-- The context of the Greenwood principal. -/
def greenwoodCtx : Ctx :=
  { isSuperAdmin := false, userSchool := some "Greenwood", canSeeAllSchoolUsers := true }

/-- The context of a superadmin. -/
def superCtx : Ctx := { isSuperAdmin := true, userSchool := none, canSeeAllSchoolUsers := true }

/-- The context of a Greenwood teacher or student. -/
def greenwoodMemberCtx : Ctx :=
  { isSuperAdmin := false, userSchool := some "Greenwood", canSeeAllSchoolUsers := false }

/-- The user rows listed by manageUsers. -/
def listedUsers (now : Int) (ctx : Ctx) (db : DB) : List User :=
  (manageUsers now ctx db).users.map (fun m => m.user)

/-- A store whose only user belongs to a school that is named NON_EXISTENT_SCHOOL. -/
def sentinelDB : DB :=
  { users := [mkUser 9 "student" (some "NON_EXISTENT_SCHOOL") 5] }

/-- A request of the Riverview teacher (user 2) after isAuthenticated. -/
def teacherReq : Req :=
  { session := some { id := 2, role := "teacher", school := some "Riverview", teacherId := some 1 }
    user := some { id := 2, role := "teacher", school := some "Riverview" } }

/-- A request whose session names user 99, a student row that is no longer stored. -/
def staleReq : Req :=
  { session := some { id := 99, role := "student", school := some "Greenwood",
                      studentId := some 7 }
    user := some { id := 99, role := "student", school := some "Greenwood" } }

/-- A request of the Greenwood student (user 4) after isAuthenticated. -/
def studentReq : Req :=
  { session := some { id := 4, role := "student", school := some "Greenwood",
                      studentId := some 2 }
    user := some { id := 4, role := "student", school := some "Greenwood" } }

/-- A request of the superadmin (user 6) after isAuthenticated. -/
def superReq : Req :=
  { session := some { id := 6, role := "admin", school := some "Greenwood", adminId := some 3 }
    user := some { id := 6, role := "admin", school := some "Greenwood" } }

/-- The store after the given user has been deactivated. -/
def deactivate (db : DB) (id : Int) : DB :=
  updateUserRow db id (fun u => { u with isActive := false })

/-- A request of the principal without a school (user 5) after isAuthenticated. -/
def noSchoolReq : Req :=
  { session := some { id := 5, role := "admin", school := none, adminId := some 2 }
    user := some { id := 5, role := "admin", school := none } }

/-- The session of the Greenwood student (user 4, student 2). -/
def greenwoodStudentSession : SessionUser :=
  { id := 4, role := "student", school := some "Greenwood", studentId := some 2 }

/-- The two-school store with a second assignment, given in class 2 of the Riverview
teacher, a class in which no student is enrolled. -/
def sampleDB2 : DB :=
  { sampleDB with
    assignments := sampleDB.assignments ++
      [{ id := 2, title := "Quiz", description := none, dueDate := 1000, classId := 2,
         teacherId := 1, createdAt := 65 }] }

/-- The session of the Riverview student (user 3, student 1). -/
def riverviewStudentSession : SessionUser :=
  { id := 3, role := "student", school := some "Riverview", studentId := some 1 }

/-- The session of the Riverview teacher (user 2, teacher 1). -/
def riverviewTeacherSession : SessionUser :=
  { id := 2, role := "teacher", school := some "Riverview", teacherId := some 1 }

/-- The context of a Riverview teacher or student. -/
def riverviewMemberCtx : Ctx :=
  { isSuperAdmin := false, userSchool := some "Riverview", canSeeAllSchoolUsers := false }

/-- The two-school store with an exam of the Riverview teacher in class 1 and two
attempts: a submitted one of the Greenwood student 2 and a graded one of the Riverview
student 1. -/
def examDB : DB :=
  { sampleDB with
    exams := [{ id := 1, title := "Midterm", classId := 1, teacherId := 1 }]
    examAttempts := [{ id := 1, examId := 1, studentId := 2, status := "submitted" },
                     { id := 2, examId := 1, studentId := 1, status := "graded" }] }

/-- The two-school store with one unread notification for the Greenwood principal
(user 1) and one for the Riverview student (user 3). -/
def notificationDB : DB :=
  { sampleDB with
    notifications := [{ id := 1, userId := 1, title := "Welcome", message := "m", read := false },
                      { id := 2, userId := 3, title := "Exam Graded", message := "m",
                        read := false }] }

/-- A request of the Greenwood principal (user 1) with its session. -/
def principalReq : Req :=
  { session := some { id := 1, role := "admin", school := some "Greenwood", adminId := some 1 } }

/-- The clock used in the examples: time 100 in the year 2025. -/
def sampleClock : Clock := { now := 100, year := 2025 }

/-- A request body that moves a student to partial payment with ten days of access. -/
def partialBody : UpdateTuitionBody := { tuitionStatus := some "partial", accessDays := some 10 }

/-- A request body that records the receipt REC200 for student 2. -/
def rec200Body : RecordPaymentBody := { studentId := .value 2, receiptNumber := some "REC200" }

/-- The payment row that recordPayment writes for rec200Body at the sample clock. -/
def rec200Payment : TuitionPayment :=
  { id := 2, receiptNumber := "REC200", amount := 0, status := "verified", verifiedBy := 1,
    verifiedAt := 100, studentId := 2, semester := toString 2025 ++ "-1", createdAt := 100,
    paymentDate := some 100 }

/-- The student tuition invariant: canChangePassword == (tuitionStatus == 'paid'), and
tempPasswordExpiry is null unless tuitionStatus is 'partial'. -/
def tuitionInvariant (st : Student) : Bool :=
  (st.canChangePassword == (st.tuitionStatus == "paid")) &&
    (st.tuitionStatus == "partial" || st.tempPasswordExpiry.isNone)

/-- A request body that moves a student to partial payment with minus five days. -/
def negativeDaysBody : UpdateTuitionBody :=
  { tuitionStatus := some "partial", accessDays := some (-5) }

/-- A request body that moves a student to partial payment with zero days. -/
def zeroDaysBody : UpdateTuitionBody := { tuitionStatus := some "partial", accessDays := some 0 }

/-- A request body that reuses the stored receipt number REC100 for student 2. -/
def rec100Body : RecordPaymentBody := { studentId := .value 2, receiptNumber := some "REC100" }

/-- A request body that creates a paid student with the receipt REC300. -/
def paidStudentBody : CreateUserBody :=
  { idNumber := some "S100", firstName := some "Ann", lastName := some "Lee",
    role := some "student", grade := some "10", sectionName := some "A",
    tuitionStatus := some "paid", receiptNumber := some "REC300" }

/-- A store with one unpaid student whose temporary password expired at time 50 and one
partial student whose expiry 500 is still ahead at time 100. -/
def expiryDB : DB :=
  { users := [mkUser 1 "student" (some "Greenwood") 10, mkUser 2 "student" (some "Greenwood") 20]
    students := [⟨1, 1, "10", "A", "unpaid", false, some 50⟩,
                 ⟨2, 2, "10", "A", "partial", false, some 500⟩] }

/-- Whether a submission row belongs to the pair (assignment, student). -/
def isSubmissionOf (assignmentId studentId : Int) (s : Submission) : Bool :=
  s.assignmentId == assignmentId && s.studentId == studentId

/-- The submission rows of the pair (assignment, student). -/
def submissionsOf (db : DB) (assignmentId studentId : Int) : List Submission :=
  db.submissions.filter (isSubmissionOf assignmentId studentId)

/-- Two file submissions of the same student for the same assignment, at the times now1
and now2 with the files file1 and file2, with a gradeAssignment call in between. -/
def submitGradeSubmit (now1 now2 : Int) (session : SessionUser) (ctx : Ctx) (db : DB)
    (assignmentId : Int) (file1 file2 : String) (parseFloat : String → Rat) (gradeCtx : Ctx)
    (submissionId : Option Int) (grade feedback : Option String) : Response String × DB :=
  submitAssignmentFile now2 session ctx
    (gradeAssignment parseFloat gradeCtx
      (submitAssignmentFile now1 session ctx db (some assignmentId) (some file1)).2
      submissionId grade feedback).2
    (some assignmentId) (some file2)

/-- The two-school store in which the submission of the Riverview student 1 for
assignment 1 has been graded 85 with the feedback Good. -/
def gradedDB : DB :=
  { sampleDB with
    submissions := [{ id := 1, assignmentId := 1, studentId := 1, grade := some 85,
                      feedback := some "Good", fileUrl := some "uploads/old.pdf" }] }

/-- The two-school store with one exam of the Riverview teacher in class 1, open from
time 1000 for 60 minutes, and no attempt. The exam has a multiple-choice question of 2
marks, a true/false question without marks and a short-answer question of 4 marks. -/
def quizDB : DB :=
  { sampleDB with
    exams := [{ id := 1, title := "Quiz", classId := 1, teacherId := 1, date := 1000,
                duration := 60,
                questions := some
                  [{ question := some "2 + 2", type := some "multiple_choice",
                     correctAnswer := .str "B", marks := some 2 },
                   { question := some "0 is even", type := some "true_false",
                     correctAnswer := .bool true },
                   { question := some "Define a prime", type := some "short_answer",
                     correctAnswer := .str "", marks := some 4 }],
                totalMarks := some 7 }] }

/-- The quiz store after the Riverview student 1 has opened exam 1 at time 2000. -/
def quizStartedDB : DB :=
  { quizDB with
    examAttempts := [{ id := 1, examId := 1, studentId := 1, status := "in_progress",
                       startedAt := 2000 }] }

/-- The store after the Riverview student 1 has opened exam 1 of the quiz store at time
2000 and has submitted answers at 3000. -/
def submittedAttemptDB : DB :=
  (submitExam 3000 riverviewStudentSession riverviewMemberCtx
    (takeExam 2000 riverviewStudentSession riverviewMemberCtx quizDB (some 1)).2
    (some 1) (some [.str "B", .bool true, .str "prime"]) (some 40)).2

/-- The store after the teacher has graded that attempt with 6 marks at time 4000. -/
def gradedAttemptDB : DB :=
  (submitGrading 4000 riverviewTeacherSession submittedAttemptDB (some 1) (some "Well done") 6).2

/-- The store after the teacher has published the results of exam 1 at time 5000. -/
def publishedDB : DB :=
  (publishResults 5000 riverviewTeacherSession gradedAttemptDB (some 1)).2

/-- The two-school store with a second teacher: user 7 of Greenwood is teacher 2 and
teaches class 3. -/
def twoTeacherDB : DB :=
  { sampleDB with
    users := sampleDB.users ++ [mkUser 7 "teacher" (some "Greenwood") 70]
    teachers := sampleDB.teachers ++ [⟨2, 7, "Art"⟩]
    classes := sampleDB.classes ++ [⟨3, "Drawing", "10", "A", 2⟩] }

/-- A request body for an assignment in class 3, due at time 9000. -/
def class3Body : AssignmentBody :=
  { title := some "Still life", dueDate := .value 9000, classId := .value 3 }

/-- The invariant of the Assignment model: the teacher id stored in the assignment is
the teacher id of the class with the assignment's class id. -/
def teacherMatchesClass (db : DB) (a : Assignment) : Bool :=
  match findClassById db a.classId with
  | some c => c.teacherId == a.teacherId
  | none => false

/-- A bcrypt.compare for the examples: the hash of the sample users stands for the
password secret. -/
def sampleCompare (password hash : String) : Bool :=
  hash == "hash" && password == "secret"

/-- A request body of a Greenwood principal that asks for the school Riverview. -/
def otherSchoolBody : CreateUserBody :=
  { idNumber := some "T200", firstName := some "Bo", lastName := some "Ray",
    role := some "teacher", subject := some "Art", school := some "Riverview" }

/-- An exam form with one multiple-choice question that carries 5 points and no marks,
for class 1, open from time 1000 for 60 minutes, without totalMarks. -/
def pointsExamBody : ExamBody :=
  { title := some "Points quiz",
    duration := some { text := "60", numeric := true, parsed := some 60 },
    date := .value 1000,
    classId := .value 1,
    questions := .parsed [{ question := some "2 + 2", type := some "multiple_choice",
                            correctAnswer := .str "B", points := some 5 }] }

/-- The two-school store after the Riverview teacher has created the exam of
pointsExamBody at time 500, the Riverview student 1 has opened it at time 2000 and has
answered its only question correctly at time 3000. -/
def pointsExamDB : DB :=
  (submitExam 3000 riverviewStudentSession riverviewMemberCtx
    (takeExam 2000 riverviewStudentSession riverviewMemberCtx
      (createExam (fun _ _ _ => "New exam") 500 riverviewTeacherSession sampleDB
        (some pointsExamBody)).2
      (some 1)).2
    (some 1) (some [.str "B"]) (some 30)).2

/-- The two-school store with an exam whose only question is a true/false question
that carries 0 marks, and an attempt of the Riverview student 1 in progress. -/
def zeroMarksDB : DB :=
  { sampleDB with
    exams := [{ id := 1, title := "Warm-up", classId := 1, teacherId := 1, date := 1000,
                duration := 60,
                questions := some
                  [{ question := some "0 is even", type := some "true_false",
                     correctAnswer := .bool true, marks := some 0 }] }]
    examAttempts := [{ id := 1, examId := 1, studentId := 1, status := "in_progress",
                       startedAt := 2000 }] }

/-! ## Theorems -/

/-- C1 (fails on the code): a principal whose user row has no school is resolved to a
non-superadmin context whose school is null, and under that context the handlers manageClasses and dashboard run their queries with the empty where clause, so
on the sample store they return the Riverview class and teacher and non-zero counts
and all six users instead of empty lists and zeros. -/
theorem manageClasses_dashboard_noSchool_unfiltered :
    setSchoolContext sampleDB noSchoolReq =
      .next { noSchoolReq with
              user := some { id := 5, role := "admin", school := none,
                             admin := some ⟨2, 5, "principal"⟩ }
              ctx := some noSchoolCtx } ∧
    (manageClasses noSchoolCtx sampleDB).classes = sampleDB.classes ∧
    (manageClasses noSchoolCtx sampleDB).teachers = sampleDB.teachers ∧
    (dashboard noSchoolCtx sampleDB).totalStudents = 2 ∧
    (dashboard noSchoolCtx sampleDB).totalTeachers = 1 ∧
    (dashboard noSchoolCtx sampleDB).totalClasses = 2 ∧
    (dashboard noSchoolCtx sampleDB).totalAssignments = 1 ∧
    (dashboard noSchoolCtx sampleDB).recentActivities = usersNewestFirst sampleDB.users := by
  decide

/-- C2 (fails on the code): under the context of the Greenwood principal, getUser hands
out the Riverview student (user 3), toggleUserStatus deactivates it, updateUser rewrites
the name and school of the Riverview teacher (user 2), updateClass renames class 1 of
Riverview and deleteClass removes class 2 of Riverview; every call succeeds. -/
theorem adminById_other_school_succeeds :
    getUser greenwoodCtx sampleDB (some 3) =
      .ok { user := mkUser 3 "student" (some "Riverview") 30,
            student := some ⟨1, 3, "10", "A", "paid", true, none⟩,
            teacher := none, admin := none } ∧
    (toggleUserStatus greenwoodCtx sampleDB (some 3)).1 = .ok false ∧
    (findUserById (toggleUserStatus greenwoodCtx sampleDB (some 3)).2 3).map (fun u => u.isActive)
      = some false ∧
    (updateUser { now := 100, year := 2025 } 1 greenwoodCtx sampleDB (some 2)
        { firstName := some "Changed", school := some "Greenwood" } none).1
      = .ok "User updated successfully" ∧
    (findUserById (updateUser { now := 100, year := 2025 } 1 greenwoodCtx sampleDB (some 2)
        { firstName := some "Changed", school := some "Greenwood" } none).2 2).map
        (fun u => (u.firstName, u.school)) = some ("Changed", some "Greenwood") ∧
    (updateClass greenwoodCtx sampleDB (some 1) ⟨some "Renamed", some "10", some "A", .value 1⟩).1
      = .ok "Class updated successfully" ∧
    (findClassById (updateClass greenwoodCtx sampleDB (some 1)
        ⟨some "Renamed", some "10", some "A", .value 1⟩).2 1).map (fun c => c.name)
      = some "Renamed" ∧
    (∀ cascade : Bool,
      (deleteClass cascade greenwoodCtx sampleDB (some 2)).1 = .ok "Class deleted successfully" ∧
      findClassById (deleteClass cascade greenwoodCtx sampleDB (some 2)).2 2 = none) := by
  decide

/-- The rows listed by manageUsers are the rows selected by its where clause, newest
first. -/
theorem listedUsers_eq (now : Int) (ctx : Ctx) (db : DB) :
    listedUsers now ctx db =
      usersNewestFirst (db.users.filter (userMatches (manageUsersWhere ctx))) := by
  simp [listedUsers, manageUsers, managedUserOf, Function.comp_def]

/-- Sorting users by creation time keeps the same rows. -/
theorem usersNewestFirst_perm (us : List User) : (usersNewestFirst us).Perm us :=
  List.perm_insertionSort _ us

/-- C3: the user list of manageUsers is exactly the set of all users under a superadmin
context, and exactly the set of users whose school equals the caller's school under a
non-superadmin context with a non-empty school; in both cases every selected row is
listed once (the list is a permutation of the selected rows). -/
theorem manageUsers_scoping (now : Int) (ctx : Ctx) (db : DB) :
    (ctx.isSuperAdmin = true →
      (∀ u, u ∈ listedUsers now ctx db ↔ u ∈ db.users) ∧
      (listedUsers now ctx db).Perm db.users) ∧
    (ctx.isSuperAdmin = false → truthy ctx.userSchool = true →
      (∀ u, u ∈ listedUsers now ctx db ↔ u ∈ db.users ∧ u.school = ctx.userSchool) ∧
      (listedUsers now ctx db).Perm (db.users.filter (fun u => u.school == ctx.userSchool))) := by
  constructor
  · intro hsuper
    have hall : db.users.filter (userMatches (manageUsersWhere ctx)) = db.users := by
      simp [manageUsersWhere, hsuper, userMatches]
    have hperm : (listedUsers now ctx db).Perm db.users := by
      rw [listedUsers_eq, hall]
      exact usersNewestFirst_perm _
    exact ⟨fun u => hperm.mem_iff, hperm⟩
  · intro hsuper hschool
    have hfilter : db.users.filter (userMatches (manageUsersWhere ctx)) =
        db.users.filter (fun u => u.school == ctx.userSchool) := by
      cases hs : ctx.userSchool with
      | none => simp [hs, truthy] at hschool
      | some s =>
        rw [hs] at hschool
        simp only [manageUsersWhere, hsuper, hs, hschool, if_true]
        rfl
    have hperm : (listedUsers now ctx db).Perm
        (db.users.filter (fun u => u.school == ctx.userSchool)) := by
      rw [listedUsers_eq, hfilter]
      exact usersNewestFirst_perm _
    refine ⟨fun u => ?_, hperm⟩
    rw [hperm.mem_iff]
    simp [List.mem_filter]

/-- C3 at the two-school store: the superadmin sees the users of both schools, the
Greenwood principal only those of Greenwood. -/
theorem manageUsers_scoping_witness :
    ((∀ u, u ∈ listedUsers 0 superCtx sampleDB ↔ u ∈ sampleDB.users) ∧
      (listedUsers 0 superCtx sampleDB).Perm sampleDB.users) ∧
    ((∀ u, u ∈ listedUsers 0 greenwoodCtx sampleDB ↔
        u ∈ sampleDB.users ∧ u.school = greenwoodCtx.userSchool) ∧
      (listedUsers 0 greenwoodCtx sampleDB).Perm
        (sampleDB.users.filter (fun u => u.school == greenwoodCtx.userSchool))) :=
  ⟨(manageUsers_scoping 0 superCtx sampleDB).1 rfl,
   (manageUsers_scoping 0 greenwoodCtx sampleDB).2 rfl (by decide)⟩

/-- C4 (fails on the code): the deny-all filter of manageUsers is the school name
NON_EXISTENT_SCHOOL, so under a non-superadmin context without a school the list is not
empty when a user of a school with that name is stored. -/
theorem manageUsers_noSchool_sentinel_listed :
    listedUsers 0 noSchoolCtx sentinelDB = [mkUser 9 "student" (some "NON_EXISTENT_SCHOOL") 5] := by
  decide

/-- C5 (fails on the code): manageTuition runs without a where clause, so under the
context of the Greenwood principal it lists the Riverview student 1 together with the
tuition payment REC100. -/
theorem manageTuition_lists_other_school :
    (manageTuition greenwoodCtx sampleDB).map
        (fun r => (r.student.id, r.user.bind (fun u => u.school),
                   r.tuitionPayments.map (fun p => p.receiptNumber))) =
      [(1, some "Riverview", ["REC100"]), (2, some "Greenwood", [])] := by
  decide

/-- C6 (fails on the code): under the context of a Greenwood teacher gradeAssignment
grades submission 1, whose assignment belongs to the Riverview teacher: it redirects to
the grading page and stores the grade and the feedback. -/
theorem gradeAssignment_other_school_graded :
    (gradeAssignment (fun _ => 95) greenwoodMemberCtx sampleDB (some 1) (some "95")
        (some "good")).1 = .redirect "/teacher/grading" ∧
    (gradeAssignment (fun _ => 95) greenwoodMemberCtx sampleDB (some 1) (some "95")
        (some "good")).2.submissions =
      [{ id := 1, assignmentId := 1, studentId := 1, grade := some 95,
         feedback := some "good" }] := by
  decide

/-- C7 (fails on the code): isAdmin forwards the request of a user whose role is
teacher, since teacher is one of allowedRoles; only roles outside the list, such as
student, are answered with 403. -/
theorem isAdmin_forwards_teacher :
    isAdmin sampleDB teacherReq =
      .next { teacherReq with
              user := some { id := 2, role := "teacher", school := some "Riverview",
                             teacher := some ⟨1, 2, "Math"⟩ } } ∧
    isAdmin sampleDB studentReq = .send 403 "Access denied. Admin role required." := by
  decide

/-- C8: for every stored user row, setSchoolContext forwards the request with
isSuperAdmin = true exactly when the row has role admin and its Admin profile has
roleLevel superadmin; in that case the resolved school is null and canSeeAllSchoolUsers
is true, whatever school the row carries; in every other case isSuperAdmin is false. -/
theorem setSchoolContext_superadmin_iff (db : DB) (req : Req) (u : ReqUser) (row : User)
    (hu : req.user = some u) (hrow : findUserById db u.id = some row) :
    ∃ fresh c, setSchoolContext db req = .next { req with user := some fresh, ctx := some c } ∧
      (c.isSuperAdmin = true ↔
        row.role = "admin" ∧ ∃ a, adminOf db row = some a ∧ a.roleLevel = "superadmin") ∧
      (c.isSuperAdmin = true → c.userSchool = none ∧ c.canSeeAllSchoolUsers = true) := by
  refine ⟨{ id := row.id, role := row.role, school := row.school, admin := adminOf db row,
            teacher := teacherOf db row, student := studentOf db row },
          schoolContextOf { id := row.id, role := row.role, school := row.school,
                            admin := adminOf db row, teacher := teacherOf db row,
                            student := studentOf db row }, ?_, ?_, ?_⟩
  · simp only [setSchoolContext, hu, freshUser, hrow]
  · simp only [schoolContextOf]
    by_cases hrole : row.role = "admin"
    · cases hadmin : adminOf db row with
      | none => simp [hrole, hadmin]
      | some a =>
        by_cases hlevel : a.roleLevel = "superadmin"
        · simp [hrole, hadmin, hlevel]
        · simp [hrole, hadmin, hlevel]
    · by_cases ht : row.role = "teacher"
      · simp [hrole, ht]
      · by_cases hst : row.role = "student"
        · simp [hrole, hst]
        · simp [hrole, ht, hst]
  · simp only [schoolContextOf]
    by_cases hrole : row.role = "admin"
    · cases hadmin : adminOf db row with
      | none => simp [hrole, hadmin]
      | some a =>
        by_cases hlevel : a.roleLevel = "superadmin"
        · simp [hrole, hadmin, hlevel]
        · simp [hrole, hadmin, hlevel]
    · by_cases ht : row.role = "teacher"
      · simp [hrole, ht]
      · by_cases hst : row.role = "student"
        · simp [hrole, hst]
        · simp [hrole, ht, hst]

/-- C8 at the two-school store: user 6 is a superadmin whose row carries the school
Greenwood; the resolved context is the superadmin one with school null. -/
theorem setSchoolContext_superadmin_iff_witness :
    (superReq.user = some { id := 6, role := "admin", school := some "Greenwood" } ∧
      findUserById sampleDB 6 = some (mkUser 6 "admin" (some "Greenwood") 60)) ∧
    (∃ fresh c, setSchoolContext sampleDB superReq =
        .next { superReq with user := some fresh, ctx := some c } ∧
      (c.isSuperAdmin = true ↔
        (mkUser 6 "admin" (some "Greenwood") 60).role = "admin" ∧
          ∃ a, adminOf sampleDB (mkUser 6 "admin" (some "Greenwood") 60) = some a ∧
            a.roleLevel = "superadmin") ∧
      (c.isSuperAdmin = true → c.userSchool = none ∧ c.canSeeAllSchoolUsers = true)) ∧
    setSchoolContext sampleDB superReq =
      .next { superReq with
              user := some { id := 6, role := "admin", school := some "Greenwood",
                             admin := some ⟨3, 6, "superadmin"⟩ }
              ctx := some superCtx } :=
  ⟨⟨rfl, by decide⟩,
   setSchoolContext_superadmin_iff sampleDB superReq
     { id := 6, role := "admin", school := some "Greenwood" }
     (mkUser 6 "admin" (some "Greenwood") 60) rfl (by decide),
   by decide⟩

/-- Deactivating a user changes nothing that setSchoolContext reads from the store. -/
theorem freshUser_deactivate (db : DB) (id x : Int) :
    freshUser (deactivate db id) x = freshUser db x := by
  have hfind : findUserById (deactivate db id) x =
      (findUserById db x).map (fun u => if u.id == id then { u with isActive := false } else u) := by
    simp only [findUserById, deactivate, updateUserRow, List.find?_map]
    congr 1
    apply congrArg (fun p => List.find? p db.users)
    funext u
    by_cases h : u.id = id <;> simp [h]
  simp only [freshUser, hfind]
  cases hx : findUserById db x with
  | none => rfl
  | some u =>
    by_cases h : u.id = id <;> simp [h, adminOf, teacherOf, studentOf, deactivate, updateUserRow]

/-- C9 (fails on the code): user 99 named by the session is not stored, and setSchoolContext still calls
next(), with req.user left as the session data; user 4, once deactivated, is forwarded
with the same full context as before. -/
theorem setSchoolContext_stale_forwarded :
    findUserById sampleDB 99 = none ∧
    setSchoolContext sampleDB staleReq =
      .next { staleReq with ctx := some { isSuperAdmin := false, userSchool := none,
                                          canSeeAllSchoolUsers := false } } ∧
    (findUserById (deactivate sampleDB 4) 4).map (fun u => u.isActive) = some false ∧
    setSchoolContext (deactivate sampleDB 4) studentReq =
      .next { studentReq with
              user := some { id := 4, role := "student", school := some "Greenwood",
                             student := some ⟨2, 4, "10", "A", "unpaid", false, none⟩ }
              ctx := some greenwoodMemberCtx } := by
  decide

/-- The middleware setSchoolContext rejects no request. When the user row named by the
request is not stored, the request is passed on with req.user unchanged and the
context isSuperAdmin = false, userSchool = null, canSeeAllSchoolUsers = false; and the
outcome for a deactivated user is the outcome for the same user while active. -/
theorem setSchoolContext_always_next (db : DB) (req : Req) :
    (∃ req', setSchoolContext db req = .next req') ∧
    (∀ u, req.user = some u → findUserById db u.id = none →
      setSchoolContext db req =
        .next { req with ctx := some { isSuperAdmin := false, userSchool := none,
                                       canSeeAllSchoolUsers := false } }) ∧
    (∀ id, setSchoolContext (deactivate db id) req = setSchoolContext db req) := by
  refine ⟨?_, ?_, ?_⟩
  · cases hu : req.user with
    | none =>
      have h : setSchoolContext db req = .next req := by simp only [setSchoolContext, hu]
      exact ⟨_, h⟩
    | some u =>
      cases hf : freshUser db u.id with
      | none =>
        have h : setSchoolContext db req =
            .next { req with ctx := some { isSuperAdmin := false, userSchool := none,
                                           canSeeAllSchoolUsers := false } } := by
          simp only [setSchoolContext, hu, hf]
        exact ⟨_, h⟩
      | some fresh =>
        have h : setSchoolContext db req =
            .next { req with user := some fresh, ctx := some (schoolContextOf fresh) } := by
          simp only [setSchoolContext, hu, hf]
        exact ⟨_, h⟩
  · intro u hu hrow
    simp [setSchoolContext, hu, freshUser, hrow]
  · intro id
    cases hu : req.user with
    | none => simp only [setSchoolContext, hu]
    | some u => simp only [setSchoolContext, hu, freshUser_deactivate]

/-- C10: for a student session that carries a student id and a non-superadmin context,
viewMaterials answers 403 and renders no materials for every class whose teacher's user
has a school different from the context's school, enrolled or not: 'This class teacher
does not belong to your school' when the student is enrolled, 'You are not enrolled in
this class' when not. For an id that names no class, where every enrollment refers to a
stored class, it answers 403 as well. -/
theorem viewMaterials_other_school_denied (session : SessionUser) (ctx : Ctx) (db : DB)
    (cid : Int) (hsid : truthyId session.studentId = true)
    (hctx : ctx.isSuperAdmin = false) :
    (∀ cls teacher teacherUser,
      findClassById db cid = some cls →
      findTeacherById db cls.teacherId = some teacher →
      findUserById db teacher.userId = some teacherUser →
      teacherUser.school ≠ ctx.userSchool →
      viewMaterials session ctx db (some cid) =
        .error 403 (if (findEnrollment db cid (session.studentId.getD 0)).isSome
                    then "This class teacher does not belong to your school"
                    else "You are not enrolled in this class")) ∧
    (findClassById db cid = none →
      (∀ e ∈ db.enrollments, (findClassById db e.classId).isSome = true) →
      viewMaterials session ctx db (some cid) = .error 403 "You are not enrolled in this class") := by
  cases hs : session.studentId with
  | none => simp [hs, truthyId] at hsid
  | some sid =>
    have hne : sid ≠ 0 := by simpa [hs, truthyId] using hsid
    constructor
    · intro cls teacher teacherUser hc ht hu hschool
      cases hen : findEnrollment db cid sid with
      | none => simp [viewMaterials, hs, hne, hen]
      | some e => simp [viewMaterials, hs, hne, hen, hc, ht, hu, hctx, hschool]
    · intro hc hfk
      cases hen : findEnrollment db cid sid with
      | none => simp [viewMaterials, hs, hne, hen]
      | some e =>
        have hmem : e ∈ db.enrollments := List.mem_of_find?_eq_some hen
        have hmatch := List.find?_some hen
        simp only [Bool.and_eq_true, beq_iff_eq] at hmatch
        have hcls := hfk e hmem
        rw [hmatch.1, hc] at hcls
        simp at hcls

/-- C10 at the two-school store: the Greenwood student 2 is enrolled in class 1, taught
by the Riverview teacher, and is answered with 403; so is the id 77 of no class. -/
theorem viewMaterials_other_school_denied_witness :
    (truthyId greenwoodStudentSession.studentId = true ∧
      greenwoodMemberCtx.isSuperAdmin = false ∧
      findClassById sampleDB 1 = some ⟨1, "Algebra", "10", "A", 1⟩ ∧
      findTeacherById sampleDB 1 = some ⟨1, 2, "Math"⟩ ∧
      findUserById sampleDB 2 = some (mkUser 2 "teacher" (some "Riverview") 20) ∧
      (mkUser 2 "teacher" (some "Riverview") 20).school ≠ greenwoodMemberCtx.userSchool) ∧
    viewMaterials greenwoodStudentSession greenwoodMemberCtx sampleDB (some 1) =
      .error 403 (if (findEnrollment sampleDB 1 (greenwoodStudentSession.studentId.getD 0)).isSome
                  then "This class teacher does not belong to your school"
                  else "You are not enrolled in this class") ∧
    (findClassById sampleDB 77 = none ∧
      ∀ e ∈ sampleDB.enrollments, (findClassById sampleDB e.classId).isSome = true) ∧
    viewMaterials greenwoodStudentSession greenwoodMemberCtx sampleDB (some 77) =
      .error 403 "You are not enrolled in this class" :=
  ⟨⟨by decide, rfl, by decide, by decide, by decide, by decide⟩,
   (viewMaterials_other_school_denied greenwoodStudentSession greenwoodMemberCtx sampleDB 1
      (by decide) rfl).1 ⟨1, "Algebra", "10", "A", 1⟩ ⟨1, 2, "Math"⟩
      (mkUser 2 "teacher" (some "Riverview") 20) (by decide) (by decide) (by decide) (by decide),
   ⟨by decide, by decide⟩,
   (viewMaterials_other_school_denied greenwoodStudentSession greenwoodMemberCtx sampleDB 77
      (by decide) rfl).2 (by decide) (by decide)⟩

/-- C11 (fails on the code): the Riverview student 1 is not enrolled in class 2, and
submitAssignmentFile still accepts the file for assignment 2 of that class and creates
the submission row. -/
theorem submitAssignmentFile_not_enrolled_accepted :
    findEnrollment sampleDB2 2 1 = none ∧
    (findAssignmentById sampleDB2 2).map (fun a => a.classId) = some 2 ∧
    (submitAssignmentFile 500 riverviewStudentSession riverviewMemberCtx sampleDB2 (some 2)
        (some "uploads/essay.pdf")).1 = .ok "Assignment submitted successfully!" ∧
    (submitAssignmentFile 500 riverviewStudentSession riverviewMemberCtx sampleDB2 (some 2)
        (some "uploads/essay.pdf")).2.submissions =
      sampleDB2.submissions ++
        [{ id := 2, assignmentId := 2, studentId := 1, grade := none, feedback := none,
           fileUrl := some "uploads/essay.pdf", submittedAt := 500 }] := by
  decide

/-- C12 (fails on the code): under the context of the Riverview teacher,
viewExamsForGrading and getExamResults return attempt 1 of the Greenwood student for the
teacher's exam: the school of the attempt's student is not compared with the context. -/
theorem teacherExamViews_other_school_attempt :
    (viewExamsForGrading riverviewTeacherSession riverviewMemberCtx examDB).map
        (fun e => (e.exam.id, e.attempts.map
          (fun a => (a.attempt.id, a.user.bind (fun u => u.school))))) =
      [(1, [(1, some "Greenwood")])] ∧
    (match getExamResults riverviewTeacherSession riverviewMemberCtx examDB (some 1) with
     | .ok view => view.attempts.map (fun a => (a.attempt.id, a.user.bind (fun u => u.school)))
     | _ => []) =
      [(1, some "Greenwood"), (2, some "Riverview")] := by
  decide

/-- C13 (fails on the code): the endpoint of the admin router marks every unread
notification read, here also notification 2 that belongs to user 3, when the Greenwood
principal (user 1) calls it; the endpoint of the notification router changes only the
notifications of the caller. -/
theorem markAllRead_admin_touches_other_users :
    (markAllReadAdmin principalReq notificationDB).1 = .ok "All notifications marked as read" ∧
    (markAllReadAdmin principalReq notificationDB).2.notifications.map
        (fun n => (n.id, n.userId, n.read)) = [(1, 1, true), (2, 3, true)] ∧
    (markAllReadApi 900 principalReq notificationDB).2.notifications.map
        (fun n => (n.id, n.userId, n.read)) = [(1, 1, true), (2, 3, false)] := by
  decide

/-- Looking a row up after a row-wise update that does not change the looked-up key
gives the updated row. -/
theorem find?_map_preserving {α : Type} (l : List α) (p : α → Bool) (g : α → α)
    (h : ∀ x, p (g x) = p x) : (l.map g).find? p = (l.find? p).map g := by
  rw [List.find?_map]
  have hpg : p ∘ g = p := funext h
  rw [hpg]

/-- Recording a receipt writes no student row. -/
theorem recordReceipt_students (clock : Clock) (actor : Int) (db : DB) (studentId : Int)
    (receiptNumber : Option String) (paid : Bool) :
    (recordReceipt clock actor db studentId receiptNumber paid).students = db.students := by
  unfold recordReceipt
  split
  · split
    · split <;> rfl
    · rfl
  · rfl

/-- The expiry that partialExpiry hands to Prisma is null exactly when the status is
not 'partial', and for 'partial' it is the time calculatePasswordExpiry gives. -/
theorem partialExpiry_some (clock : Clock) (status : Option String) (days : Int)
    (expiry : Option Int) (h : partialExpiry clock status days = some expiry) :
    (expiry = none ↔ status ≠ some "partial") ∧
      (status = some "partial" → calculatePasswordExpiry clock days = expiry) := by
  unfold partialExpiry at h
  by_cases hp : status = some "partial"
  · simp only [hp, beq_self_eq_true, if_true] at h
    cases hc : calculatePasswordExpiry clock days with
    | none => simp [hc] at h
    | some t =>
      simp only [hc, Option.map_some', Option.some.injEq] at h
      subst h
      simp [hp]
  · have hb : (status == some "partial") = false := by simpa using hp
    simp only [hb, Bool.false_eq_true, if_false, Option.some.injEq] at h
    subst h
    simp [hp]

/-- The students after a successful updateStudentTuition call are the students before
it with the tuition fields of the target row rewritten. -/
theorem updateStudentTuition_students (clock : Clock) (actor : Int) (db : DB) (uid : Int)
    (body : UpdateTuitionBody) (msg : String)
    (hok : (updateStudentTuition clock actor db (some uid) body).1 = .ok msg) :
    ∃ student expiry, findStudentByUserId db uid = some student ∧
      partialExpiry clock body.tuitionStatus (accessDaysOrDefault body.accessDays) =
        some expiry ∧
      (updateStudentTuition clock actor db (some uid) body).2.students =
        db.students.map (fun s =>
          if s.id == student.id then
            { s with
              tuitionStatus := body.tuitionStatus.getD s.tuitionStatus
              canChangePassword := body.tuitionStatus == some "paid"
              tempPasswordExpiry := expiry }
          else s) := by
  unfold updateStudentTuition at hok ⊢
  cases hst : findStudentByUserId db uid with
  | none => simp [hst] at hok
  | some student =>
    simp only [hst] at hok ⊢
    cases hex : partialExpiry clock body.tuitionStatus (accessDaysOrDefault body.accessDays) with
    | none => simp [hex] at hok
    | some expiry =>
      refine ⟨student, expiry, rfl, rfl, ?_⟩
      simp only [hex] at hok ⊢
      by_cases hpaid : (body.tuitionStatus == some "paid") = true
      · simp only [hpaid, if_true] at hok ⊢
        split at hok
        · simp at hok
        · rename_i hu
          simp only [hu]
          simp only [updateUserRow, recordReceipt_students, updateStudentRow]
      · simp only [hpaid] at hok ⊢
        simp only [Bool.false_eq_true, if_false, recordReceipt_students, updateStudentRow]

/-- The writes of recordPayment set the student row to paid and append the payment. -/
theorem recordPaymentWrites_effect (clock : Clock) (actor : Int) (db : DB)
    (body : RecordPaymentBody) (receipt : String) (student : Student) :
    (recordPaymentWrites clock actor db body receipt student).2.students =
      db.students.map (fun s =>
        if s.id == student.id then
          { s with tuitionStatus := "paid", canChangePassword := true,
                   tempPasswordExpiry := none }
        else s) ∧
    (recordPaymentWrites clock actor db body receipt student).2.tuitionPayments =
      db.tuitionPayments ++ [newPayment clock actor db body receipt student.id] := by
  unfold recordPaymentWrites
  simp only
  split
  · exact ⟨rfl, rfl⟩
  · split <;> exact ⟨rfl, rfl⟩

/-- A recordPayment call either answers with an error and leaves the store unchanged,
or passes validation for a truthy receipt number that no stored payment carries, a
payment date that is not an Invalid Date and a stored student, and performs its writes. -/
theorem recordPayment_cases (clock : Clock) (actor : Int) (db : DB) (body : RecordPaymentBody) :
    ((∃ status msg, (recordPayment clock actor db body).1 = .error status msg) ∧
      (recordPayment clock actor db body).2 = db) ∨
    ∃ receipt sid student, body.receiptNumber = some receipt ∧ truthy (some receipt) = true ∧
      findPaymentByReceipt db receipt = none ∧ body.studentId = .value sid ∧
      findStudentById db sid = some student ∧ body.paymentDate ≠ .invalid ∧
      recordPayment clock actor db body =
        recordPaymentWrites clock actor db body receipt student := by
  unfold recordPayment
  by_cases hval : (body.studentId == IntField.missing || !truthy body.receiptNumber) = true
  · left
    rw [if_pos hval]
    exact ⟨⟨_, _, rfl⟩, rfl⟩
  · rw [if_neg hval]
    simp only [Bool.or_eq_true, not_or, Bool.not_eq_true', Bool.not_eq_false'] at hval
    cases hr : body.receiptNumber with
    | none => simp [hr, truthy] at hval
    | some receipt =>
      have htruthy : truthy (some receipt) = true := by simpa [hr] using hval.2
      simp only [Option.getD_some]
      cases hfresh : findPaymentByReceipt db receipt with
      | some p =>
        left
        exact ⟨⟨_, _, rfl⟩, rfl⟩
      | none =>
        simp only
        by_cases hdate : (body.paymentDate == DateField.invalid) = true
        · left
          rw [if_pos hdate]
          exact ⟨⟨_, _, rfl⟩, rfl⟩
        · rw [if_neg hdate]
          have hvalid : body.paymentDate ≠ .invalid := by simpa using hdate
          cases hsf : body.studentId with
          | missing =>
            left
            exact ⟨⟨_, _, rfl⟩, rfl⟩
          | notANumber =>
            left
            exact ⟨⟨_, _, rfl⟩, rfl⟩
          | value sid =>
            cases hst : findStudentById db sid with
            | none =>
              left
              refine ⟨⟨500, "Failed to record payment", ?_⟩, ?_⟩ <;> simp only [hst]
            | some student =>
              right
              refine ⟨receipt, sid, student, rfl, htruthy, hfresh, rfl, hst, hvalid, ?_⟩
              simp only [hst]

/-- The id of a student found by id is that id. -/
theorem findStudentById_id (db : DB) (sid : Int) (student : Student)
    (hst : findStudentById db sid = some student) : student.id = sid := by
  have := List.find?_some hst
  simpa using this

/-- The students after a successful recordPayment call are the students before it with
the target row set to paid. -/
theorem recordPayment_students (clock : Clock) (actor : Int) (db : DB) (body : RecordPaymentBody)
    (p : TuitionPayment) (hok : (recordPayment clock actor db body).1 = .ok p) :
    ∃ sid student, body.studentId = .value sid ∧ findStudentById db sid = some student ∧
      (recordPayment clock actor db body).2.students =
        db.students.map (fun s =>
          if s.id == sid then
            { s with tuitionStatus := "paid", canChangePassword := true,
                     tempPasswordExpiry := none }
          else s) := by
  rcases recordPayment_cases clock actor db body with ⟨⟨status, msg, herr⟩, _⟩ |
    ⟨receipt, sid, student, _, _, _, hsid, hst, _, heq⟩
  · rw [herr] at hok
    simp at hok
  · refine ⟨sid, student, hsid, hst, ?_⟩
    rw [heq, (recordPaymentWrites_effect clock actor db body receipt student).1,
      findStudentById_id db sid student hst]

/-- C14: after a successful updateStudentTuition call with new status s (any text, in
particular paid, partial and unpaid) the student of the addressed user has
tuitionStatus = s, canChangePassword = (s == 'paid') and a tempPasswordExpiry that is
null exactly when s is not 'partial'; after a successful recordPayment call the
addressed student is paid, may change the password and has no expiry. -/
theorem tuition_fields_after_success (clock : Clock) (actor : Int) (db : DB) :
    (∀ (uid : Int) (body : UpdateTuitionBody) (s msg : String),
      body.tuitionStatus = some s →
      (updateStudentTuition clock actor db (some uid) body).1 = .ok msg →
      ∃ st, findStudentByUserId (updateStudentTuition clock actor db (some uid) body).2 uid
          = some st ∧
        st.tuitionStatus = s ∧ st.canChangePassword = (s == "paid") ∧
        (st.tempPasswordExpiry = none ↔ s ≠ "partial")) ∧
    (∀ (body : RecordPaymentBody) (sid : Int) (p : TuitionPayment),
      body.studentId = .value sid →
      (recordPayment clock actor db body).1 = .ok p →
      ∃ st, findStudentById (recordPayment clock actor db body).2 sid = some st ∧
        st.tuitionStatus = "paid" ∧ st.canChangePassword = true ∧
        st.tempPasswordExpiry = none) := by
  constructor
  · intro uid body s msg hs hok
    obtain ⟨student, expiry, hfind, hexpiry, hstudents⟩ :=
      updateStudentTuition_students clock actor db uid body msg hok
    have hlookup : findStudentByUserId (updateStudentTuition clock actor db (some uid) body).2 uid
        = (findStudentByUserId db uid).map (fun s' =>
            if s'.id == student.id then
              { s' with
                tuitionStatus := body.tuitionStatus.getD s'.tuitionStatus
                canChangePassword := body.tuitionStatus == some "paid"
                tempPasswordExpiry := expiry }
            else s') := by
      unfold findStudentByUserId
      rw [hstudents]
      apply find?_map_preserving
      intro x
      split <;> rfl
    rw [hlookup, hfind]
    refine ⟨_, rfl, ?_, ?_, ?_⟩
    · simp [hs]
    · simp [hs]
    · have hnull := (partialExpiry_some clock _ _ expiry hexpiry).1
      rw [hs] at hnull
      simpa using hnull
  · intro body sid p hsid hok
    obtain ⟨sid', student, hsid', hfind, hstudents⟩ := recordPayment_students clock actor db body p hok
    have hsame : sid' = sid := by
      rw [hsid] at hsid'
      injection hsid' with h
      exact h.symm
    subst hsame
    have hlookup : findStudentById (recordPayment clock actor db body).2 sid' =
        (findStudentById db sid').map (fun s =>
          if s.id == sid' then
            { s with tuitionStatus := "paid", canChangePassword := true,
                     tempPasswordExpiry := none }
          else s) := by
      unfold findStudentById
      rw [hstudents]
      apply find?_map_preserving
      intro x
      split <;> rfl
    rw [hlookup, hfind]
    have hid : student.id = sid' := findStudentById_id db sid' student hfind
    refine ⟨_, rfl, ?_, ?_, ?_⟩ <;> simp [hid]

/-- C14 at the two-school store: the Greenwood student (user 4, student 2) is moved to
partial payment by updateStudentTuition and to paid by recordPayment. -/
theorem tuition_fields_after_success_witness :
    (partialBody.tuitionStatus = some "partial" ∧
      (updateStudentTuition sampleClock 1 sampleDB (some 4) partialBody).1 =
        .ok "Tuition status updated successfully") ∧
    (∃ st, findStudentByUserId (updateStudentTuition sampleClock 1 sampleDB (some 4) partialBody).2 4
        = some st ∧
      st.tuitionStatus = "partial" ∧ st.canChangePassword = ("partial" == "paid") ∧
      (st.tempPasswordExpiry = none ↔ "partial" ≠ "partial")) ∧
    (rec200Body.studentId = .value 2 ∧
      (recordPayment sampleClock 1 sampleDB rec200Body).1 = .ok rec200Payment) ∧
    (∃ st, findStudentById (recordPayment sampleClock 1 sampleDB rec200Body).2 2 = some st ∧
      st.tuitionStatus = "paid" ∧ st.canChangePassword = true ∧ st.tempPasswordExpiry = none) :=
  ⟨⟨rfl, by decide⟩,
   (tuition_fields_after_success sampleClock 1 sampleDB).1 4 partialBody "partial"
     "Tuition status updated successfully" rfl (by decide),
   ⟨rfl, by decide⟩,
   (tuition_fields_after_success sampleClock 1 sampleDB).2 rec200Body 2 rec200Payment rfl
     (by decide)⟩

/-- C15 (fails on the code): student 1 is paid, may change the password and has no expiry, so it satisfies
the tuition invariant; resetStudentPassword with passwordType 'temporary' succeeds and
leaves it paid with canChangePassword = false and an expiry, so the invariant no longer
holds after the call. -/
theorem resetStudentPassword_temporary_breaks_invariant :
    (findStudentById sampleDB 1).map tuitionInvariant = some true ∧
    (resetStudentPassword sampleClock (fun s => s) "Xy12ab34" sampleDB (some 1)
        (some "temporary")).1 = .ok ("Xy12ab34", true, some 2592000100) ∧
    findStudentById (resetStudentPassword sampleClock (fun s => s) "Xy12ab34" sampleDB (some 1)
        (some "temporary")).2 1 =
      some ⟨1, 3, "10", "A", "paid", false, some 2592000100⟩ ∧
    (findStudentById (resetStudentPassword sampleClock (fun s => s) "Xy12ab34" sampleDB (some 1)
        (some "temporary")).2 1).map tuitionInvariant = some false := by
  decide

/-- C16 (as stated, fails): in a zone without offset changes, with accessDays = -5 the
transition to partial at time 100 stores an expiry five days before the transition, and
with accessDays = 0 it stores now + 30 days rather than now + 0 days. -/
theorem updateStudentTuition_negative_days_expired :
    (updateStudentTuition sampleClock 1 sampleDB (some 4) negativeDaysBody).1 =
      .ok "Tuition status updated successfully" ∧
    findStudentByUserId (updateStudentTuition sampleClock 1 sampleDB (some 4) negativeDaysBody).2 4 =
      some ⟨2, 4, "10", "A", "partial", false, some (-431999900)⟩ ∧
    (-431999900 : Int) < sampleClock.now ∧
    findStudentByUserId (updateStudentTuition sampleClock 1 sampleDB (some 4) zeroDaysBody).2 4 =
      some ⟨2, 4, "10", "A", "partial", false, some (100 + 30 * 86400000)⟩ := by
  decide

/-- C16 (amended): for a stored student, a transition to 'partial' by
updateStudentTuition whose accessDays is absent, not a number or a number that is not
negative computes the expiry as now moved N calendar days forward in local time, that is
now + N * 86400000 ms plus the change of the zone's UTC offset (less than a day), where N
is the supplied count when it is positive and 30 when it is absent, not a number or 0.
That time is strictly later than the transition. When it is within the range of Date the
call succeeds and stores it as tempPasswordExpiry; beyond the range the call is answered
with 500 and writes nothing. -/
theorem updateStudentTuition_partial_expiry (clock : Clock) (actor : Int) (db : DB) (uid : Int)
    (body : UpdateTuitionBody) (student : Student)
    (hstatusPart : body.tuitionStatus = some "partial")
    (hdays : ∀ n, body.accessDays = some n → 0 ≤ n)
    (hnow : -maxTime ≤ clock.now)
    (hshift : ∀ d, -86400000 < clock.offsetShift d)
    (hstudent : findStudentByUserId db uid = some student) :
    ∃ N, (∀ n, body.accessDays = some n → 0 < n → N = n) ∧
      (body.accessDays = none ∨ body.accessDays = some 0 → N = 30) ∧
      clock.now < clock.now + N * 86400000 + clock.offsetShift N ∧
      (clock.now + N * 86400000 + clock.offsetShift N ≤ maxTime →
        (updateStudentTuition clock actor db (some uid) body).1 =
          .ok "Tuition status updated successfully" ∧
        ∃ st, findStudentByUserId (updateStudentTuition clock actor db (some uid) body).2 uid
            = some st ∧
          st.tuitionStatus = "partial" ∧ st.canChangePassword = false ∧
          st.tempPasswordExpiry = some (clock.now + N * 86400000 + clock.offsetShift N)) ∧
      (maxTime < clock.now + N * 86400000 + clock.offsetShift N →
        updateStudentTuition clock actor db (some uid) body = (.error 500 "Server error", db)) := by
  have hpos : 0 < accessDaysOrDefault body.accessDays := by
    unfold accessDaysOrDefault
    cases hd : body.accessDays with
    | none => simp
    | some n =>
      have hn := hdays n hd
      by_cases h0 : n = 0
      · simp [h0]
      · have : (n == 0) = false := by simpa using h0
        simp only [this]
        omega
  have hlater : clock.now < clock.now + accessDaysOrDefault body.accessDays * 86400000 +
      clock.offsetShift (accessDaysOrDefault body.accessDays) := by
    have := hshift (accessDaysOrDefault body.accessDays)
    omega
  refine ⟨accessDaysOrDefault body.accessDays, ?_, ?_, hlater, ?_, ?_⟩
  · intro n hn hpos'
    have h0 : (n == 0) = false := by
      have : n ≠ 0 := by omega
      simpa using this
    simp [accessDaysOrDefault, hn, h0]
  · intro h
    rcases h with h | h <;> simp [accessDaysOrDefault, h]
  · intro hrange
    have hexp : partialExpiry clock body.tuitionStatus (accessDaysOrDefault body.accessDays) =
        some (some (clock.now + accessDaysOrDefault body.accessDays * 86400000 +
          clock.offsetShift (accessDaysOrDefault body.accessDays))) := by
      unfold partialExpiry calculatePasswordExpiry
      simp only [hstatusPart, beq_self_eq_true, if_true]
      rw [if_pos ⟨by omega, hrange⟩]
      rfl
    have hok : (updateStudentTuition clock actor db (some uid) body).1 =
        .ok "Tuition status updated successfully" := by
      have hnp : (body.tuitionStatus == some "paid") = false := by
        rw [hstatusPart]
        decide
      unfold updateStudentTuition
      simp only [hstudent, hexp, hnp, Bool.false_eq_true, if_false]
    refine ⟨hok, ?_⟩
    obtain ⟨student1, expiry, hfind, hexpiry, hstudents⟩ :=
      updateStudentTuition_students clock actor db uid body _ hok
    rw [hexp] at hexpiry
    have hex : expiry = some (clock.now + accessDaysOrDefault body.accessDays * 86400000 +
          clock.offsetShift (accessDaysOrDefault body.accessDays)) :=
      (Option.some.inj hexpiry).symm
    subst hex
    have hlookup : findStudentByUserId (updateStudentTuition clock actor db (some uid) body).2 uid
        = (findStudentByUserId db uid).map (fun s' =>
            if s'.id == student1.id then
              { s' with
                tuitionStatus := body.tuitionStatus.getD s'.tuitionStatus
                canChangePassword := body.tuitionStatus == some "paid"
                tempPasswordExpiry :=
                  some (clock.now + accessDaysOrDefault body.accessDays * 86400000 +
                    clock.offsetShift (accessDaysOrDefault body.accessDays)) }
            else s') := by
      unfold findStudentByUserId
      rw [hstudents]
      apply find?_map_preserving
      intro x
      split <;> rfl
    rw [hlookup, hfind]
    refine ⟨_, rfl, ?_, ?_, ?_⟩ <;> simp [hstatusPart]
  · intro hover
    have hexp : partialExpiry clock body.tuitionStatus (accessDaysOrDefault body.accessDays) =
        none := by
      unfold partialExpiry calculatePasswordExpiry
      simp only [hstatusPart, beq_self_eq_true, if_true]
      rw [if_neg (by intro h; omega)]
      rfl
    unfold updateStudentTuition
    simp only [hstudent, hexp]

/-- C16 (amended) at the two-school store, in a zone without offset changes: ten days
of access granted at time 100 give the expiry 100 + 10 days, and a count of days that
leads beyond the range of Date is answered with 500. -/
theorem updateStudentTuition_partial_expiry_witness :
    (∃ N, (∀ n, partialBody.accessDays = some n → 0 < n → N = n) ∧
      (partialBody.accessDays = none ∨ partialBody.accessDays = some 0 → N = 30) ∧
      sampleClock.now < sampleClock.now + N * 86400000 + sampleClock.offsetShift N ∧
      (sampleClock.now + N * 86400000 + sampleClock.offsetShift N ≤ maxTime →
        (updateStudentTuition sampleClock 1 sampleDB (some 4) partialBody).1 =
          .ok "Tuition status updated successfully" ∧
        ∃ st, findStudentByUserId
            (updateStudentTuition sampleClock 1 sampleDB (some 4) partialBody).2 4 = some st ∧
          st.tuitionStatus = "partial" ∧ st.canChangePassword = false ∧
          st.tempPasswordExpiry =
            some (sampleClock.now + N * 86400000 + sampleClock.offsetShift N)) ∧
      (maxTime < sampleClock.now + N * 86400000 + sampleClock.offsetShift N →
        updateStudentTuition sampleClock 1 sampleDB (some 4) partialBody =
          (.error 500 "Server error", sampleDB))) ∧
    findStudentByUserId (updateStudentTuition sampleClock 1 sampleDB (some 4) partialBody).2 4 =
      some ⟨2, 4, "10", "A", "partial", false, some (100 + 10 * 86400000)⟩ ∧
    updateStudentTuition sampleClock 1 sampleDB (some 4)
        { tuitionStatus := some "partial", accessDays := some 100000000 } =
      (.error 500 "Server error", sampleDB) :=
  ⟨updateStudentTuition_partial_expiry sampleClock 1 sampleDB 4 partialBody
     ⟨2, 4, "10", "A", "unpaid", false, none⟩ rfl (by intro n h; cases h; decide) (by decide)
     (by intro d; show (-86400000 : Int) < 0; decide) (by decide),
   by decide, by decide⟩

/-- A receipt number that a stored payment carries is found by the receipt lookup. -/
theorem findPaymentByReceipt_of_mem (db : DB) (p : TuitionPayment)
    (hp : p ∈ db.tuitionPayments) : (findPaymentByReceipt db p.receiptNumber).isSome = true := by
  unfold findPaymentByReceipt
  rw [List.find?_isSome]
  exact ⟨p, hp, by simp⟩

/-- C17 (as stated, fails): the receipt number REC200 is fresh and student 2 is stored,
but the payment date of the body is a text that new Date cannot read; the call is
answered with 500 and no payment row is added. -/
theorem recordPayment_invalid_date_no_row :
    findPaymentByReceipt sampleDB "REC200" = none ∧
    (findStudentById sampleDB 2).map (fun s => s.id) = some 2 ∧
    recordPayment sampleClock 1 sampleDB { rec200Body with paymentDate := .invalid } =
      (.error 500 "Failed to record payment", sampleDB) := by
  decide

/-- C17 (amended): recordPayment keeps receipt numbers unique. A call whose receipt
number is carried by a stored payment is answered with 400 and leaves the store
unchanged; a call with a non-empty receipt number that no stored payment carries, for a
stored student and with a payment date that is absent or a valid date, appends exactly
one payment row with that receipt number and that student's id; a call with a payment
date that is not a valid date is answered with an error and leaves the store unchanged;
and in every case receipt numbers that were pairwise different before the call still
are. -/
theorem recordPayment_receipt_unique (clock : Clock) (actor : Int) (db : DB)
    (body : RecordPaymentBody) :
    ((∃ p ∈ db.tuitionPayments, body.receiptNumber = some p.receiptNumber) →
      (∃ msg, (recordPayment clock actor db body).1 = .error 400 msg) ∧
      (recordPayment clock actor db body).2 = db) ∧
    (∀ r sid st, body.receiptNumber = some r → r ≠ "" →
      (∀ p ∈ db.tuitionPayments, p.receiptNumber ≠ r) →
      body.studentId = .value sid → findStudentById db sid = some st →
      body.paymentDate ≠ .invalid →
      ∃ p, (recordPayment clock actor db body).2.tuitionPayments = db.tuitionPayments ++ [p] ∧
        p.receiptNumber = r ∧ p.studentId = st.id) ∧
    (body.paymentDate = .invalid →
      (∃ status msg, (recordPayment clock actor db body).1 = .error status msg) ∧
      (recordPayment clock actor db body).2 = db) ∧
    ((db.tuitionPayments.map (fun p => p.receiptNumber)).Nodup →
      ((recordPayment clock actor db body).2.tuitionPayments.map
        (fun p => p.receiptNumber)).Nodup) := by
  refine ⟨?_, ?_, ?_, ?_⟩
  · rintro ⟨p, hp, hr⟩
    have hfound := findPaymentByReceipt_of_mem db p hp
    unfold recordPayment
    by_cases hval : (body.studentId == IntField.missing || !truthy body.receiptNumber) = true
    · rw [if_pos hval]
      exact ⟨⟨_, rfl⟩, rfl⟩
    · rw [if_neg hval]
      simp only [hr, Option.getD_some]
      cases hf : findPaymentByReceipt db p.receiptNumber with
      | none => rw [hf] at hfound; simp at hfound
      | some q => exact ⟨⟨_, rfl⟩, rfl⟩
  · intro r sid st hr hne hfresh hsid hst hdate
    have hnone : findPaymentByReceipt db r = none := by
      unfold findPaymentByReceipt
      rw [List.find?_eq_none]
      intro p hp
      simpa using hfresh p hp
    have htruthy : truthy (some r) = true := by simpa [truthy] using hne
    have heq : recordPayment clock actor db body =
        recordPaymentWrites clock actor db body r st := by
      unfold recordPayment
      simp [hsid, hr, htruthy, hnone, hst, hdate]
    rw [heq]
    exact ⟨_, (recordPaymentWrites_effect clock actor db body r st).2, rfl, rfl⟩
  · intro hdate
    rcases recordPayment_cases clock actor db body with h |
      ⟨_, _, _, _, _, _, _, _, hvalid, _⟩
    · exact h
    · exact absurd hdate hvalid
  · intro hnodup
    rcases recordPayment_cases clock actor db body with ⟨_, hsame⟩ |
      ⟨receipt, sid, student, _, _, hfresh, _, _, _, heq⟩
    · rw [hsame]
      exact hnodup
    · rw [heq, (recordPaymentWrites_effect clock actor db body receipt student).2,
        List.map_append, List.nodup_append]
      refine ⟨hnodup, by simp, ?_⟩
      intro a ha hb
      simp only [List.map_cons, List.map_nil, List.mem_singleton] at hb
      rw [List.mem_map] at ha
      obtain ⟨q, hq, hqa⟩ := ha
      have hfound := findPaymentByReceipt_of_mem db q hq
      have hrec : (newPayment clock actor db body receipt student.id).receiptNumber = receipt := rfl
      rw [hqa, hb, hrec, hfresh] at hfound
      simp at hfound

/-- C17 (amended) at the two-school store: reusing REC100 is answered with 400 and
changes nothing; REC200 for student 2, without a payment date, appends one payment row
for student 2. -/
theorem recordPayment_receipt_unique_witness :
    ((∃ p ∈ sampleDB.tuitionPayments, rec100Body.receiptNumber = some p.receiptNumber) ∧
      (∃ msg, (recordPayment sampleClock 1 sampleDB rec100Body).1 = .error 400 msg) ∧
      (recordPayment sampleClock 1 sampleDB rec100Body).2 = sampleDB) ∧
    ((rec200Body.receiptNumber = some "REC200" ∧ "REC200" ≠ "" ∧
        (∀ p ∈ sampleDB.tuitionPayments, p.receiptNumber ≠ "REC200") ∧
        rec200Body.studentId = .value 2 ∧
        findStudentById sampleDB 2 = some ⟨2, 4, "10", "A", "unpaid", false, none⟩) ∧
      ∃ p, (recordPayment sampleClock 1 sampleDB rec200Body).2.tuitionPayments =
          sampleDB.tuitionPayments ++ [p] ∧
        p.receiptNumber = "REC200" ∧ p.studentId = 2) ∧
    ((sampleDB.tuitionPayments.map (fun p => p.receiptNumber)).Nodup ∧
      ((recordPayment sampleClock 1 sampleDB rec200Body).2.tuitionPayments.map
        (fun p => p.receiptNumber)).Nodup) :=
  ⟨⟨⟨_, List.mem_singleton.mpr rfl, rfl⟩,
    (recordPayment_receipt_unique sampleClock 1 sampleDB rec100Body).1
      ⟨_, List.mem_singleton.mpr rfl, rfl⟩⟩,
   ⟨⟨rfl, by decide, by decide, rfl, by decide⟩,
    (recordPayment_receipt_unique sampleClock 1 sampleDB rec200Body).2.1 "REC200" 2
      ⟨2, 4, "10", "A", "unpaid", false, none⟩ rfl (by decide) (by decide) rfl (by decide)
      (by decide)⟩,
   ⟨by decide,
    (recordPayment_receipt_unique sampleClock 1 sampleDB rec200Body).2.2.2 (by decide)⟩⟩

/-- C18 (fails on the code): createUser writes the id of the new user, not of the new student, into the
payment row. At the two-school store the new user gets the id 7 and the new student the
id 3; no student has the id 7, so the payment create is refused, the call ends in the
error redirect with the user and the paid student already written, and no payment with
the receipt REC300 is recorded for the new student. -/
theorem createUser_payment_linked_to_user_id :
    nextUserId sampleDB = 7 ∧ nextStudentId sampleDB = 3 ∧
    (createUser sampleClock (fun s => s) 1 greenwoodCtx sampleDB paidStudentBody none).1 =
      .redirect "/admin/users?error=Server error occurred while creating user" ∧
    (createUser sampleClock (fun s => s) 1 greenwoodCtx sampleDB paidStudentBody none).2.students.map
        (fun s => (s.id, s.userId, s.tuitionStatus)) =
      [(1, 3, "paid"), (2, 4, "unpaid"), (3, 7, "paid")] ∧
    (createUser sampleClock (fun s => s) 1 greenwoodCtx sampleDB paidStudentBody none).2.tuitionPayments.map
        (fun p => (p.receiptNumber, p.studentId)) = [("REC100", 1)] := by
  decide

/-- C19 (fails on the code): at time 100 checkPasswordExpiry returns student 1, whose tuitionStatus is
'unpaid' and whose expiry 50 has passed: a student that is not 'partial'. -/
theorem checkPasswordExpiry_returns_unpaid :
    (checkPasswordExpiry 100 expiryDB).map (fun r => (r.1.id, r.1.tuitionStatus)) =
      [(1, "unpaid")] := by
  decide

/-- The query of checkPasswordExpiry returns exactly the students whose tuitionStatus
is not 'paid' and whose tempPasswordExpiry is set and earlier than the current time,
each with its user. -/
theorem checkPasswordExpiry_exact (now : Int) (db : DB) (st : Student) :
    st ∈ (checkPasswordExpiry now db).map (fun r => r.1) ↔
      st ∈ db.students ∧ st.tuitionStatus ≠ "paid" ∧
        ∃ e, st.tempPasswordExpiry = some e ∧ e < now := by
  unfold checkPasswordExpiry
  simp only [List.map_map, List.mem_map, List.mem_filter, Function.comp]
  constructor
  · rintro ⟨s, ⟨hmem, hcond⟩, rfl⟩
    simp only [Bool.and_eq_true, bne_iff_ne, ne_eq] at hcond
    refine ⟨hmem, hcond.2, ?_⟩
    cases he : s.tempPasswordExpiry with
    | none => simp [he] at hcond
    | some e => exact ⟨e, rfl, by simpa [he] using hcond.1⟩
  · rintro ⟨hmem, hstatus, e, he, hlt⟩
    refine ⟨st, ⟨hmem, ?_⟩, rfl⟩
    simp [he, hlt, hstatus]

/-- A row-wise update that keeps the assignment and the student of every row commutes
with selecting the rows of a pair. -/
theorem filter_isSubmissionOf_map (l : List Submission) (g : Submission → Submission)
    (aid sid : Int)
    (hk : ∀ s, (g s).assignmentId = s.assignmentId ∧ (g s).studentId = s.studentId) :
    (l.map g).filter (isSubmissionOf aid sid) = (l.filter (isSubmissionOf aid sid)).map g := by
  rw [List.filter_map]
  have hpg : isSubmissionOf aid sid ∘ g = isSubmissionOf aid sid := by
    funext s
    simp [isSubmissionOf, (hk s).1, (hk s).2]
  rw [hpg]

/-- One accepted file submission: for a stored student of the assignment's school,
before the due date, with at most one row for the pair, the call succeeds, writes only
submissions, and leaves exactly one row for the pair, with the new file and no grade
and no feedback. -/
theorem submitAssignmentFile_once (now : Int) (session : SessionUser) (ctx : Ctx) (db : DB)
    (aid sid : Int) (path : String) (st : Student) (a : Assignment) (tu : User)
    (hsid : session.studentId = some sid)
    (hst : findStudentById db sid = some st)
    (ha : findAssignmentById db aid = some a)
    (hchain : (findClassById db a.classId).bind
      (fun c => (findTeacherById db c.teacherId).bind (fun t => findUserById db t.userId)) = some tu)
    (hschool : tu.school = ctx.userSchool)
    (hdue : now ≤ a.dueDate)
    (hlen : (submissionsOf db aid sid).length ≤ 1) :
    ∃ subs row,
      submitAssignmentFile now session ctx db (some aid) (some path) =
        (.ok "Assignment submitted successfully!", { db with submissions := subs }) ∧
      subs.filter (isSubmissionOf aid sid) = [row] ∧
      row.fileUrl = some path ∧ row.grade = none ∧ row.feedback = none := by
  have hnotlate : ¬ (now > a.dueDate) := by omega
  have hacc : schoolAccess ctx db a = some true := by
    unfold schoolAccess assignmentTeacherUser
    split
    · rfl
    · rw [hchain]; simp [hschool]
  have hpred : (fun s : Submission =>
      s.assignmentId == aid &&
        (match (some sid : Option Int) with
         | some sid => s.studentId == sid
         | none => true)) = isSubmissionOf aid sid := rfl
  cases hex : findFirstSubmission db aid (some sid) with
  | some existing =>
    have hfound : db.submissions.find? (isSubmissionOf aid sid) = some existing := by
      rw [← hpred]; exact hex
    have hmem : existing ∈ submissionsOf db aid sid :=
      List.mem_filter.mpr ⟨List.mem_of_find?_eq_some hfound, List.find?_some hfound⟩
    have hsingle : submissionsOf db aid sid = [existing] := by
      cases hl : submissionsOf db aid sid with
      | nil => rw [hl] at hmem; simp at hmem
      | cons x xs =>
        rw [hl] at hlen hmem
        have hxs : xs = [] := by
          cases xs with
          | nil => rfl
          | cons y ys => simp at hlen
        subst hxs
        simp at hmem
        rw [hmem]
    refine ⟨db.submissions.map (fun s =>
               if s.id == existing.id then
                 { s with fileUrl := some path, submittedAt := now, grade := none,
                          feedback := none }
               else s),
            { existing with fileUrl := some path, submittedAt := now, grade := none,
                            feedback := none }, ?_, ?_, rfl, rfl, rfl⟩
    · simp only [submitAssignmentFile, ha, hacc, hsid, hex, hnotlate]
      simp
    · rw [filter_isSubmissionOf_map _ _ aid sid (by intro s; split <;> exact ⟨rfl, rfl⟩)]
      have := hsingle
      unfold submissionsOf at this
      rw [this]
      simp
  | none =>
    have hnone : db.submissions.find? (isSubmissionOf aid sid) = none := by
      rw [← hpred]; exact hex
    have hempty : db.submissions.filter (isSubmissionOf aid sid) = [] := by
      rw [List.filter_eq_nil_iff]
      intro s hs
      have := List.find?_eq_none.mp hnone s hs
      simpa using this
    refine ⟨db.submissions ++
              [{ id := nextSubmissionId db, assignmentId := aid, studentId := sid, grade := none,
                 feedback := none, fileUrl := some path, submittedAt := now }],
            { id := nextSubmissionId db, assignmentId := aid, studentId := sid, grade := none,
              feedback := none, fileUrl := some path, submittedAt := now }, ?_, ?_, rfl, rfl, rfl⟩
    · simp only [submitAssignmentFile, ha, hacc, hsid, hex, hst, hnotlate]
      simp
    · rw [List.filter_append, hempty]
      simp [isSubmissionOf]

/-- A gradeAssignment call writes only submissions and keeps the number of rows of
every pair (assignment, student). -/
theorem gradeAssignment_frame (parseFloat : String → Rat) (gctx : Ctx) (db : DB)
    (gid : Option Int) (g fb : Option String) (aid sid : Int) :
    ∃ subs, (gradeAssignment parseFloat gctx db gid g fb).2 = { db with submissions := subs } ∧
      (subs.filter (isSubmissionOf aid sid)).length =
        (db.submissions.filter (isSubmissionOf aid sid)).length := by
  unfold gradeAssignment
  cases g with
  | none => exact ⟨db.submissions, rfl, rfl⟩
  | some grade =>
    by_cases ht : (!truthy (some grade)) = true
    · simp only [ht, if_true]
      exact ⟨db.submissions, rfl, rfl⟩
    · simp only [ht]
      cases gid with
      | none => exact ⟨db.submissions, rfl, rfl⟩
      | some id =>
        by_cases hany : (db.submissions.any (fun s => s.id == id)) = true
        · simp only [hany, if_true]
          refine ⟨_, rfl, ?_⟩
          rw [filter_isSubmissionOf_map _ _ aid sid (by intro s; split <;> exact ⟨rfl, rfl⟩),
            List.length_map]
        · simp only [hany]
          exact ⟨db.submissions, rfl, rfl⟩

/-- C20: for an assignment whose due date has not passed at either submission time and
a stored student whose context school is the school of the assignment's teacher, with
at most one submission row for the pair before, two successive submitAssignmentFile
calls (with any gradeAssignment call in between) both succeed and leave exactly one
submission row for (assignment, student); its fileUrl is the path of the second file
and its grade and feedback are null. -/
theorem submitAssignmentFile_resubmit (now1 now2 : Int) (session : SessionUser) (ctx : Ctx)
    (db : DB) (aid sid : Int) (file1 file2 : String) (st : Student) (a : Assignment)
    (cls : Class) (t : Teacher) (tu : User)
    (parseFloat : String → Rat) (gctx : Ctx) (gid : Option Int) (g fb : Option String)
    (hsid : session.studentId = some sid)
    (hst : findStudentById db sid = some st)
    (ha : findAssignmentById db aid = some a)
    (hc : findClassById db a.classId = some cls)
    (ht : findTeacherById db cls.teacherId = some t)
    (hu : findUserById db t.userId = some tu)
    (hschool : tu.school = ctx.userSchool)
    (hdue1 : now1 ≤ a.dueDate) (hdue2 : now2 ≤ a.dueDate)
    (hlen : (submissionsOf db aid sid).length ≤ 1) :
    (submitAssignmentFile now1 session ctx db (some aid) (some file1)).1 =
      .ok "Assignment submitted successfully!" ∧
    (submitGradeSubmit now1 now2 session ctx db aid file1 file2 parseFloat gctx gid g fb).1 =
      .ok "Assignment submitted successfully!" ∧
    ∃ row,
      submissionsOf
        (submitGradeSubmit now1 now2 session ctx db aid file1 file2 parseFloat gctx gid g fb).2
        aid sid = [row] ∧
      row.fileUrl = some file2 ∧ row.grade = none ∧ row.feedback = none := by
  have hchain : (findClassById db a.classId).bind
      (fun c => (findTeacherById db c.teacherId).bind (fun t => findUserById db t.userId))
      = some tu := by
    simp [hc, ht, hu]
  obtain ⟨subs1, row1, heq1, hrows1, _, _, _⟩ :=
    submitAssignmentFile_once now1 session ctx db aid sid file1 st a tu hsid hst ha hchain hschool
      hdue1 hlen
  obtain ⟨subs2, heq2, hlen2⟩ :=
    gradeAssignment_frame parseFloat gctx { db with submissions := subs1 } gid g fb aid sid
  have hlen2' : (submissionsOf { db with submissions := subs2 } aid sid).length ≤ 1 := by
    unfold submissionsOf
    show (subs2.filter (isSubmissionOf aid sid)).length ≤ 1
    rw [hlen2]
    show (subs1.filter (isSubmissionOf aid sid)).length ≤ 1
    rw [hrows1]
    simp
  obtain ⟨subs3, row3, heq3, hrows3, hfile, hgrade, hfb⟩ :=
    submitAssignmentFile_once now2 session ctx { db with submissions := subs2 } aid sid file2 st a
      tu hsid hst ha hchain hschool hdue2 hlen2'
  have hseq : submitGradeSubmit now1 now2 session ctx db aid file1 file2 parseFloat gctx gid g fb =
      (.ok "Assignment submitted successfully!", { db with submissions := subs3 }) := by
    unfold submitGradeSubmit
    rw [heq1]
    simp only
    rw [heq2, heq3]
  refine ⟨by rw [heq1], by rw [hseq], row3, ?_, hfile, hgrade, hfb⟩
  rw [hseq]
  exact hrows3

/-- C20 at the two-school store: the Riverview student 1 resubmits assignment 1 after
the existing submission was graded 95; one row remains, with the second file and no
grade. -/
theorem submitAssignmentFile_resubmit_witness :
    (riverviewStudentSession.studentId = some 1 ∧
      findStudentById sampleDB 1 = some ⟨1, 3, "10", "A", "paid", true, none⟩ ∧
      findAssignmentById sampleDB 1 = some ⟨1, "Homework", none, 1000, 1, 1, 60⟩ ∧
      findClassById sampleDB 1 = some ⟨1, "Algebra", "10", "A", 1⟩ ∧
      findTeacherById sampleDB 1 = some ⟨1, 2, "Math"⟩ ∧
      findUserById sampleDB 2 = some (mkUser 2 "teacher" (some "Riverview") 20) ∧
      (mkUser 2 "teacher" (some "Riverview") 20).school = riverviewMemberCtx.userSchool ∧
      (submissionsOf sampleDB 1 1).length ≤ 1) ∧
    ((submitAssignmentFile 500 riverviewStudentSession riverviewMemberCtx sampleDB (some 1)
        (some "uploads/first.pdf")).1 = .ok "Assignment submitted successfully!" ∧
      (submitGradeSubmit 500 600 riverviewStudentSession riverviewMemberCtx sampleDB 1
        "uploads/first.pdf" "uploads/second.pdf" (fun _ => 95) riverviewMemberCtx (some 1)
        (some "95") (some "good")).1 = .ok "Assignment submitted successfully!" ∧
      ∃ row,
        submissionsOf
          (submitGradeSubmit 500 600 riverviewStudentSession riverviewMemberCtx sampleDB 1
            "uploads/first.pdf" "uploads/second.pdf" (fun _ => 95) riverviewMemberCtx (some 1)
            (some "95") (some "good")).2 1 1 = [row] ∧
        row.fileUrl = some "uploads/second.pdf" ∧ row.grade = none ∧ row.feedback = none) ∧
    (gradeAssignment (fun _ => 95) riverviewMemberCtx
        (submitAssignmentFile 500 riverviewStudentSession riverviewMemberCtx sampleDB (some 1)
          (some "uploads/first.pdf")).2 (some 1) (some "95") (some "good")).2.submissions.map
        (fun s => (s.fileUrl, s.grade)) = [(some "uploads/first.pdf", some 95)] :=
  ⟨⟨rfl, by decide, by decide, by decide, by decide, by decide, by decide, by decide⟩,
   submitAssignmentFile_resubmit 500 600 riverviewStudentSession riverviewMemberCtx sampleDB 1 1
     "uploads/first.pdf" "uploads/second.pdf" ⟨1, 3, "10", "A", "paid", true, none⟩
     ⟨1, "Homework", none, 1000, 1, 1, 60⟩ ⟨1, "Algebra", "10", "A", 1⟩ ⟨1, 2, "Math"⟩
     (mkUser 2 "teacher" (some "Riverview") 20) (fun _ => 95) riverviewMemberCtx (some 1)
     (some "95") (some "good") rfl (by decide) (by decide) (by decide) (by decide) (by decide)
     (by decide) (by decide) (by decide) (by decide),
   by decide⟩

/-- C21: at the store whose only submission (assignment 1, student 1) is graded 85 with
feedback Good, a resubmission by that student before the due date through
submitTextAssignment or submitDrawingAssignment rewrites the row with the new content
but leaves grade 85 and feedback Good in place; submitAssignment (whether or not Prisma
accepts its include clause) leaves grade and feedback in place as well. -/
theorem resubmit_keeps_grade_and_feedback :
    (submitTextAssignment (fun _ => 2) 500 riverviewStudentSession riverviewMemberCtx gradedDB
        (some 1) (some "Essay") (some "new text")).2.submissions.map
        (fun s => (s.content, s.grade, s.feedback)) =
      [(some "new text", some 85, some "Good")] ∧
    (submitDrawingAssignment 500 riverviewStudentSession riverviewMemberCtx gradedDB
        (some 1) (some "Sketch") (some "data:image/png")).2.submissions.map
        (fun s => (s.drawingData, s.grade, s.feedback)) =
      [(some "data:image/png", some 85, some "Good")] ∧
    (submitAssignment true 500 riverviewStudentSession riverviewMemberCtx gradedDB
        (some 1) (some "uploads/new.pdf")).2.submissions.map
        (fun s => (s.fileUrl, s.grade, s.feedback)) =
      [(some "uploads/new.pdf", some 85, some "Good")] ∧
    (submitAssignment false 500 riverviewStudentSession riverviewMemberCtx gradedDB
        (some 1) (some "uploads/new.pdf")).2.submissions.map
        (fun s => (s.fileUrl, s.grade, s.feedback)) =
      [(some "uploads/old.pdf", some 85, some "Good")] := by
  decide

/-- A file submission for a stored assignment that is past due is answered with an
error and writes nothing. -/
theorem submitAssignmentFile_pastDue (now : Int) (session : SessionUser) (ctx : Ctx) (db : DB)
    (aid : Int) (a : Assignment) (file : Option String)
    (ha : findAssignmentById db aid = some a) (hdue : a.dueDate < now) :
    (submitAssignmentFile now session ctx db (some aid) file).1.isError = true ∧
      (submitAssignmentFile now session ctx db (some aid) file).2 = db := by
  have hlate : now > a.dueDate := hdue
  unfold submitAssignmentFile
  cases file with
  | none => exact ⟨rfl, rfl⟩
  | some path =>
    simp only [ha]
    cases schoolAccess ctx db a with
    | none => exact ⟨rfl, rfl⟩
    | some b => cases b <;> simp [hlate, Response.isError]

/-- An enhanced submission for a stored assignment that is past due is answered with an
error and writes nothing. -/
theorem submitEnhancedAssignment_pastDue (now : Int) (session : SessionUser) (ctx : Ctx)
    (db : DB) (aid : Int) (a : Assignment) (content type : Option String)
    (ha : findAssignmentById db aid = some a) (hdue : a.dueDate < now) :
    (submitEnhancedAssignment now session ctx db (some aid) content type).1.isError = true ∧
      (submitEnhancedAssignment now session ctx db (some aid) content type).2 = db := by
  have hlate : now > a.dueDate := hdue
  unfold submitEnhancedAssignment
  cases (if truthy content = true then content else none) with
  | none => exact ⟨rfl, rfl⟩
  | some text =>
    simp only [ha]
    cases schoolAccess ctx db a with
    | none => exact ⟨rfl, rfl⟩
    | some b => cases b <;> simp [hlate, Response.isError]

/-- A submitAssignment call for a stored assignment that is past due is answered with
an error and writes nothing. -/
theorem submitAssignment_pastDue (includeAccepted : Bool) (now : Int) (session : SessionUser)
    (ctx : Ctx) (db : DB) (aid : Int) (a : Assignment) (file : Option String)
    (ha : findAssignmentById db aid = some a) (hdue : a.dueDate < now) :
    (submitAssignment includeAccepted now session ctx db (some aid) file).1.isError = true ∧
      (submitAssignment includeAccepted now session ctx db (some aid) file).2 = db := by
  have hlate : now > a.dueDate := hdue
  unfold submitAssignment
  cases file with
  | none => exact ⟨rfl, rfl⟩
  | some path =>
    simp only [ha]
    split
    · exact ⟨rfl, rfl⟩
    · simp [hlate, Response.isError]

/-- A text submission for a stored assignment that is past due is answered with an
error and writes nothing. -/
theorem submitTextAssignment_pastDue (countWords : String → Int) (now : Int)
    (session : SessionUser) (ctx : Ctx) (db : DB) (aid : Int) (a : Assignment)
    (title content : Option String)
    (ha : findAssignmentById db aid = some a) (hdue : a.dueDate < now) :
    (submitTextAssignment countWords now session ctx db (some aid) title content).1.isError
        = true ∧
      (submitTextAssignment countWords now session ctx db (some aid) title content).2 = db := by
  have hlate : now > a.dueDate := hdue
  unfold submitTextAssignment
  split
  · simp only [ha]
    cases schoolAccess ctx db a with
    | none => exact ⟨rfl, rfl⟩
    | some b => cases b <;> simp [hlate, Response.isError]
  · exact ⟨rfl, rfl⟩

/-- A drawing submission for a stored assignment that is past due is answered with an
error and writes nothing. -/
theorem submitDrawingAssignment_pastDue (now : Int) (session : SessionUser) (ctx : Ctx)
    (db : DB) (aid : Int) (a : Assignment) (title imageData : Option String)
    (ha : findAssignmentById db aid = some a) (hdue : a.dueDate < now) :
    (submitDrawingAssignment now session ctx db (some aid) title imageData).1.isError = true ∧
      (submitDrawingAssignment now session ctx db (some aid) title imageData).2 = db := by
  have hlate : now > a.dueDate := hdue
  unfold submitDrawingAssignment
  split
  · simp only [ha]
    cases schoolAccess ctx db a with
    | none => exact ⟨rfl, rfl⟩
    | some b => cases b <;> simp [hlate, Response.isError]
  · exact ⟨rfl, rfl⟩

/-- C22: for a stored assignment whose dueDate is earlier than the current time, each
of the five submission handlers (submitAssignmentFile, submitEnhancedAssignment,
submitAssignment, submitTextAssignment, submitDrawingAssignment) answers with an error,
whatever the session, context and body are, and leaves the store, hence the Submission
table, unchanged. -/
theorem submission_pastDue_rejected (now : Int) (session : SessionUser) (ctx : Ctx) (db : DB)
    (aid : Int) (a : Assignment) (file content type title imageData : Option String)
    (includeAccepted : Bool) (countWords : String → Int)
    (ha : findAssignmentById db aid = some a) (hdue : a.dueDate < now) :
    ((submitAssignmentFile now session ctx db (some aid) file).1.isError = true ∧
      (submitAssignmentFile now session ctx db (some aid) file).2 = db) ∧
    ((submitEnhancedAssignment now session ctx db (some aid) content type).1.isError = true ∧
      (submitEnhancedAssignment now session ctx db (some aid) content type).2 = db) ∧
    ((submitAssignment includeAccepted now session ctx db (some aid) file).1.isError = true ∧
      (submitAssignment includeAccepted now session ctx db (some aid) file).2 = db) ∧
    ((submitTextAssignment countWords now session ctx db (some aid) title content).1.isError
        = true ∧
      (submitTextAssignment countWords now session ctx db (some aid) title content).2 = db) ∧
    ((submitDrawingAssignment now session ctx db (some aid) title imageData).1.isError = true ∧
      (submitDrawingAssignment now session ctx db (some aid) title imageData).2 = db) :=
  ⟨submitAssignmentFile_pastDue now session ctx db aid a file ha hdue,
   submitEnhancedAssignment_pastDue now session ctx db aid a content type ha hdue,
   submitAssignment_pastDue includeAccepted now session ctx db aid a file ha hdue,
   submitTextAssignment_pastDue countWords now session ctx db aid a title content ha hdue,
   submitDrawingAssignment_pastDue now session ctx db aid a title imageData ha hdue⟩

/-- C22 at the two-school store: assignment 1 is due at 1000; at time 2000 the Riverview
student 1 is turned away by all five handlers, and the same file submitted at time 500
is accepted. -/
theorem submission_pastDue_rejected_witness :
    (findAssignmentById sampleDB 1 = some ⟨1, "Homework", none, 1000, 1, 1, 60⟩ ∧
      (1000 : Int) < 2000) ∧
    (((submitAssignmentFile 2000 riverviewStudentSession riverviewMemberCtx sampleDB (some 1)
        (some "uploads/a.pdf")).1.isError = true ∧
      (submitAssignmentFile 2000 riverviewStudentSession riverviewMemberCtx sampleDB (some 1)
        (some "uploads/a.pdf")).2 = sampleDB) ∧
    ((submitEnhancedAssignment 2000 riverviewStudentSession riverviewMemberCtx sampleDB (some 1)
        (some "text") none).1.isError = true ∧
      (submitEnhancedAssignment 2000 riverviewStudentSession riverviewMemberCtx sampleDB (some 1)
        (some "text") none).2 = sampleDB) ∧
    ((submitAssignment true 2000 riverviewStudentSession riverviewMemberCtx sampleDB (some 1)
        (some "uploads/a.pdf")).1.isError = true ∧
      (submitAssignment true 2000 riverviewStudentSession riverviewMemberCtx sampleDB (some 1)
        (some "uploads/a.pdf")).2 = sampleDB) ∧
    ((submitTextAssignment (fun _ => 1) 2000 riverviewStudentSession riverviewMemberCtx sampleDB
        (some 1) (some "Essay") (some "text")).1.isError = true ∧
      (submitTextAssignment (fun _ => 1) 2000 riverviewStudentSession riverviewMemberCtx sampleDB
        (some 1) (some "Essay") (some "text")).2 = sampleDB) ∧
    ((submitDrawingAssignment 2000 riverviewStudentSession riverviewMemberCtx sampleDB (some 1)
        (some "Sketch") (some "data:image/png")).1.isError = true ∧
      (submitDrawingAssignment 2000 riverviewStudentSession riverviewMemberCtx sampleDB (some 1)
        (some "Sketch") (some "data:image/png")).2 = sampleDB)) ∧
    (submitAssignmentFile 500 riverviewStudentSession riverviewMemberCtx sampleDB (some 1)
        (some "uploads/a.pdf")).1.isError = false :=
  ⟨⟨by decide, by decide⟩,
   submission_pastDue_rejected 2000 riverviewStudentSession riverviewMemberCtx sampleDB 1
     ⟨1, "Homework", none, 1000, 1, 1, 60⟩ (some "uploads/a.pdf") (some "text") none
     (some "Essay") (some "data:image/png") true (fun _ => 1) (by decide) (by decide),
   by decide⟩

/-- The first attempt of a pair is found exactly when the pair has attempts. -/
theorem findFirstAttempt_eq_none (db : DB) (eid sid : Int) :
    findFirstAttempt db eid sid = none ↔ attemptsOf db eid sid = [] := by
  unfold findFirstAttempt attemptsOf
  rw [List.find?_eq_none, List.filter_eq_nil_iff]

/-- C23: takeExam adds an attempt exactly under the condition of the claim. If the exam
is stored, the session student is enrolled in the exam's class, date <= now <= date +
duration (minutes, in milliseconds) and no attempt exists for (exam, student), the store
after the call is the old one plus one attempt in state in_progress for the pair; if
that condition fails (also for an id that is not a number) the store is unchanged. So a
pair with at most one attempt has at most one attempt afterwards. -/
theorem takeExam_creates_iff (now : Int) (session : SessionUser) (ctx : Ctx) (db : DB)
    (eid : Int) :
    (∀ exam sid, findExamById db eid = some exam → session.studentId = some sid →
      (findEnrollment db exam.classId sid).isSome = true →
      exam.date ≤ now → now ≤ exam.date + exam.duration * 60000 →
      attemptsOf db eid sid = [] →
      (takeExam now session ctx db (some eid)).2 =
        { db with examAttempts := db.examAttempts ++
            [{ id := nextAttemptId db, examId := eid, studentId := sid,
               status := "in_progress", startedAt := now }] }) ∧
    ((¬ ∃ exam sid, findExamById db eid = some exam ∧ session.studentId = some sid ∧
        (findEnrollment db exam.classId sid).isSome = true ∧
        exam.date ≤ now ∧ now ≤ exam.date + exam.duration * 60000 ∧
        attemptsOf db eid sid = []) →
      (takeExam now session ctx db (some eid)).2 = db) ∧
    (takeExam now session ctx db none).2 = db ∧
    (∀ sid, (attemptsOf db eid sid).length ≤ 1 →
      (attemptsOf (takeExam now session ctx db (some eid)).2 eid sid).length ≤ 1) := by
  have hcreate : ∀ exam sid, findExamById db eid = some exam → session.studentId = some sid →
      (findEnrollment db exam.classId sid).isSome = true →
      exam.date ≤ now → now ≤ exam.date + exam.duration * 60000 →
      attemptsOf db eid sid = [] →
      (takeExam now session ctx db (some eid)).2 =
        { db with examAttempts := db.examAttempts ++
            [{ id := nextAttemptId db, examId := eid, studentId := sid,
               status := "in_progress", startedAt := now }] } := by
    intro exam sid hexam hsid henr hstart hend hnone
    have hfirst := (findFirstAttempt_eq_none db eid sid).mpr hnone
    obtain ⟨en, hen⟩ := Option.isSome_iff_exists.mp henr
    have h1 : ¬ now < exam.date := by omega
    have h2 : ¬ now > exam.date + exam.duration * 60000 := by omega
    simp only [takeExam, hexam, hsid, hen, hfirst, h1, h2, if_false]
  have hkeep : (¬ ∃ exam sid, findExamById db eid = some exam ∧ session.studentId = some sid ∧
        (findEnrollment db exam.classId sid).isSome = true ∧
        exam.date ≤ now ∧ now ≤ exam.date + exam.duration * 60000 ∧
        attemptsOf db eid sid = []) →
      (takeExam now session ctx db (some eid)).2 = db := by
    intro hcond
    unfold takeExam
    simp only
    cases hexam : findExamById db eid with
    | none => rfl
    | some exam =>
      simp only
      cases hsid : session.studentId with
      | none => rfl
      | some sid =>
        simp only
        cases hen : findEnrollment db exam.classId sid with
        | none => rfl
        | some en =>
          simp only
          by_cases h1 : now < exam.date
          · simp only [h1, if_true]
          · by_cases h2 : now > exam.date + exam.duration * 60000
            · simp only [h1, h2, if_true, if_false]
            · simp only [h1, h2, if_false]
              cases hfirst : findFirstAttempt db eid sid with
              | some existing =>
                simp only
                split <;> rfl
              | none =>
                exact absurd ⟨exam, sid, hexam, hsid, by rw [hen]; rfl, by omega, by omega,
                  (findFirstAttempt_eq_none db eid sid).mp hfirst⟩ hcond
  refine ⟨hcreate, hkeep, rfl, ?_⟩
  intro sid hlen
  by_cases hcond : ∃ exam sid, findExamById db eid = some exam ∧ session.studentId = some sid ∧
        (findEnrollment db exam.classId sid).isSome = true ∧
        exam.date ≤ now ∧ now ≤ exam.date + exam.duration * 60000 ∧
        attemptsOf db eid sid = []
  · obtain ⟨exam, sid0, hexam, hsid, henr, hstart, hend, hnone⟩ := hcond
    rw [hcreate exam sid0 hexam hsid henr hstart hend hnone]
    unfold attemptsOf at hlen hnone ⊢
    simp only [List.filter_append]
    by_cases hs : sid = sid0
    · subst hs
      rw [hnone]
      simp only [List.nil_append]
      exact List.length_filter_le _ _
    · have : isAttemptOf eid sid
          ({ id := nextAttemptId db, examId := eid, studentId := sid0,
             status := "in_progress", startedAt := now } : ExamAttempt) = false := by
        simp [isAttemptOf]
        intro h
        exact absurd h.symm hs
      simp [this]
      exact hlen
  · rw [hkeep hcond]
    exact hlen

/-- C23 at the quiz store: the Riverview student 1, enrolled in class 1, opens exam 1 at
time 2000 inside the window and gets attempt 1 in state in_progress; opening the exam
again adds nothing, and at time 999 (before the window) nothing is added either. -/
theorem takeExam_creates_iff_witness :
    (takeExam 2000 riverviewStudentSession riverviewMemberCtx quizDB (some 1)).2 =
      { quizDB with examAttempts := quizDB.examAttempts ++
          [{ id := nextAttemptId quizDB, examId := 1, studentId := 1,
             status := "in_progress", startedAt := 2000 }] } ∧
    (takeExam 3000 riverviewStudentSession riverviewMemberCtx
        (takeExam 2000 riverviewStudentSession riverviewMemberCtx quizDB (some 1)).2
        (some 1)).2.examAttempts.map (fun a => (a.id, a.status)) = [(1, "in_progress")] ∧
    (takeExam 999 riverviewStudentSession riverviewMemberCtx quizDB (some 1)).2 = quizDB :=
  ⟨(takeExam_creates_iff 2000 riverviewStudentSession riverviewMemberCtx quizDB 1).1
     (quizDB.exams.head (by decide)) 1 (by decide) rfl (by decide) (by decide) (by decide)
     (by decide),
   by decide,
   (takeExam_creates_iff 999 riverviewStudentSession riverviewMemberCtx quizDB 1).2.1
     (by
       rintro ⟨exam, sid, hexam, _, _, hstart, _, _⟩
       have he : exam = quizDB.exams.head (by decide) := by
         have h0 : findExamById quizDB 1 = some (quizDB.exams.head (by decide)) := by decide
         rw [h0] at hexam
         exact (Option.some.inj hexam).symm
       subst he
       revert hstart
       decide)⟩

/-- The forEach loop of submitExam adds up trimmedQuestionScore when no short-answer
question is answered with something that is not a text. -/
theorem scoreFrom_eq_sum (answers : List JsVal) (questions : List Question) :
    ∀ (index : Nat) (score : Rat), shortAnswersAreText index questions answers = true →
      scoreFrom answers index questions score =
        some (score + ((questions.enumFrom index).map
          (fun p => trimmedQuestionScore p.2 (answers.getD p.1 .undefined))).sum) := by
  induction questions with
  | nil => intro index score _; simp [scoreFrom]
  | cons q rest ih =>
    intro index score h
    simp only [shortAnswersAreText, List.enumFrom_cons, List.all_cons, Bool.and_eq_true] at h
    obtain ⟨hq, hrest⟩ := h
    have hstep : scoreQuestion answers score index q =
        some (score + trimmedQuestionScore q (answers.getD index .undefined)) := by
      unfold scoreQuestion trimmedQuestionScore
      cases hans : answers.getD index JsVal.undefined <;>
        by_cases hmc : (q.type == some "multiple_choice" || q.type == some "true_false") = true <;>
        by_cases hsa : (q.type == some "short_answer") = true <;>
        simp_all <;>
        (try split) <;> simp_all
      ring
    simp only [scoreFrom, hstep, List.enumFrom_cons, List.map_cons, List.sum_cons]
    rw [ih (index + 1) _ hrest]
    congr 1
    ring

/-- C24, counterexample: in exam 1 of the quiz store the short-answer question carries
4 marks. The student answers the first question correctly (2 marks), the second one
wrongly and the third one with three blanks, a non-empty answer. The claim gives 2 + 0 +
2 = 4, submitExam answers and stores the score 2. In the store whose only question
carries 0 marks, the correct answer is worth the full marks 0 by the claim, and
submitExam answers and stores the score 1. -/
theorem submitExam_blank_short_answer_unscored :
    (submitExam 3000 riverviewStudentSession riverviewMemberCtx quizStartedDB (some 1)
        (some [.str "B", .bool false, .str "   "]) (some 40)).1 =
      .ok { score := 2, totalQuestions := 3, attemptId := 1 } ∧
    (submitExam 3000 riverviewStudentSession riverviewMemberCtx quizStartedDB (some 1)
        (some [.str "B", .bool false, .str "   "]) (some 40)).2.examAttempts.map
        (fun a => (a.status, a.score)) = [("submitted", some 2)] ∧
    (quizStartedDB.exams.map (fun e =>
        specScore (e.questions.getD []) [.str "B", .bool false, .str "   "])) = [4] ∧
    (submitExam 3000 riverviewStudentSession riverviewMemberCtx zeroMarksDB (some 1)
        (some [.bool true]) (some 40)).1 =
      .ok { score := 1, totalQuestions := 1, attemptId := 1 } ∧
    (submitExam 3000 riverviewStudentSession riverviewMemberCtx zeroMarksDB (some 1)
        (some [.bool true]) (some 40)).2.examAttempts.map
        (fun a => (a.status, a.score)) = [("submitted", some 1)] ∧
    (zeroMarksDB.exams.map (fun e => specScore (e.questions.getD []) [.bool true])) = [0] := by
  decide!

/-- C24, amended: when the exam is found for the context and the student has an attempt
in progress, every short-answer question is answered with a text or not at all, and the
marks of the questions are whole numbers within the bounds of marksExact (where the
numbers of JavaScript add without rounding), submitExam answers and stores as score the
sum over the questions of trimmedQuestionScore: nothing for a question without an
answer (undefined or null), the weight for a multiple_choice or true_false question
answered exactly with correctAnswer, half the weight for a short_answer question whose
answer is not empty after trimming white space, and 0 otherwise, where the weight is the
marks when they are a number other than 0 and 1 otherwise. Without answers in the body
the score is 0. -/
theorem submitExam_score (now : Int) (session : SessionUser) (ctx : Ctx) (db : DB) (eid : Int)
    (exam : Exam) (attempt : ExamAttempt) (given : List JsVal) (timeSpent : Option Int)
    (hexam : (findExamById db eid).filter (examInSchool ctx db) = some exam)
    (hattempt : findAttemptInProgress db eid session.studentId = some attempt)
    (htext : shortAnswersAreText 0 (exam.questions.getD []) given = true)
    (_hexact : marksExact (exam.questions.getD []) = true) :
    ((submitExam now session ctx db (some eid) (some given) timeSpent).1 =
      .ok { score := ((exam.questions.getD []).enum.map
                       (fun p => trimmedQuestionScore p.2 (given.getD p.1 .undefined))).sum
            totalQuestions := (exam.questions.getD []).length
            attemptId := attempt.id } ∧
     ∀ a ∈ (submitExam now session ctx db (some eid) (some given) timeSpent).2.examAttempts,
       a.id = attempt.id →
         a.status = "submitted" ∧
         a.score = some (((exam.questions.getD []).enum.map
                       (fun p => trimmedQuestionScore p.2 (given.getD p.1 .undefined))).sum)) ∧
    (submitExam now session ctx db (some eid) none timeSpent).1 =
      .ok { score := 0, totalQuestions := (exam.questions.getD []).length,
            attemptId := attempt.id } := by
  have hscore : scoreExam (exam.questions.getD []) (some given) =
      some (((exam.questions.getD []).enum.map
        (fun p => trimmedQuestionScore p.2 (given.getD p.1 .undefined))).sum) := by
    unfold scoreExam
    simp only
    split
    · rw [scoreFrom_eq_sum given _ 0 0 htext, zero_add]
      rfl
    · rename_i hlen
      have hnil : exam.questions.getD [] = [] := by
        cases hq : exam.questions.getD [] with
        | nil => rfl
        | cons x xs => rw [hq] at hlen; simp at hlen
      rw [hnil]
      rfl
  refine ⟨⟨?_, ?_⟩, ?_⟩
  · simp only [submitExam, hexam, hattempt, hscore]
  · simp only [submitExam, hexam, hattempt, hscore]
    intro a ha hid
    rw [List.mem_map] at ha
    obtain ⟨b, _, hb⟩ := ha
    by_cases hbid : (b.id == attempt.id) = true
    · rw [if_pos hbid] at hb
      subst hb
      exact ⟨rfl, rfl⟩
    · rw [if_neg hbid] at hb
      subst hb
      exact absurd (by simpa using hid) hbid
  · simp only [submitExam, hexam, hattempt, scoreExam]

/-- C24, amended, at the quiz store: the answers B, true and the text prime to the
three questions score 2 + 1 + 2 = 5, the true/false question without marks counting 1
and the short answer half of 4. -/
theorem submitExam_score_witness :
    (submitExam 3000 riverviewStudentSession riverviewMemberCtx quizStartedDB (some 1)
        (some [.str "B", .bool true, .str "prime"]) (some 40)).1 =
      .ok { score := 5, totalQuestions := 3, attemptId := 1 } :=
  (((submitExam_score 3000 riverviewStudentSession riverviewMemberCtx quizStartedDB 1
      (quizStartedDB.exams.head (by decide))
      { id := 1, examId := 1, studentId := 1, status := "in_progress", startedAt := 2000 }
      [.str "B", .bool true, .str "prime"] (some 40) (by decide) (by decide) (by decide)
      (by decide!)).1.1).trans
    (by decide!))

/-- C25: in the quiz store the attempt of student 1 goes through in_progress (takeExam),
submitted (submitExam), graded (submitGrading) and published (publishResults); a further
submitGrading call of the teacher is accepted and moves the published attempt back to
graded, with the new score. -/
theorem submitGrading_published_back_to_graded :
    (takeExam 2000 riverviewStudentSession riverviewMemberCtx quizDB
        (some 1)).2.examAttempts.map (fun a => (a.id, a.status)) = [(1, "in_progress")] ∧
    (submitExam 3000 riverviewStudentSession riverviewMemberCtx
        (takeExam 2000 riverviewStudentSession riverviewMemberCtx quizDB (some 1)).2
        (some 1) (some [.str "B", .bool true, .str "prime"])
        (some 40)).2.examAttempts.map (fun a => (a.id, a.status)) = [(1, "submitted")] ∧
    publishedDB.examAttempts.map (fun a => (a.id, a.status, a.score)) =
      [(1, "published", some 6)] ∧
    (submitGrading 6000 riverviewTeacherSession publishedDB (some 1) (some "Regraded") 3).1 =
      .ok 1 ∧
    (submitGrading 6000 riverviewTeacherSession publishedDB (some 1) (some "Regraded")
        3).2.examAttempts.map (fun a => (a.id, a.status, a.score)) =
      [(1, "graded", some 3)] := by
  decide!

/-- C26: viewExamResults hands the attempt with its score, the total and the percentage
to the student for an attempt in state in_progress, submitted or graded just as for a
published one: in the quiz store student 1 sees the automatic score 5 of the submitted
attempt and the teacher's score 6 of the graded attempt before publishResults has run. -/
theorem viewExamResults_unpublished_shown :
    ((viewExamResults riverviewStudentSession riverviewMemberCtx quizStartedDB
        (some 1)).payload.map
        (fun p => (p.attempt.status, p.attempt.score, p.percentage)) =
      some ("in_progress", none, some 0)) ∧
    ((viewExamResults riverviewStudentSession riverviewMemberCtx submittedAttemptDB
        (some 1)).payload.map
        (fun p => (p.attempt.status, p.attempt.score, p.percentage)) =
      some ("submitted", some 5, some (500 / 7))) ∧
    ((viewExamResults riverviewStudentSession riverviewMemberCtx gradedAttemptDB
        (some 1)).payload.map
        (fun p => (p.attempt.status, p.attempt.score, p.percentage)) =
      some ("graded", some 6, some (600 / 7))) ∧
    ((viewExamResults riverviewStudentSession riverviewMemberCtx publishedDB
        (some 1)).payload.map
        (fun p => (p.attempt.status, p.attempt.score, p.percentage)) =
      some ("published", some 6, some (600 / 7))) := by
  decide!

/-- In a table with pairwise different ids, the lookup by id finds the stored row. -/
theorem findClassById_of_mem (db : DB) (c : Class)
    (hunique : (db.classes.map (fun c => c.id)).Nodup) (hc : c ∈ db.classes) :
    findClassById db c.id = some c := by
  unfold findClassById
  generalize db.classes = l at hunique hc
  induction l with
  | nil => simp at hc
  | cons x xs ih =>
    rw [List.map_cons, List.nodup_cons] at hunique
    rcases List.mem_cons.mp hc with h | h
    · subst h
      simp
    · have hne : x.id ≠ c.id := by
        intro heq
        exact hunique.1 (heq ▸ List.mem_map_of_mem (fun c => c.id) h)
      rw [List.find?_cons_of_neg]
      · exact ih hunique.2 h
      · simpa using hne

/-- An updateAssignment call that succeeds, on classes with pairwise different ids,
leaves the assignment with the teacher of the session, in a class of that teacher. -/
theorem updateAssignment_class_of_teacher (session : SessionUser) (db : DB)
    (assignmentId : Option Int) (body : AssignmentBody) (updated : Assignment)
    (hunique : (db.classes.map (fun c => c.id)).Nodup)
    (hok : (updateAssignment session db assignmentId body).1 = .ok updated) :
    some updated.teacherId = session.teacherId ∧ teacherMatchesClass db updated = true := by
  unfold updateAssignment at hok
  split at hok
  · simp at hok
  · split at hok
    · simp at hok
    · split at hok
      · simp at hok
      · split at hok
        · simp at hok
        · split at hok
          · simp at hok
          · split at hok
            · simp at hok
            · rename_i existing _
              split at hok
              · simp at hok
              · rename_i hteacher
                split at hok
                · rename_i classId dueDate
                  split at hok
                  · simp at hok
                  · rename_i c hc
                    simp only [Response.ok.injEq] at hok
                    subst hok
                    unfold findClassOfTeacher at hc
                    have hmem := List.mem_of_find?_eq_some hc
                    have hp := List.find?_some hc
                    simp only [Bool.and_eq_true, beq_iff_eq] at hp
                    refine ⟨by simpa using hteacher, ?_⟩
                    unfold teacherMatchesClass
                    simp only
                    rw [← hp.1, findClassById_of_mem db c hunique hmem]
                    simp [hp.2]
                · split at hok <;> simp at hok
                · simp at hok

/-- C27: in the store with two teachers, the Riverview teacher 1 creates an assignment
in class 3, a class of teacher 2. createAssignment answers with the redirect of success
and stores the assignment with teacherId 1, while the class it belongs to has teacherId
2. The same body sent to updateAssignment for assignment 1 is turned down as an invalid
class selection. -/
theorem createAssignment_foreign_class :
    (createAssignment 100 riverviewTeacherSession twoTeacherDB class3Body).1 =
      .redirect "/teacher/assignments" ∧
    (createAssignment 100 riverviewTeacherSession twoTeacherDB class3Body).2.assignments.map
        (fun a => (a.id, a.classId, a.teacherId)) = [(1, 1, 1), (2, 3, 1)] ∧
    (findClassById twoTeacherDB 3).map (fun c => c.teacherId) = some 2 ∧
    (createAssignment 100 riverviewTeacherSession twoTeacherDB class3Body).2.assignments.map
        (teacherMatchesClass twoTeacherDB) = [true, false] ∧
    updateAssignment riverviewTeacherSession twoTeacherDB (some 1) class3Body =
      (.error 400 "Invalid class selection", twoTeacherDB) := by
  decide

/-- C28: comparePassword accepts a password for a hash exactly when both are non-empty,
also after trimming, and bcrypt.compare accepts the trimmed texts. login assigns a
session user exactly when a user with the trimmed idNumber is stored, that user is
active and comparePassword accepts the supplied password for the stored hash. The object assigned then carries the id, idNumber, names, role, avatar and
school of that row and the id of the profile that goes with the role, and the answer is
the redirect to the dashboard of the role. In every other case (no idNumber, unknown
id, deactivated account, password rejected) nothing is assigned and the login page is
rendered with an error text. -/
theorem login_sets_session_iff (bcryptCompare : String → String → Bool) (db : DB)
    (idNumber password : Option String) :
    (∀ hash, comparePassword bcryptCompare password hash = true ↔
      ∃ pw, password = some pw ∧ pw ≠ "" ∧ hash ≠ "" ∧ trim pw ≠ "" ∧ trim hash ≠ "" ∧
        bcryptCompare (trim pw) (trim hash) = true) ∧
    ((login bcryptCompare db idNumber password).2.isSome = true ↔
      ∃ idn user, idNumber = some idn ∧ db.users.find? (fun u => u.idNumber == trim idn) = some user ∧
        user.isActive = true ∧ comparePassword bcryptCompare password user.password = true) ∧
    (∀ idn user, idNumber = some idn → db.users.find? (fun u => u.idNumber == trim idn) = some user →
      user.isActive = true → comparePassword bcryptCompare password user.password = true →
      login bcryptCompare db idNumber password =
        (.redirect (if user.role = "student" then "/student/dashboard"
                    else if user.role = "teacher" then "/teacher/dashboard"
                    else if user.role = "admin" then "/admin/dashboard"
                    else "/"),
         some { id := user.id, role := user.role, school := user.school,
                studentId := if user.role = "student" then
                               (db.students.find? (fun s => s.userId == user.id)).map
                                 (fun s => s.id)
                             else none
                teacherId := if user.role = "teacher" then
                               (db.teachers.find? (fun t => t.userId == user.id)).map
                                 (fun t => t.id)
                             else none
                adminId := if user.role = "admin" then
                             (db.admins.find? (fun a => a.userId == user.id)).map
                               (fun a => a.id)
                           else none
                idNumber := some user.idNumber, firstName := some user.firstName,
                lastName := some user.lastName, avatar := user.avatar })) ∧
    ((login bcryptCompare db idNumber password).2 = none →
      ∃ msg, msg ≠ "" ∧ (login bcryptCompare db idNumber password).1 = .loginPage msg) := by
  refine ⟨?_, ?_⟩
  · intro hash
    unfold comparePassword
    cases password with
    | none => simp
    | some pw =>
      by_cases h1 : pw = "" <;> by_cases h2 : hash = "" <;>
        by_cases h3 : trim pw = "" <;> by_cases h4 : trim hash = "" <;> simp [h1, h2, h3, h4]
  unfold login findUserByIdNumber
  cases idNumber with
  | none => exact ⟨⟨by simp, by rintro ⟨_, _, h, _⟩; simp at h⟩, by simp, fun _ => ⟨_, by decide, rfl⟩⟩
  | some idn =>
    simp only
    cases huser : db.users.find? (fun u => u.idNumber == trim idn) with
    | none =>
      refine ⟨⟨by simp, ?_⟩, ?_, fun _ => ⟨_, by decide, rfl⟩⟩
      · rintro ⟨idn1, u, h, hu, _⟩
        cases h
        rw [huser] at hu
        simp at hu
      · intro idn1 u h hu
        cases h
        rw [huser] at hu
        simp at hu
    | some user =>
      simp only
      by_cases hactive : user.isActive = true
      · by_cases hpw : comparePassword bcryptCompare password user.password = true
        · simp only [hactive, hpw, Bool.not_true, Bool.false_eq_true, if_false]
          refine ⟨⟨fun _ => ⟨idn, user, rfl, huser, hactive, hpw⟩, fun _ => rfl⟩, ?_, by simp⟩
          intro idn1 u h hu _ _
          cases h
          rw [huser] at hu
          cases hu
          simp [sessionUserOf, studentOf, teacherOf, adminOf]
        · simp only [hactive, hpw, Bool.not_true, Bool.false_eq_true, if_false]
          simp only [Bool.not_eq_true] at hpw
          simp only [hpw, Bool.not_false, if_true]
          refine ⟨⟨by simp, ?_⟩, ?_, fun _ => ⟨_, by decide, rfl⟩⟩
          · rintro ⟨idn1, u, h, hu, _, hc⟩
            cases h
            rw [huser] at hu
            cases hu
            rw [hpw] at hc
            simp at hc
          · intro idn1 u h hu _ hc
            cases h
            rw [huser] at hu
            cases hu
            rw [hpw] at hc
            simp at hc
      · simp only [Bool.not_eq_true] at hactive
        simp only [hactive, Bool.not_false, if_true]
        refine ⟨⟨by simp, ?_⟩, ?_, fun _ => ⟨_, by decide, rfl⟩⟩
        · rintro ⟨idn1, u, h, hu, ha, _⟩
          cases h
          rw [huser] at hu
          cases hu
          rw [hactive] at ha
          simp at ha
        · intro idn1 u h hu ha _
          cases h
          rw [huser] at hu
          cases hu
          rw [hactive] at ha
          simp at ha

/-- C28 at the two-school store: the Riverview student logs in with the id U3, typed
with a blank before and a no-break space after it, and the password secret; the answer
is the redirect to the student dashboard and the session gets user 3 with student id 1.
A wrong password, a deactivated account and an unknown id each get the login page with
an error and no session user. -/
theorem login_sets_session_iff_witness :
    login sampleCompare sampleDB (some " U3\u00a0") (some "secret") =
      (.redirect "/student/dashboard",
       some { id := 3, role := "student", school := some "Riverview", studentId := some 1,
              teacherId := none, adminId := none, idNumber := some "U3",
              firstName := some "F", lastName := some "L", avatar := none }) ∧
    login sampleCompare sampleDB (some "U3") (some "wrong") =
      (.loginPage "Invalid ID number or password", none) ∧
    login sampleCompare (deactivate sampleDB 3) (some "U3") (some "secret") =
      (.loginPage "Account is deactivated. Please contact administrator.", none) ∧
    login sampleCompare sampleDB (some "U99") (some "secret") =
      (.loginPage "Invalid ID number or password", none) :=
  ⟨((login_sets_session_iff sampleCompare sampleDB (some " U3\u00a0") (some "secret")).2.2.1
      " U3\u00a0" (mkUser 3 "student" (some "Riverview") 30) rfl (by decide) (by decide)
      (by decide)).trans (by decide),
   by decide, by decide, by decide⟩

/-- The student branch of createUser writes no user row: it keeps the user table or
removes the rows with the id of the new user. -/
theorem createUserStudent_users (clock : Clock) (actor : Int) (db : DB) (user : User)
    (body : CreateUserBody) :
    (createUserStudent clock actor db user body).2.users = db.users ∨
      (createUserStudent clock actor db user body).2.users =
        db.users.filter (fun u => u.id != user.id) := by
  unfold createUserStudent
  by_cases h1 : (!truthy body.grade || !truthy body.sectionName) = true
  · rw [if_pos h1]
    exact Or.inr rfl
  · rw [if_neg h1]
    cases partialExpiry clock body.tuitionStatus 30 with
    | none => exact Or.inl rfl
    | some expiry =>
      simp only
      by_cases h2 : (truthy body.receiptNumber && body.tuitionStatus == some "paid") = true
      · rw [if_pos h2]
        split_ifs <;> exact Or.inl rfl
      · rw [if_neg h2]
        exact Or.inl rfl

/-- Every user row that createUser leaves in the table is an old row or a row with the
school assignedSchool. -/
theorem createUser_users (clock : Clock) (hashPassword : String → String) (actor : Int)
    (ctx : Ctx) (db : DB) (body : CreateUserBody) (file : Option String) :
    ∀ u ∈ (createUser clock hashPassword actor ctx db body file).2.users,
      u ∈ db.users ∨ u.school = assignedSchool ctx body := by
  intro u hu
  unfold createUser at hu
  split at hu
  · exact Or.inl hu
  · simp only at hu
    split at hu
    · exact Or.inl hu
    · have hnew : ∀ (l : List User) (x : User), x.school = assignedSchool ctx body →
          u ∈ db.users ++ [x] → u ∈ db.users ∨ u.school = assignedSchool ctx body := by
        intro l x hx hmem
        rcases List.mem_append.mp hmem with h | h
        · exact Or.inl h
        · rw [List.mem_singleton] at h
          exact Or.inr (h ▸ hx)
      split at hu
      · rcases createUserStudent_users clock actor _ _ body with h | h
        · rw [h] at hu
          exact hnew [] _ rfl hu
        · rw [h] at hu
          exact hnew [] _ rfl (List.mem_of_mem_filter hu)
      · split at hu
        · split at hu
          · exact hnew [] _ rfl (List.mem_of_mem_filter hu)
          · exact hnew [] _ rfl hu
        · split at hu
          · exact hnew [] _ rfl hu
          · exact hnew [] _ rfl hu

/-- C29: a user row that createUser adds to the table has the school of the context
when the context is not a superadmin, whatever school the body names; under a superadmin
context it has the school of the body, or null when the body names none (or an empty
one). -/
theorem createUser_school (clock : Clock) (hashPassword : String → String) (actor : Int)
    (ctx : Ctx) (db : DB) (body : CreateUserBody) (file : Option String) (u : User)
    (hu : u ∈ (createUser clock hashPassword actor ctx db body file).2.users)
    (hnew : u ∉ db.users) :
    (ctx.isSuperAdmin = false → u.school = ctx.userSchool) ∧
    (ctx.isSuperAdmin = true →
      u.school = if truthy body.school = true then body.school else none) := by
  have hschool : u.school = assignedSchool ctx body := by
    rcases createUser_users clock hashPassword actor ctx db body file u hu with h | h
    · exact absurd h hnew
    · exact h
  rw [hschool]
  unfold assignedSchool
  constructor
  · intro h
    simp [h]
  · intro h
    simp [h]

/-- C29 at the two-school store: the Greenwood principal creates a teacher and asks for
the school Riverview; the new user 7 is stored with the school Greenwood. The same body
under the superadmin context gives the school Riverview, and without a school in the
body null. -/
theorem createUser_school_witness :
    ((createUser sampleClock (fun s => s) 1 greenwoodCtx sampleDB otherSchoolBody none).2.users.map
        (fun u => (u.id, u.school))).getLast? = some (7, some "Greenwood") ∧
    ((createUser sampleClock (fun s => s) 1 superCtx sampleDB otherSchoolBody none).2.users.map
        (fun u => (u.id, u.school))).getLast? = some (7, some "Riverview") ∧
    ((createUser sampleClock (fun s => s) 1 superCtx sampleDB
        { otherSchoolBody with school := none } none).2.users.map
        (fun u => (u.id, u.school))).getLast? = some (7, none) ∧
    (∀ u ∈ (createUser sampleClock (fun s => s) 1 greenwoodCtx sampleDB otherSchoolBody
        none).2.users, u ∉ sampleDB.users → u.school = some "Greenwood") :=
  ⟨by decide, by decide, by decide,
   fun u hu hnew =>
     (createUser_school sampleClock (fun s => s) 1 greenwoodCtx sampleDB otherSchoolBody none u
       hu hnew).1 rfl⟩

/-- C30: the Riverview teacher creates an exam without totalMarks whose only question
is multiple_choice with 5 points and no marks. createExam stores totalMarks 5; the
student answers the question exactly correctly and submitExam scores 1; viewExamResults
shows the total 5 and 20 percent, and the total it would recompute from the questions
without a stored totalMarks is 1. -/
theorem createExam_points_not_scored :
    (createExam (fun _ _ _ => "New exam") 500 riverviewTeacherSession sampleDB
        (some pointsExamBody)).1 = .success "Exam created successfully!" ∧
    pointsExamDB.exams.map (fun e => (e.id, e.totalMarks)) = [(1, some 5)] ∧
    (submitExam 3000 riverviewStudentSession riverviewMemberCtx
        (takeExam 2000 riverviewStudentSession riverviewMemberCtx
          (createExam (fun _ _ _ => "New exam") 500 riverviewTeacherSession sampleDB
            (some pointsExamBody)).2
          (some 1)).2
        (some 1) (some [.str "B"]) (some 30)).1 =
      .ok { score := 1, totalQuestions := 1, attemptId := 1 } ∧
    pointsExamDB.examAttempts.map (fun a => (a.status, a.score)) = [("submitted", some 1)] ∧
    (viewExamResults riverviewStudentSession riverviewMemberCtx pointsExamDB
        (some 1)).payload.map (fun p => (p.attempt.score, p.totalMarks, p.percentage)) =
      some (some 1, 5, some 20) ∧
    pointsExamDB.exams.map (fun e => resultsTotalMarks { e with totalMarks := none }) = [1] := by
  decide!

end EdTech
